import Mathlib

set_option maxRecDepth 4000

/-!
Verification development for the gb-rs Game Boy emulator.

This file gives a shallow embedding, in Lean, of the CPU core
(`src/cpu/mod.rs`, `src/cpu/register.rs`), the memory bus (`src/bus.rs`)
and the peripherals the bus dispatches into (`src/cartridge.rs`,
`src/gfx.rs`, `src/timer.rs`, `src/joypad.rs`, `src/interrupt.rs`),
and proves properties of the embedded code.

Conventions of the embedding:
* Machine integers (`u8`, `u16`, `u32`) are modelled as `Nat`.  Wherever
  the Rust code wraps (release-mode `+`, `wrapping_add`, `wrapping_sub`,
  shifts, `as` casts) the embedding applies an explicit `% 256` /
  `% 65536` mask.  Values stored into a `u8`/`u16` location are masked at
  the store, so that the struct fields stay in range by construction.
* Byte arrays (`Box<[u8]>`) are modelled as total functions `Nat → Nat`;
  a read from such a map is masked `% 256`, encoding the `u8` element
  type of the slice.
* Code paths that panic in Rust (`panic!`, `unreachable!`) are modelled
  with `Option`: a function that can reach a panic returns `none` there.
* Rust `bitflags` values (`InterruptFlag`) are modelled as plain `Nat`
  bit masks.
-/

namespace GbRs

/-- Update of a byte-map at one address (the effect of `slice[addr] = b`
on the functional model of the slice). -/
def updateFn (f : Nat → Nat) (k v : Nat) : Nat → Nat :=
  fun a => if a = k then v else f a

/-- Write a single bit of a byte, as `bitvec`'s `bits.set(i, b)` does on
a `u8` viewed in `Lsb0` order. -/
def setBitTo (v i : Nat) (b : Bool) : Nat :=
  if b then v ||| (1 <<< i) else v &&& (0xFF ^^^ (1 <<< i))

/-- Sign extension of a byte to 16 bits: the Rust cast chain
`as i8 as i16 as u16` applied to a `u8` value. -/
def signExtend8 (d : Nat) : Nat :=
  if 0x80 ≤ d then 0xFF00 + d else d

/-! ## `src/interrupt.rs` — the `InterruptFlag` bitflags -/

namespace InterruptFlag

def VBLANK : Nat := 0b00000001
def STAT : Nat := 0b00000010
def TIMER : Nat := 0b00000100
def SERIAL : Nat := 0b00001000
def JOYPAD : Nat := 0b00010000

/-- bitflags `empty()`. -/
def empty : Nat := 0

/-- bitflags `contains`: all bits of `f` are present in `s`. -/
def contains (s f : Nat) : Bool := s &&& f == f

/-- bitflags `from_bits_truncate`: keep only the five defined bits. -/
def from_bits_truncate (b : Nat) : Nat := b &&& 0b00011111

end InterruptFlag

/-! ## `src/cpu/register.rs` — the register file -/

/-- The four 16-bit register pairs (each Rust `Register(u16)` is a plain
`Nat` kept below `0x10000` by the stores). -/
structure Registers where
  af : Nat
  bc : Nat
  de : Nat
  hl : Nat
  deriving Repr, DecidableEq

instance : Inhabited Registers := ⟨⟨0, 0, 0, 0⟩⟩

inductive Reg where
  | A | B | C | D | E | H | L
  deriving Repr, DecidableEq

inductive RegPair where
  | AF | BC | DE | HL
  deriving Repr, DecidableEq

namespace Registers

/-- Zero flag (`FLAG_Z`). -/
def FLAG_Z : Nat := 0x80
/-- Subtract flag (`FLAG_N`). -/
def FLAG_N : Nat := 0x40
/-- Half Carry flag (`FLAG_H`). -/
def FLAG_H : Nat := 0x20
/-- Carry flag (`FLAG_C`). -/
def FLAG_C : Nat := 0x10

/-- `Register::hi`: `(self.0 >> 8) as u8`. -/
def hi (v : Nat) : Nat := (v >>> 8) % 256

/-- `Register::lo`: `(self.0 & 0x00FF) as u8`. -/
def lo (v : Nat) : Nat := v &&& 0x00FF

/-- `Register::set_hi`: `self.0 = ((b as u16) << 8) | (self.0 & 0xFF)`
(`b` has type `u8`, encoded by the mask on `b`). -/
def set_hi (v b : Nat) : Nat := ((b % 256) <<< 8) ||| (v &&& 0xFF)

/-- `Register::set_lo`: `self.0 = (self.0 & 0xFF00) | (b as u16)`. -/
def set_lo (v b : Nat) : Nat := (v &&& 0xFF00) ||| (b % 256)

/-- `Registers::get`. -/
def get (regs : Registers) (name : Reg) : Nat :=
  match name with
  | .A => hi regs.af
  | .B => hi regs.bc
  | .C => lo regs.bc
  | .D => hi regs.de
  | .E => lo regs.de
  | .H => hi regs.hl
  | .L => lo regs.hl

/-- `Registers::set`. -/
def set (regs : Registers) (name : Reg) (value : Nat) : Registers :=
  match name with
  | .A => {regs with af := set_hi regs.af value}
  | .B => {regs with bc := set_hi regs.bc value}
  | .C => {regs with bc := set_lo regs.bc value}
  | .D => {regs with de := set_hi regs.de value}
  | .E => {regs with de := set_lo regs.de value}
  | .H => {regs with hl := set_hi regs.hl value}
  | .L => {regs with hl := set_lo regs.hl value}

/-- `Registers::get_pair`. -/
def get_pair (regs : Registers) (pair : RegPair) : Nat :=
  match pair with
  | .AF => regs.af
  | .BC => regs.bc
  | .DE => regs.de
  | .HL => regs.hl

/-- `Registers::set_pair`; the write to AF masks out the low nibble of
the flag byte (`value & 0xFFF0`).  The `% 65536` masks encode the `u16`
type of `value`. -/
def set_pair (regs : Registers) (pair : RegPair) (value : Nat) : Registers :=
  match pair with
  | .AF => {regs with af := (value % 65536) &&& 0xFFF0}
  | .BC => {regs with bc := value % 65536}
  | .DE => {regs with de := value % 65536}
  | .HL => {regs with hl := value % 65536}

/-- `Flags::is_set`: `*self.regs.af & self.flag != 0`. -/
def flag_is_set (regs : Registers) (flag : Nat) : Bool :=
  regs.af &&& flag != 0

/-- `Flags::set`: `*self.regs.af |= self.flag`. -/
def flag_set (regs : Registers) (flag : Nat) : Registers :=
  {regs with af := regs.af ||| flag}

/-- `Flags::clear`: `*self.regs.af &= !self.flag` (complement on `u16`). -/
def flag_clear (regs : Registers) (flag : Nat) : Registers :=
  {regs with af := regs.af &&& (0xFFFF ^^^ flag)}

/-- `Flags::set_value`. -/
def flag_set_value (regs : Registers) (flag : Nat) (value : Bool) : Registers :=
  if value then flag_set regs flag else flag_clear regs flag

end Registers

/-! ## `src/cartridge.rs` — cartridge ROM/RAM with MBC1-style banking -/

/-- The cartridge.  `data` (the ROM image) and `ram` are byte maps. -/
structure Cartridge where
  data : Nat → Nat
  ram : Nat → Nat
  selected_rom_bank : Nat
  secondary_bank_register : Nat
  banking_mode_1 : Bool

namespace Cartridge

/-- `Cartridge::get_rom_size`: ROM-size byte of the cartridge header. -/
def get_rom_size (c : Cartridge) : Nat := c.data 0x0148 % 256

/-- `Cartridge::get_ram_size`: RAM-size byte of the cartridge header. -/
def get_ram_size (c : Cartridge) : Nat := c.data 0x0149 % 256

/-- `Cartridge::has_mbc1`: `matches!(self.data[0x0147], 0x01..=0x03)`. -/
def has_mbc1 (c : Cartridge) : Bool :=
  0x01 ≤ c.data 0x0147 % 256 && c.data 0x0147 % 256 ≤ 0x03

/-- `Cartridge::select_rom_bank` (`bank` has type `u8`). -/
def select_rom_bank (c : Cartridge) (bank : Nat) : Cartridge :=
  if bank = 0 && c.has_mbc1 then
    {c with selected_rom_bank := 0x01}
  else
    {c with selected_rom_bank := bank &&& 0x1f}

/-- `Cartridge::set_secondary_bank_register`. -/
def set_secondary_bank_register (c : Cartridge) (bank : Nat) : Cartridge :=
  {c with secondary_bank_register := bank &&& 0x03}

/-- `Cartridge::select_banking_mode` (values other than 0/1 only log). -/
def select_banking_mode (c : Cartridge) (b : Nat) : Cartridge :=
  if b = 0 then {c with banking_mode_1 := false}
  else if b = 1 then {c with banking_mode_1 := true}
  else c

/-- `Cartridge::read_rom`.  The `(… << 5)` shifts are `u8` shifts, hence
the `% 256`; the outer arithmetic is `u32`. -/
def read_rom (c : Cartridge) (addr : Nat) : Nat :=
  let mapped_addr :=
    if addr < 0x4000 then
      if c.banking_mode_1 && 0x05 ≤ c.get_rom_size then
        ((c.secondary_bank_register <<< 5) % 256) * 0x4000 + addr
      else
        addr
    else
      let bank_num :=
        if 0x05 ≤ c.get_rom_size then
          -- u8 addition of the two bank registers
          ((c.secondary_bank_register <<< 5) % 256 + c.selected_rom_bank) % 256
        else
          c.selected_rom_bank
      0x4000 * bank_num + (addr - 0x4000)
  c.data mapped_addr % 256

/-- `Cartridge::read_ram` (the `assert!(addr < 0x2000)` holds at the
bus call site, which passes `addr - 0xA000`). -/
def read_ram (c : Cartridge) (addr : Nat) : Nat :=
  let mapped_addr :=
    if c.banking_mode_1 && 0x03 ≤ c.get_ram_size then
      0x2000 * c.secondary_bank_register + addr
    else
      addr
  c.ram mapped_addr % 256

/-- `Cartridge::write_ram`. -/
def write_ram (c : Cartridge) (addr b : Nat) : Cartridge :=
  {c with ram := updateFn c.ram (0x2000 * c.secondary_bank_register + addr) (b % 256)}

end Cartridge

/-! ## `src/timer.rs` — divider and TIMA timer -/

inductive ClockSpeed where
  | Speed0 | Speed1 | Speed2 | Speed3
  deriving Repr, DecidableEq

/-- `ClockSpeed as u8` (the `#[repr(u8)]` discriminants). -/
def ClockSpeed.toNat : ClockSpeed → Nat
  | .Speed0 => 0
  | .Speed1 => 1
  | .Speed2 => 2
  | .Speed3 => 3

structure Timer where
  div_timer : Nat
  tima : Nat
  tma : Nat
  tac_timer_enable : Bool
  tac_input_clock_select : ClockSpeed
  tima_has_overflowed : Bool

namespace Timer

/-- `Timer::update_div`: store the new divider value and update TIMA on
a falling edge of the selected divider bit. -/
def update_div (t : Timer) (new_value : Nat) : Timer :=
  let old_div_timer := t.div_timer
  let t := {t with div_timer := new_value % 65536}
  if t.tac_timer_enable then
    let bit_num : Nat :=
      match t.tac_input_clock_select with
      | .Speed0 => 9
      | .Speed1 => 3
      | .Speed2 => 5
      | .Speed3 => 7
    let old_bit := old_div_timer.testBit bit_num
    let new_bit := t.div_timer.testBit bit_num
    if old_bit && !new_bit then
      -- (new_tima, overflow) = self.tima.overflowing_add(1)
      if 256 ≤ t.tima + 1 then
        {t with tima_has_overflowed := true, tima := 0}
      else
        {t with tima := (t.tima + 1) % 256}
    else t
  else t

/-- `Timer::set_tac`: bit 2 is the enable, bits 0-1 the clock select
(the `unreachable!` arm is dead: the loaded value is below 4). -/
def set_tac (t : Timer) (tac : Nat) : Timer :=
  {t with
    tac_timer_enable := tac.testBit 2,
    tac_input_clock_select :=
      if tac % 4 = 0 then .Speed0
      else if tac % 4 = 1 then .Speed1
      else if tac % 4 = 2 then .Speed2
      else .Speed3}

/-- `Timer::tac`: unused bits read as 1. -/
def tac (t : Timer) : Nat :=
  ((setBitTo 0xFF 2 t.tac_timer_enable) &&& 0xFC) ||| t.tac_input_clock_select.toNat

/-- `Timer::div_timer` accessor: `(self.div_timer >> 8) as u8`. -/
def div_timer_read (t : Timer) : Nat := (t.div_timer >>> 8) % 256

/-- `Timer::reset_div_timer`. -/
def reset_div_timer (t : Timer) : Timer := t.update_div 0

/-- `Timer::set_tima`. -/
def set_tima (t : Timer) (tima : Nat) : Timer := {t with tima := tima % 256}

/-- `Timer::set_tma`. -/
def set_tma (t : Timer) (tma : Nat) : Timer := {t with tma := tma % 256}

end Timer

/-! ## `src/joypad.rs` — joypad controller register -/

structure Joypad where
  action_selected : Bool
  direction_selected : Bool
  select_pressed : Bool
  start_pressed : Bool
  a_pressed : Bool
  b_pressed : Bool
  up_pressed : Bool
  down_pressed : Bool
  left_pressed : Bool
  right_pressed : Bool

namespace Joypad

/-- `Joypad::read`: bits are active-low; bits 4-7 read as 1. -/
def read (j : Joypad) : Nat :=
  let byte := 0xFF
  if j.action_selected then
    setBitTo (setBitTo (setBitTo (setBitTo byte 0 (!j.a_pressed))
      1 (!j.b_pressed)) 2 (!j.select_pressed)) 3 (!j.start_pressed)
  else if j.direction_selected then
    setBitTo (setBitTo (setBitTo (setBitTo byte 0 (!j.right_pressed))
      1 (!j.left_pressed)) 2 (!j.up_pressed)) 3 (!j.down_pressed)
  else
    byte

/-- `Joypad::write`: bits 4/5 (active-low) select the button groups. -/
def write (j : Joypad) (b : Nat) : Joypad :=
  {j with direction_selected := !(b.testBit 4), action_selected := !(b.testBit 5)}

end Joypad

/-! ## `src/gfx.rs` — the parts of the graphics unit the bus dispatches
into (VRAM/OAM access and the LCD registers).  The rendering state that
no embedded operation touches (the `lcd` framebuffer, the `dots`
counter, `line_drawing_state`) is omitted. -/

inductive Mode where
  | Mode0 | Mode1 | Mode2 | Mode3
  deriving Repr, DecidableEq

/-- `Mode as u8` (the `#[repr(u8)]` discriminants). -/
def Mode.toNat : Mode → Nat
  | .Mode0 => 0
  | .Mode1 => 1
  | .Mode2 => 2
  | .Mode3 => 3

inductive Color where
  | White | LightGray | DarkGray | Black
  deriving Repr, DecidableEq

/-- `Color::as_u8`. -/
def Color.as_u8 : Color → Nat
  | .White => 0
  | .LightGray => 1
  | .DarkGray => 2
  | .Black => 3

/-- `From<u8> for Color` (callers pass a two-bit value, so the
`unreachable!` arm is dead; values above 3 map to `Black`). -/
def Color.fromNat (b : Nat) : Color :=
  if b = 0 then .White
  else if b = 1 then .LightGray
  else if b = 2 then .DarkGray
  else .Black

/-- `Palette([Color; 4])`. -/
structure Palette where
  c0 : Color
  c1 : Color
  c2 : Color
  c3 : Color
  deriving Repr, DecidableEq

/-- `get_palette_as_byte`: color `i` occupies bits `2i, 2i+1`. -/
def get_palette_as_byte (p : Palette) : Nat :=
  p.c0.as_u8 ||| (p.c1.as_u8 <<< 2) ||| (p.c2.as_u8 <<< 4) ||| (p.c3.as_u8 <<< 6)

/-- `set_palette_data`: the `Msb0` ranges `[6..=7]`, `[4..=5]`, `[2..=3]`,
`[0..=1]` of the byte are its physical bit pairs `0-1`, `2-3`, `4-5`,
`6-7` respectively. -/
def set_palette_data (b : Nat) : Palette :=
  { c0 := Color.fromNat (b % 4)
    c1 := Color.fromNat ((b >>> 2) % 4)
    c2 := Color.fromNat ((b >>> 4) % 4)
    c3 := Color.fromNat ((b >>> 6) % 4) }

structure Gfx where
  vram : Nat → Nat
  oam_ram : Nat → Nat
  running_mode : Mode
  lcd_and_ppu_enabled : Bool
  window_tile_map_area : Bool
  window_enable : Bool
  bg_and_window_tile_data_area : Bool
  bg_tile_map_area : Bool
  obj_size : Bool
  obj_enabled : Bool
  bg_and_window_enable : Bool
  scy : Nat
  scx : Nat
  ly : Nat
  lyc : Nat
  wy : Nat
  wx : Nat
  stat_lyc_eq_ly_itr_source : Bool
  stat_oam_itr_source : Bool
  stat_vblank_itr_source : Bool
  stat_hblank_itr_source : Bool
  stat_lyc_eq_ly_active : Bool
  stat_oam_active : Bool
  stat_vblank_active : Bool
  stat_hblank_active : Bool
  bgp : Palette
  obp0 : Palette
  obp1 : Palette

namespace Gfx

/-- `Gfx::read_vram_internal`: `self.vram[(addr - VRAM_START)]`. -/
def read_vram_internal (g : Gfx) (addr : Nat) : Nat :=
  g.vram (addr - 0x8000) % 256

/-- `Gfx::read_vram`: locked (reads `0xFF`) while the PPU is drawing. -/
def read_vram (g : Gfx) (addr : Nat) : Nat :=
  if g.running_mode ≠ Mode.Mode3 || !g.lcd_and_ppu_enabled then
    g.read_vram_internal addr
  else
    0xff

/-- `Gfx::write_vram`. -/
def write_vram (g : Gfx) (addr b : Nat) : Gfx :=
  if g.running_mode ≠ Mode.Mode3 || !g.lcd_and_ppu_enabled then
    {g with vram := updateFn g.vram (addr - 0x8000) (b % 256)}
  else
    g

/-- `Gfx::read_oam`. -/
def read_oam (g : Gfx) (addr : Nat) : Nat :=
  if !g.lcd_and_ppu_enabled
      || (g.running_mode ≠ Mode.Mode2 && g.running_mode ≠ Mode.Mode3) then
    g.oam_ram (addr - 0xFE00) % 256
  else
    0xff

/-- `Gfx::write_oam`. -/
def write_oam (g : Gfx) (addr b : Nat) : Gfx :=
  if !g.lcd_and_ppu_enabled
      || (g.running_mode ≠ Mode.Mode2 && g.running_mode ≠ Mode.Mode3) then
    {g with oam_ram := updateFn g.oam_ram (addr - 0xFE00) (b % 256)}
  else
    g

/-- `Gfx::stat`: the value of the STAT register (FF41). -/
def stat (g : Gfx) : Nat :=
  let b := setBitTo (setBitTo (setBitTo (setBitTo 0
    6 g.stat_lyc_eq_ly_itr_source) 5 g.stat_oam_itr_source)
    4 g.stat_vblank_itr_source) 3 g.stat_hblank_itr_source
  let b := setBitTo b 2 (g.ly == g.lyc)
  let mode := g.running_mode.toNat
  setBitTo (setBitTo b 1 (mode.testBit 1)) 0 (mode.testBit 0)

/-- `Gfx::set_stat`: only the interrupt-source bits are writable. -/
def set_stat (g : Gfx) (s : Nat) : Gfx :=
  {g with
    stat_lyc_eq_ly_itr_source := s.testBit 6,
    stat_oam_itr_source := s.testBit 5,
    stat_vblank_itr_source := s.testBit 4,
    stat_hblank_itr_source := s.testBit 3}

/-- `Gfx::read_reg`: the LCD register file (CGB-only registers read as
`0xFF`). -/
def read_reg (g : Gfx) (addr : Nat) : Nat :=
  if addr = 0xFF40 then
    setBitTo (setBitTo (setBitTo (setBitTo (setBitTo (setBitTo (setBitTo
      (setBitTo 0 7 g.lcd_and_ppu_enabled) 6 g.window_tile_map_area)
      5 g.window_enable) 4 g.bg_and_window_tile_data_area)
      3 g.bg_tile_map_area) 2 g.obj_size) 1 g.obj_enabled)
      0 g.bg_and_window_enable
  else if addr = 0xFF41 then g.stat
  else if addr = 0xFF42 then g.scy
  else if addr = 0xFF43 then g.scx
  else if addr = 0xFF44 then g.ly
  else if addr = 0xFF45 then g.lyc
  else if addr = 0xFF4A then g.wy
  else if addr = 0xFF4B then g.wx
  else if addr = 0xFF47 then get_palette_as_byte g.bgp
  else if addr = 0xFF48 then get_palette_as_byte g.obp0
  else if addr = 0xFF49 then get_palette_as_byte g.obp1
  else 0xFF

/-- `Gfx::write_reg` (CGB-only registers are ignored). -/
def write_reg (g : Gfx) (addr b : Nat) : Gfx :=
  if addr = 0xFF40 then
    {g with
      lcd_and_ppu_enabled := b.testBit 7,
      window_tile_map_area := b.testBit 6,
      window_enable := b.testBit 5,
      bg_and_window_tile_data_area := b.testBit 4,
      bg_tile_map_area := b.testBit 3,
      obj_size := b.testBit 2,
      obj_enabled := b.testBit 1,
      bg_and_window_enable := b.testBit 0}
  else if addr = 0xFF41 then g.set_stat b
  else if addr = 0xFF42 then {g with scy := b % 256}
  else if addr = 0xFF43 then {g with scx := b % 256}
  else if addr = 0xFF44 then {g with ly := b % 256}
  else if addr = 0xFF45 then {g with lyc := b % 256}
  else if addr = 0xFF4A then {g with wy := b % 256}
  else if addr = 0xFF4B then {g with wx := b % 256}
  else if addr = 0xFF47 then {g with bgp := set_palette_data b}
  else if addr = 0xFF48 then {g with obp0 := set_palette_data b}
  else if addr = 0xFF49 then {g with obp1 := set_palette_data b}
  else g

end Gfx

/-! ## `src/bus.rs` — the memory bus -/

/-- The bus.  `ram` is the 8 KiB work RAM, `hram` the 127-byte high RAM;
`boot_rom` stands for the `include_bytes!` DMG boot-ROM asset (a binary
file that is not part of the sources, so its contents stay abstract).
`interrupt_enable` / `interrupt_flag` hold `InterruptFlag` bit sets. -/
structure Bus where
  ram : Nat → Nat
  hram : Nat → Nat
  gfx : Gfx
  cartridge : Cartridge
  joypad : Joypad
  input_has_changed : Bool
  has_booted : Bool
  interrupt_enable : Nat
  interrupt_flag : Nat
  timer : Timer
  boot_rom : Nat → Nat

namespace Bus

/-- `Bus::read_io` (named `read_io` in the source): read access to the
I/O registers `0xFF00..=0xFF7F`.  Unimplemented registers read as 0. -/
def read_io_reg (bus : Bus) (addr : Nat) : Nat :=
  if addr = 0xFF00 then bus.joypad.read
  else if 0xFF01 ≤ addr ∧ addr ≤ 0xFF02 then 0
  else if 0xFF04 ≤ addr ∧ addr ≤ 0xFF07 then
    if addr = 0xFF04 then bus.timer.div_timer_read
    else if addr = 0xFF05 then bus.timer.tima
    else if addr = 0xFF06 then bus.timer.tma
    else bus.timer.tac -- addr = 0xFF07; the logging catch-all arm is dead
  else if addr = 0xFF0F then bus.interrupt_flag
  else if 0xFF10 ≤ addr ∧ addr ≤ 0xFF26 then 0
  else if 0xFF30 ≤ addr ∧ addr ≤ 0xFF3F then 0
  else if 0xFF40 ≤ addr ∧ addr ≤ 0xFF4F then bus.gfx.read_reg addr
  else if addr = 0xFF50 then 0
  else 0

/-- `Bus::read_byte`.  The ECHO-RAM arm of the source recurses with
`self.read_byte(addr - 0x2000)`; that mirrored address always lands in
the WRAM arm, which is inlined here so the definition is
non-recursive. -/
def read_byte (bus : Bus) (addr : Nat) : Nat :=
  if addr ≤ 0x00FF ∧ bus.has_booted = false then
    bus.boot_rom addr % 256
  else if addr ≤ 0x3FFF ∨ (0x4000 ≤ addr ∧ addr ≤ 0x7FFF) then
    bus.cartridge.read_rom addr
  else if 0x8000 ≤ addr ∧ addr ≤ 0x9FFF then
    bus.gfx.read_vram addr
  else if 0xA000 ≤ addr ∧ addr ≤ 0xBFFF then
    bus.cartridge.read_ram (addr - 0xA000)
  else if 0xC000 ≤ addr ∧ addr ≤ 0xDFFF then
    bus.ram (addr - 0xC000) % 256
  else if 0xE000 ≤ addr ∧ addr ≤ 0xFDFF then
    bus.ram (addr - 0x2000 - 0xC000) % 256
  else if 0xFE00 ≤ addr ∧ addr ≤ 0xFE9F then
    bus.gfx.read_oam addr
  else if 0xFEA0 ≤ addr ∧ addr ≤ 0xFEFF then
    0x00
  else if 0xFF00 ≤ addr ∧ addr ≤ 0xFF7F then
    bus.read_io_reg addr
  else if 0xFF80 ≤ addr ∧ addr ≤ 0xFFFE then
    bus.hram (addr - 0xFF80) % 256
  else if addr = 0xFFFF then
    bus.interrupt_enable
  else
    0 -- `unreachable!()`: every 16-bit address is covered by the arms above

/-- `Bus::read_word`: little-endian; the `addr + 1` is `u16` addition
(wrapping in release builds). -/
def read_word (bus : Bus) (addr : Nat) : Nat :=
  let lsb := bus.read_byte addr
  let msb := bus.read_byte ((addr + 1) % 65536)
  (msb <<< 8) ||| lsb

/-- `Bus::write_io` (named `write_io` in the source): write access to
the I/O registers; `0xFF46` triggers the OAM DMA copy loop. -/
def write_io_reg (bus : Bus) (addr b : Nat) : Bus :=
  if addr = 0xFF00 then {bus with joypad := bus.joypad.write b}
  else if 0xFF01 ≤ addr ∧ addr ≤ 0xFF02 then bus
  else if 0xFF04 ≤ addr ∧ addr ≤ 0xFF07 then
    if addr = 0xFF04 then {bus with timer := bus.timer.reset_div_timer}
    else if addr = 0xFF05 then {bus with timer := bus.timer.set_tima b}
    else if addr = 0xFF06 then {bus with timer := bus.timer.set_tma b}
    else {bus with timer := bus.timer.set_tac b} -- 0xFF07; `unreachable!` is dead
  else if addr = 0xFF0F then
    {bus with interrupt_flag := InterruptFlag.from_bits_truncate b}
  else if 0xFF10 ≤ addr ∧ addr ≤ 0xFF26 then bus
  else if 0xFF30 ≤ addr ∧ addr ≤ 0xFF3F then bus
  else if 0xFF40 ≤ addr ∧ addr ≤ 0xFF4F then
    if addr = 0xFF46 then
      -- OAM DMA transfer: `for i in 0..=0x9F`, copy from `(b as u16)*0x100`
      let base_addr := (b % 256) * 0x100
      (List.range 0xA0).foldl
        (fun busAcc i =>
          {busAcc with
            gfx := busAcc.gfx.write_oam (0xFE00 + i) (busAcc.read_byte (base_addr + i))})
        bus
    else
      {bus with gfx := bus.gfx.write_reg addr b}
  else if addr = 0xFF50 then
    if b = 0x01 then {bus with has_booted := true} else bus
  else
    bus -- the CGB-only `0xff68..=0xff69` arm and the final arm both only log

/-- `Bus::write_byte`.  Returns `none` on the boot-ROM-write `panic!`
(and on the dead `unreachable!` above 16 bits).  The ECHO-RAM arm of the
source recurses with `self.write_byte(addr - 0x2000, b)`; the mirrored
address always lands in the WRAM arm, which is inlined here. -/
def write_byte (bus : Bus) (addr b : Nat) : Option Bus :=
  if addr ≤ 0x00FF ∧ bus.has_booted = false then
    none -- panic!("Tried to write into boot ROM during the boot sequence!")
  else if addr ≤ 0x3FFF then
    if addr ≤ 0x1FFF then
      some bus -- external-RAM enable/disable: only logged
    else if 0x2000 ≤ addr ∧ addr < 0x3FFF then
      some {bus with cartridge := bus.cartridge.select_rom_bank b}
    else
      some bus -- addr = 0x3FFF falls through both sub-ranges
  else if 0x4000 ≤ addr ∧ addr ≤ 0x7FFF then
    if 0x4000 ≤ addr ∧ addr ≤ 0x5FFF then
      some {bus with cartridge := bus.cartridge.set_secondary_bank_register b}
    else
      some {bus with cartridge := bus.cartridge.select_banking_mode b}
  else if 0x8000 ≤ addr ∧ addr ≤ 0x9FFF then
    some {bus with gfx := bus.gfx.write_vram addr b}
  else if 0xA000 ≤ addr ∧ addr ≤ 0xBFFF then
    some {bus with cartridge := bus.cartridge.write_ram (addr - 0xA000) b}
  else if 0xC000 ≤ addr ∧ addr ≤ 0xDFFF then
    some {bus with ram := updateFn bus.ram (addr - 0xC000) (b % 256)}
  else if 0xE000 ≤ addr ∧ addr ≤ 0xFDFF then
    some {bus with ram := updateFn bus.ram (addr - 0x2000 - 0xC000) (b % 256)}
  else if 0xFE00 ≤ addr ∧ addr ≤ 0xFE9F then
    some {bus with gfx := bus.gfx.write_oam addr b}
  else if 0xFEA0 ≤ addr ∧ addr ≤ 0xFEFF then
    some bus -- writes to the invalid area are ignored
  else if 0xFF00 ≤ addr ∧ addr ≤ 0xFF7F then
    some (bus.write_io_reg addr b)
  else if 0xFF80 ≤ addr ∧ addr ≤ 0xFFFE then
    some {bus with hram := updateFn bus.hram (addr - 0xFF80) (b % 256)}
  else if addr = 0xFFFF then
    some {bus with interrupt_enable := InterruptFlag.from_bits_truncate b}
  else
    none -- `unreachable!()` (dead: callers mask addresses to 16 bits)

/-- `Bus::write_word`: little-endian, lsb first; the `addr + 1` is `u16`
addition (wrapping in release builds). -/
def write_word (bus : Bus) (addr word : Nat) : Option Bus := do
  let lsb := word % 256
  let msb := (word >>> 8) % 256
  let bus ← bus.write_byte addr lsb
  bus.write_byte ((addr + 1) % 65536) msb

/-- `Bus::ack_interrupt`: `self.interrupt_flag.toggle(flag)` — note the
source uses bitflags `toggle`, i.e. an exclusive-or of the given bits. -/
def ack_interrupt (bus : Bus) (flag : Nat) : Bus :=
  {bus with interrupt_flag := bus.interrupt_flag ^^^ flag}

/-- Modelled from the spec: `Bus::interrupt_pending` is called by the
CPU (`src/cpu/mod.rs`) but its definition is missing from the sources;
the spec defines it as `interrupt_enable() & interrupt_flag() != 0`.
(The Rust accessors `interrupt_enable()` / `interrupt_flag()` just
return the fields, which the Lean projections of the same name do.) -/
def interrupt_pending (bus : Bus) : Bool :=
  bus.interrupt_enable &&& bus.interrupt_flag != 0

end Bus

/-! ## `src/cpu/mod.rs` — the CPU core -/

/-- Interrupt vector addresses. -/
def ITR_VBLANK : Nat := 0x0040
def ITR_STAT : Nat := 0x0048
def ITR_TIMER : Nat := 0x0050
def ITR_SERIAL : Nat := 0x0058
def ITR_JOYP : Nat := 0x0060

structure Cpu where
  regs : Registers
  sp : Nat
  pc : Nat
  halted : Bool
  /-- IME - Interrupt Master Enable Flag -/
  ime : Bool
  -- for debugging
  breakpoint : Nat
  paused : Bool
  /-- Pause cpu if LD B,B is encountered -/
  enable_soft_break : Bool
  /-- Flag for the HALT bug -/
  halt_bug : Bool

/-- `impl Default for Cpu`. -/
def Cpu.default : Cpu :=
  { regs := ⟨0, 0, 0, 0⟩
    sp := 0
    pc := 0
    halted := false
    ime := true
    breakpoint := 0xffff
    paused := false
    enable_soft_break := false
    halt_bug := false }

namespace Cpu

/-- `Cpu::get_itr_vector` (the `unimplemented!` arm is dead: the only
callers pass one of the five interrupt flags). -/
def get_itr_vector (flag : Nat) : Nat :=
  if flag = InterruptFlag.VBLANK then ITR_VBLANK
  else if flag = InterruptFlag.STAT then ITR_STAT
  else if flag = InterruptFlag.TIMER then ITR_TIMER
  else if flag = InterruptFlag.SERIAL then ITR_SERIAL
  else if flag = InterruptFlag.JOYPAD then ITR_JOYP
  else 0

/-- `Cpu::fetch`: read the byte at PC; with the HALT-bug flag armed, do
not advance PC (and clear the flag), otherwise `self.pc += 1` (`u16`
addition, wrapping in release builds). -/
def fetch (c : Cpu) (bus : Bus) : Nat × Cpu :=
  let byte := bus.read_byte c.pc
  if c.halt_bug then
    (byte, {c with halt_bug := false})
  else
    (byte, {c with pc := (c.pc + 1) % 65536})

/-- `Cpu::fetch_word`: lsb first, then msb. -/
def fetch_word (c : Cpu) (bus : Bus) : Nat × Cpu :=
  let (lsb, c) := c.fetch bus
  let (msb, c) := c.fetch bus
  ((msb <<< 8) ||| lsb, c)

/-- `Cpu::ld_r_d8`. -/
def ld_r_d8 (c : Cpu) (bus : Bus) (reg : Reg) : Cpu × Nat :=
  let (d8, c) := c.fetch bus
  ({c with regs := c.regs.set reg d8}, 8)

/-- `Cpu::ld_hl_d8`. -/
def ld_hl_d8 (c : Cpu) (bus : Bus) : Option (Cpu × Bus × Nat) :=
  let (d8, c) := c.fetch bus
  (bus.write_byte c.regs.hl d8).map (fun b => (c, b, 12))

/-- `Cpu::ld_r_r`; with the soft-break debug hook enabled, `LD B,B`
pauses the CPU. -/
def ld_r_r (c : Cpu) (rt rs : Reg) : Cpu × Nat :=
  let c :=
    if c.enable_soft_break && rt == Reg.B && rs == Reg.B then
      {c with paused := true}
    else c
  ({c with regs := c.regs.set rt (c.regs.get rs)}, 4)

/-- `Cpu::ld_rr_d16`. -/
def ld_rr_d16 (c : Cpu) (bus : Bus) (reg : RegPair) : Cpu × Nat :=
  let (d16, c) := c.fetch_word bus
  ({c with regs := c.regs.set_pair reg d16}, 12)

/-- `Cpu::ld_r_addr`. -/
def ld_r_addr (c : Cpu) (bus : Bus) (r : Reg) (rr : RegPair) : Cpu × Nat :=
  let addr := c.regs.get_pair rr
  ({c with regs := c.regs.set r (bus.read_byte addr)}, 8)

/-- `Cpu::ld_addr_r`. -/
def ld_addr_r (c : Cpu) (bus : Bus) (rr : RegPair) (r : Reg) : Option (Cpu × Bus × Nat) :=
  let addr := c.regs.get_pair rr
  (bus.write_byte addr (c.regs.get r)).map (fun b => (c, b, 8))

/-- `Cpu::ld_a16_r`. -/
def ld_a16_r (c : Cpu) (bus : Bus) (r : Reg) : Option (Cpu × Bus × Nat) :=
  let (addr, c) := c.fetch_word bus
  (bus.write_byte addr (c.regs.get r)).map (fun b => (c, b, 16))

/-- `Cpu::ld_r_a16`. -/
def ld_r_a16 (c : Cpu) (bus : Bus) (r : Reg) : Cpu × Nat :=
  let (addr, c) := c.fetch_word bus
  let byte := bus.read_byte addr
  ({c with regs := c.regs.set r byte}, 16)

/-- `Cpu::add_sp_r8`: `r8` is sign-extended to 16 bits; the flags are
computed from the low nibble/byte sums. -/
def add_sp_r8 (c : Cpu) (bus : Bus) : Cpu × Nat :=
  let (d, c) := c.fetch bus
  let r8 := signExtend8 d
  let sp := c.sp
  let sum := (sp + r8) % 65536
  let c := {c with sp := sum}
  let regs := c.regs.flag_clear Registers.FLAG_Z
  let regs := regs.flag_clear Registers.FLAG_N
  let regs := regs.flag_set_value Registers.FLAG_H
    (decide (0x000f < (sp &&& 0x000f) + (r8 &&& 0x000f)))
  let regs := regs.flag_set_value Registers.FLAG_C
    (decide (0x00ff < (sp &&& 0x00ff) + (r8 &&& 0x00ff)))
  ({c with regs := regs}, 16)

/-- `Cpu::ld_hl_sp_r8`: implemented in the source via `add_sp_r8`, then
moving the sum into HL and restoring SP. -/
def ld_hl_sp_r8 (c : Cpu) (bus : Bus) : Cpu × Nat :=
  let sp := c.sp
  let (c, _) := c.add_sp_r8 bus
  let c := {c with regs := c.regs.set_pair RegPair.HL c.sp}
  let c := {c with sp := sp}
  (c, 12)

/-- `Cpu::xor`: `A <- A ^ v`. -/
def xor (c : Cpu) (v : Nat) : Cpu × Nat :=
  let new_a := c.regs.get Reg.A ^^^ v
  let regs := c.regs.set Reg.A new_a
  let regs := regs.flag_set_value Registers.FLAG_Z (new_a == 0)
  let regs := regs.flag_clear Registers.FLAG_N
  let regs := regs.flag_clear Registers.FLAG_H
  let regs := regs.flag_clear Registers.FLAG_C
  ({c with regs := regs}, 4)

/-- `Cpu::xor_r`. -/
def xor_r (c : Cpu) (reg : Reg) : Cpu × Nat :=
  c.xor (c.regs.get reg)

/-- `Cpu::xor_d8`. -/
def xor_d8 (c : Cpu) (bus : Bus) : Cpu × Nat :=
  let (v, c) := c.fetch bus
  let (c, _) := c.xor v
  (c, 8)

/-- `Cpu::xor_hl`. -/
def xor_hl (c : Cpu) (bus : Bus) : Cpu × Nat :=
  let v := bus.read_byte c.regs.hl
  let (c, _) := c.xor v
  (c, 8)

/-- `Cpu::and` (`AND <value>`). -/
def and (c : Cpu) (v : Nat) : Cpu × Nat :=
  let res := c.regs.get Reg.A &&& v
  let regs := c.regs.flag_set_value Registers.FLAG_Z (res == 0)
  let regs := regs.flag_clear Registers.FLAG_N
  let regs := regs.flag_set Registers.FLAG_H
  let regs := regs.flag_clear Registers.FLAG_C
  let regs := regs.set Reg.A res
  ({c with regs := regs}, 4)

/-- `Cpu::and_r`. -/
def and_r (c : Cpu) (r : Reg) : Cpu × Nat :=
  c.and (c.regs.get r)

/-- `Cpu::and_d8`. -/
def and_d8 (c : Cpu) (bus : Bus) : Cpu × Nat :=
  let (d8, c) := c.fetch bus
  let (c, _) := c.and d8
  (c, 8)

/-- `Cpu::and_hl`. -/
def and_hl (c : Cpu) (bus : Bus) : Cpu × Nat :=
  let hl := bus.read_byte c.regs.hl
  let (c, _) := c.and hl
  (c, 8)

/-- `Cpu::or`. -/
def or (c : Cpu) (v : Nat) : Cpu × Nat :=
  let res := c.regs.get Reg.A ||| v
  let regs := c.regs.flag_set_value Registers.FLAG_Z (res == 0)
  let regs := regs.flag_clear Registers.FLAG_N
  let regs := regs.flag_clear Registers.FLAG_H
  let regs := regs.flag_clear Registers.FLAG_C
  let regs := regs.set Reg.A res
  ({c with regs := regs}, 4)

/-- `Cpu::or_r`. -/
def or_r (c : Cpu) (r : Reg) : Cpu × Nat :=
  c.or (c.regs.get r)

/-- `Cpu::or_hl`. -/
def or_hl (c : Cpu) (bus : Bus) : Cpu × Nat :=
  let v := bus.read_byte c.regs.hl
  let (c, _) := c.or v
  (c, 8)

/-- `Cpu::or_d8`. -/
def or_d8 (c : Cpu) (bus : Bus) : Cpu × Nat :=
  let (v, c) := c.fetch bus
  let (c, _) := c.or v
  (c, 8)

/-- `Cpu::adc`: add `value` (plus the carry flag when `with_carry`) into
A.  The two `overflowing_add`s are on `u8`. -/
def adc (c : Cpu) (value : Nat) (with_carry : Bool) : Cpu × Nat :=
  let cy := if with_carry && c.regs.flag_is_set Registers.FLAG_C then 1 else 0
  let reg_a := c.regs.get Reg.A
  let sum1 := (reg_a + value) % 256
  let carry1 := decide (256 ≤ reg_a + value)
  let sum2 := (sum1 + cy) % 256
  let carry2 := decide (256 ≤ sum1 + cy)
  let regs := c.regs.set Reg.A sum2
  let regs := regs.flag_set_value Registers.FLAG_Z (sum2 == 0)
  let regs := regs.flag_clear Registers.FLAG_N
  let regs := regs.flag_set_value Registers.FLAG_C (carry1 || carry2)
  let regs := regs.flag_set_value Registers.FLAG_H
    (decide (0x0f < (reg_a &&& 0x0f) + (value &&& 0x0f) + cy))
  ({c with regs := regs}, 8)

/-- `Cpu::add`: `adc` without the carry-in; note it returns 8 like
`adc` does (the callers overwrite the cycle count). -/
def add (c : Cpu) (value : Nat) : Cpu × Nat :=
  let (c, _) := c.adc value false
  (c, 4)

/-- `Cpu::add_r`. -/
def add_r (c : Cpu) (reg : Reg) : Cpu × Nat :=
  c.add (c.regs.get reg)

/-- `Cpu::add_hl_addr` (`ADD (HL)`). -/
def add_hl_addr (c : Cpu) (bus : Bus) : Cpu × Nat :=
  let hl := bus.read_byte c.regs.hl
  let (c, _) := c.add hl
  (c, 8)

/-- `Cpu::add_d8` — note the source returns 4 here. -/
def add_d8 (c : Cpu) (bus : Bus) : Cpu × Nat :=
  let (d8, c) := c.fetch bus
  let (c, _) := c.add d8
  (c, 4)

/-- `Cpu::adc_r`. -/
def adc_r (c : Cpu) (reg : Reg) : Cpu × Nat :=
  c.adc (c.regs.get reg) true

/-- `Cpu::adc_hl`. -/
def adc_hl (c : Cpu) (bus : Bus) : Cpu × Nat :=
  let hl := bus.read_byte c.regs.hl
  let (c, _) := c.adc hl true
  (c, 8)

/-- `Cpu::adc_d8` — note the source returns 4 here. -/
def adc_d8 (c : Cpu) (bus : Bus) : Cpu × Nat :=
  let (d8, c) := c.fetch bus
  let (c, _) := c.adc d8 true
  (c, 4)

/-- `Cpu::sbc`: subtract `value` (plus the carry flag when
`with_carry`) from A.  The two `overflowing_sub`s are on `u8`. -/
def sbc (c : Cpu) (value : Nat) (with_carry : Bool) : Cpu × Nat :=
  let cy := if with_carry && c.regs.flag_is_set Registers.FLAG_C then 1 else 0
  let reg_a := c.regs.get Reg.A
  let sub1 := (reg_a + 256 - value) % 256
  let carry1 := decide (reg_a < value)
  let sub2 := (sub1 + 256 - cy) % 256
  let carry2 := decide (sub1 < cy)
  let regs := c.regs.set Reg.A sub2
  let regs := regs.flag_set_value Registers.FLAG_Z (sub2 == 0)
  let regs := regs.flag_set Registers.FLAG_N
  let regs := regs.flag_set_value Registers.FLAG_C (carry1 || carry2)
  let regs := regs.flag_set_value Registers.FLAG_H
    (decide ((reg_a &&& 0x0f) < (value &&& 0x0f) + cy))
  ({c with regs := regs}, 8)

/-- `Cpu::sub`: `sbc` without the carry-in. -/
def sub (c : Cpu) (v : Nat) : Cpu × Nat :=
  let (c, _) := c.sbc v false
  (c, 4)

/-- `Cpu::sub_r`. -/
def sub_r (c : Cpu) (reg : Reg) : Cpu × Nat :=
  c.sub (c.regs.get reg)

/-- `Cpu::sub_hl_addr`. -/
def sub_hl_addr (c : Cpu) (bus : Bus) : Cpu × Nat :=
  let hl := bus.read_byte c.regs.hl
  let (c, _) := c.sub hl
  (c, 8)

/-- `Cpu::sub_d8`. -/
def sub_d8 (c : Cpu) (bus : Bus) : Cpu × Nat :=
  let (d8, c) := c.fetch bus
  let (c, _) := c.sub d8
  (c, 8)

/-- `Cpu::sbc_r`. -/
def sbc_r (c : Cpu) (reg : Reg) : Cpu × Nat :=
  c.sbc (c.regs.get reg) true

/-- `Cpu::sbc_hl`. -/
def sbc_hl (c : Cpu) (bus : Bus) : Cpu × Nat :=
  let hl := bus.read_byte c.regs.hl
  let (c, _) := c.sbc hl true
  (c, 8)

/-- `Cpu::sbc_d8` — note the source returns 4 here. -/
def sbc_d8 (c : Cpu) (bus : Bus) : Cpu × Nat :=
  let (d8, c) := c.fetch bus
  let (c, _) := c.sbc d8 true
  (c, 4)

/-- `Cpu::cp`: compare, i.e. subtract and discard the result. -/
def cp (c : Cpu) (value : Nat) : Cpu :=
  let reg_a := c.regs.get Reg.A
  let sub := (reg_a + 256 - value) % 256
  let carry := decide (reg_a < value)
  let regs := c.regs.flag_set_value Registers.FLAG_Z (sub == 0)
  let regs := regs.flag_set Registers.FLAG_N
  let regs := regs.flag_set_value Registers.FLAG_C carry
  let regs := regs.flag_set_value Registers.FLAG_H
    (decide ((reg_a &&& 0x0f) < (value &&& 0x0f)))
  {c with regs := regs}

/-- `Cpu::cp_r`. -/
def cp_r (c : Cpu) (reg : Reg) : Cpu × Nat :=
  (c.cp (c.regs.get reg), 4)

/-- `Cpu::cp_hl`. -/
def cp_hl (c : Cpu) (bus : Bus) : Cpu × Nat :=
  let d8 := bus.read_byte (c.regs.get_pair RegPair.HL)
  (c.cp d8, 8)

/-- `Cpu::cp_d8`. -/
def cp_d8 (c : Cpu) (bus : Bus) : Cpu × Nat :=
  let (d8, c) := c.fetch bus
  (c.cp d8, 8)

/-- `Cpu::inc_value_and_set_flags` — C is not touched. -/
def inc_value_and_set_flags (c : Cpu) (v : Nat) : Cpu × Nat :=
  let new_r := (v + 1) % 256
  let regs := c.regs.flag_set_value Registers.FLAG_Z (new_r == 0)
  let regs := regs.flag_clear Registers.FLAG_N
  let regs := regs.flag_set_value Registers.FLAG_H
    ((((v &&& 0x0f) + 1) &&& 0x10) == 0x10)
  ({c with regs := regs}, new_r)

/-- `Cpu::inc_r`. -/
def inc_r (c : Cpu) (reg : Reg) : Cpu × Nat :=
  let (c, new_r) := c.inc_value_and_set_flags (c.regs.get reg)
  ({c with regs := c.regs.set reg new_r}, 4)

/-- `Cpu::inc_hl` (`INC (HL)`). -/
def inc_hl (c : Cpu) (bus : Bus) : Option (Cpu × Bus × Nat) :=
  let (c, new_r) := c.inc_value_and_set_flags (bus.read_byte c.regs.hl)
  (bus.write_byte c.regs.hl new_r).map (fun b => (c, b, 12))

/-- `Cpu::dec_value_and_set_flags` — C is not touched; the `u8`
`wrapping_sub`s are the `+ 255 / + 256 - 1` masks. -/
def dec_value_and_set_flags (c : Cpu) (v : Nat) : Cpu × Nat :=
  let new_v := (v + 256 - 1) % 256
  let regs := c.regs.flag_set_value Registers.FLAG_Z (new_v == 0)
  let regs := regs.flag_set Registers.FLAG_N
  let regs := regs.flag_set_value Registers.FLAG_H
    (((((v &&& 0x0f) + 256 - 1) % 256 &&& 0x10)) == 0x10)
  ({c with regs := regs}, new_v)

/-- `Cpu::dec_r`. -/
def dec_r (c : Cpu) (reg : Reg) : Cpu × Nat :=
  let (c, new_r) := c.dec_value_and_set_flags (c.regs.get reg)
  ({c with regs := c.regs.set reg new_r}, 4)

/-- `Cpu::dec_hl` (`DEC (HL)`). -/
def dec_hl (c : Cpu) (bus : Bus) : Option (Cpu × Bus × Nat) :=
  let (c, new_r) := c.dec_value_and_set_flags (bus.read_byte c.regs.hl)
  (bus.write_byte c.regs.hl new_r).map (fun b => (c, b, 12))

/-- `Cpu::inc_rr` (16-bit increment, no flags). -/
def inc_rr (c : Cpu) (reg : RegPair) : Cpu × Nat :=
  ({c with regs := c.regs.set_pair reg ((c.regs.get_pair reg + 1) % 65536)}, 8)

/-- `Cpu::dec_rr` (16-bit decrement, no flags). -/
def dec_rr (c : Cpu) (reg : RegPair) : Cpu × Nat :=
  ({c with regs := c.regs.set_pair reg ((c.regs.get_pair reg + 65536 - 1) % 65536)}, 8)

/-- `Cpu::inc_sp`. -/
def inc_sp (c : Cpu) : Cpu × Nat :=
  ({c with sp := (c.sp + 1) % 65536}, 8)

/-- `Cpu::add_rr_rr`: 16-bit add into a register pair; Z untouched. -/
def add_rr_rr (c : Cpu) (rt : RegPair) (v : Nat) : Cpu × Nat :=
  let reg := c.regs.get_pair rt
  let sum := (reg + v) % 65536
  let carry := decide (65536 ≤ reg + v)
  let regs := c.regs.set_pair rt sum
  let regs := regs.flag_set_value Registers.FLAG_C carry
  let regs := regs.flag_clear Registers.FLAG_N
  let regs := regs.flag_set_value Registers.FLAG_H
    (decide (0x0fff < (reg &&& 0x0fff) + (v &&& 0x0fff)))
  ({c with regs := regs}, 8)

/-- `Cpu::bit_n_value`: test bit `n`; only Z/N/H are written. -/
def bit_n_value (c : Cpu) (n value : Nat) : Cpu × Nat :=
  let regs :=
    if value &&& (1 <<< n) = 0 then
      c.regs.flag_set Registers.FLAG_Z
    else
      c.regs.flag_clear Registers.FLAG_Z
  let regs := regs.flag_clear Registers.FLAG_N
  let regs := regs.flag_set Registers.FLAG_H
  ({c with regs := regs}, 8)

/-- `Cpu::bit_n_r`. -/
def bit_n_r (c : Cpu) (n : Nat) (reg : Reg) : Cpu × Nat :=
  c.bit_n_value n (c.regs.get reg)

/-- `Cpu::bit_n_hl`. -/
def bit_n_hl (c : Cpu) (n : Nat) (bus : Bus) : Cpu × Nat :=
  let (c, _) := c.bit_n_value n (bus.read_byte c.regs.hl)
  (c, 16)

/-- `Cpu::jr_if_r8`: conditional relative jump. -/
def jr_if_r8 (c : Cpu) (bus : Bus) (flag : Bool) : Cpu × Nat :=
  let (r8, c) := c.fetch bus
  if flag then
    ({c with pc := (c.pc + signExtend8 r8) % 65536}, 12)
  else
    (c, 8)

/-- `Cpu::jp_if_a16`: conditional absolute jump. -/
def jp_if_a16 (c : Cpu) (bus : Bus) (flag : Bool) : Cpu × Nat :=
  let (a16, c) := c.fetch_word bus
  if flag then
    ({c with pc := a16}, 16)
  else
    (c, 12)

/-- `Cpu::jp_hl`. -/
def jp_hl (c : Cpu) : Cpu × Nat :=
  ({c with pc := c.regs.hl}, 4)

/-- `Cpu::push_word` (`PUSH a16`): pre-decrement SP by 2, then write the
word at SP. -/
def push_word (c : Cpu) (bus : Bus) (word : Nat) : Option (Cpu × Bus) :=
  let c := {c with sp := (c.sp + 65536 - 2) % 65536}
  (bus.write_word c.sp word).map (fun b => (c, b))

/-- `Cpu::pop_word` (`POP a16`): read the word at SP, post-increment SP
by 2. -/
def pop_word (c : Cpu) (bus : Bus) : Nat × Cpu :=
  let word := bus.read_word c.sp
  (word, {c with sp := (c.sp + 2) % 65536})

/-- `Cpu::call`. -/
def call (c : Cpu) (bus : Bus) (addr : Nat) : Option (Cpu × Bus) :=
  (c.push_word bus c.pc).map (fun p => ({p.1 with pc := addr}, p.2))

/-- `Cpu::call_if_a16`: conditional CALL. -/
def call_if_a16 (c : Cpu) (bus : Bus) (flag : Bool) : Option (Cpu × Bus × Nat) :=
  let (addr, c) := c.fetch_word bus
  if flag then
    (c.call bus addr).map (fun p => (p.1, p.2, 24))
  else
    some (c, bus, 12)

/-- `Cpu::call_interrupt`: disable IME, acknowledge the flag on the bus,
push PC and jump to the vector. -/
def call_interrupt (c : Cpu) (bus : Bus) (itr_flag : Nat) : Option (Cpu × Bus) :=
  let addr := get_itr_vector itr_flag
  let c := {c with ime := false}
  let bus := bus.ack_interrupt itr_flag
  (c.push_word bus c.pc).map (fun p => ({p.1 with pc := addr}, p.2))

/-- `Cpu::ret_if`. -/
def ret_if (c : Cpu) (bus : Bus) (flag : Bool) : Cpu × Nat :=
  if flag then
    let (w, c) := c.pop_word bus
    ({c with pc := w}, 20)
  else
    (c, 8)

/-- `Cpu::push_rr`. -/
def push_rr (c : Cpu) (bus : Bus) (rr : RegPair) : Option (Cpu × Bus × Nat) :=
  (c.push_word bus (c.regs.get_pair rr)).map (fun p => (p.1, p.2, 16))

/-- `Cpu::pop_rr`. -/
def pop_rr (c : Cpu) (bus : Bus) (rr : RegPair) : Cpu × Nat :=
  let (word, c) := c.pop_word bus
  ({c with regs := c.regs.set_pair rr word}, 12)

/-- `Cpu::rst`. -/
def rst (c : Cpu) (bus : Bus) (vec : Nat) : Option (Cpu × Bus × Nat) :=
  (c.call bus vec).map (fun p => (p.1, p.2, 16))

/-- `Cpu::cpl`: complement the accumulator (`u8` `!`). -/
def cpl (c : Cpu) : Cpu × Nat :=
  let regs := c.regs.set Reg.A (0xFF ^^^ c.regs.get Reg.A)
  let regs := regs.flag_set Registers.FLAG_N
  let regs := regs.flag_set Registers.FLAG_H
  ({c with regs := regs}, 8)

/-- `Cpu::daa`: decimal-adjust the accumulator.  `wrapping_add` /
`wrapping_sub` are on `u8` (and `adjust ≤ 0x66`). -/
def daa (c : Cpu) : Cpu × Nat :=
  let a := c.regs.get Reg.A
  let adjust := if c.regs.flag_is_set Registers.FLAG_C then 0x60 else 0x00
  let adjust := if c.regs.flag_is_set Registers.FLAG_H then adjust ||| 0x06 else adjust
  let (adjust, a) :=
    if !(c.regs.flag_is_set Registers.FLAG_N) then
      let adjust := if 0x09 < a &&& 0x0f then adjust ||| 0x06 else adjust
      let adjust := if 0x99 < a then adjust ||| 0x60 else adjust
      (adjust, (a + adjust) % 256)
    else
      (adjust, (a + 256 - adjust) % 256)
  let regs := c.regs.flag_set_value Registers.FLAG_C (decide (0x60 ≤ adjust))
  let regs := regs.flag_set_value Registers.FLAG_H false
  let regs := regs.flag_set_value Registers.FLAG_Z (a == 0)
  let regs := regs.set Reg.A a
  ({c with regs := regs}, 4)

/-- The correction byte `daa` applies, extracted from its body so the
DAA carry contract (`C` set iff the correction is at least `0x60`) can
be stated. -/
def daa_adjust (c : Cpu) : Nat :=
  let a := c.regs.get Reg.A
  let adjust := if c.regs.flag_is_set Registers.FLAG_C then 0x60 else 0x00
  let adjust := if c.regs.flag_is_set Registers.FLAG_H then adjust ||| 0x06 else adjust
  if !(c.regs.flag_is_set Registers.FLAG_N) then
    let adjust := if 0x09 < a &&& 0x0f then adjust ||| 0x06 else adjust
    if 0x99 < a then adjust ||| 0x60 else adjust
  else
    adjust

/-- `Cpu::swap`: swap the two nibbles (`rotate_right(4)` on `u8`). -/
def swap (c : Cpu) (v : Nat) : Cpu × Nat :=
  let r := (v >>> 4) ||| ((v &&& 0x0F) <<< 4)
  let regs := c.regs.flag_set_value Registers.FLAG_Z (r == 0)
  let regs := regs.flag_clear Registers.FLAG_N
  let regs := regs.flag_clear Registers.FLAG_H
  let regs := regs.flag_clear Registers.FLAG_C
  ({c with regs := regs}, r)

/-- `Cpu::swap_r`. -/
def swap_r (c : Cpu) (reg : Reg) : Cpu × Nat :=
  let (c, new_r) := c.swap (c.regs.get reg)
  ({c with regs := c.regs.set reg new_r}, 8)

/-- `Cpu::swap_hl`. -/
def swap_hl (c : Cpu) (bus : Bus) : Option (Cpu × Bus × Nat) :=
  let (c, new_r) := c.swap (bus.read_byte c.regs.hl)
  (bus.write_byte c.regs.hl new_r).map (fun b => (c, b, 16))

/-- `Cpu::res_n_r`: clear bit `n` of a register. -/
def res_n_r (c : Cpu) (n : Nat) (reg : Reg) : Cpu × Nat :=
  let r := c.regs.get reg &&& (0xFF ^^^ (1 <<< n))
  ({c with regs := c.regs.set reg r}, 8)

/-- `Cpu::res_hl`: clear bit `n` of `(HL)`. -/
def res_hl (c : Cpu) (n : Nat) (bus : Bus) : Option (Cpu × Bus × Nat) :=
  let hl := bus.read_byte c.regs.hl &&& (0xFF ^^^ (1 <<< n))
  (bus.write_byte c.regs.hl hl).map (fun b => (c, b, 16))

/-- `Cpu::set_n_r`: set bit `n` of a register. -/
def set_n_r (c : Cpu) (n : Nat) (reg : Reg) : Cpu × Nat :=
  let r := c.regs.get reg ||| (1 <<< n)
  ({c with regs := c.regs.set reg r}, 8)

/-- `Cpu::set_hl`: set bit `n` of `(HL)`. -/
def set_hl (c : Cpu) (n : Nat) (bus : Bus) : Option (Cpu × Bus × Nat) :=
  let hl := bus.read_byte c.regs.hl ||| (1 <<< n)
  (bus.write_byte c.regs.hl hl).map (fun b => (c, b, 16))

/-- `Cpu::rl`: rotate left through carry. -/
def rl (c : Cpu) (v : Nat) : Cpu × Nat :=
  let cflag := if c.regs.flag_is_set Registers.FLAG_C then 1 else 0
  let new_c := decide (v &&& 0x80 ≠ 0)
  let res := ((v <<< 1) ||| (v >>> 7)) % 256
  let res := if cflag ≠ 0 then res ||| 0x01 else res &&& 0xFE
  let regs := c.regs.flag_set_value Registers.FLAG_Z (res == 0)
  let regs := regs.flag_clear Registers.FLAG_N
  let regs := regs.flag_clear Registers.FLAG_H
  let regs := regs.flag_set_value Registers.FLAG_C new_c
  ({c with regs := regs}, res)

/-- `Cpu::rl_r`. -/
def rl_r (c : Cpu) (reg : Reg) : Cpu × Nat :=
  let (c, new_r) := c.rl (c.regs.get reg)
  ({c with regs := c.regs.set reg new_r}, 8)

/-- `Cpu::rl_hl`. -/
def rl_hl (c : Cpu) (bus : Bus) : Option (Cpu × Bus × Nat) :=
  let (c, res) := c.rl (bus.read_byte c.regs.hl)
  (bus.write_byte c.regs.hl res).map (fun b => (c, b, 16))

/-- `Cpu::rr`: rotate right through carry. -/
def rr (c : Cpu) (v : Nat) : Cpu × Nat :=
  let cflag := c.regs.flag_is_set Registers.FLAG_C
  let new_c := v &&& 0x01
  let r := v >>> 1
  let r := if cflag then r ||| 0x80 else r &&& 0x7F
  let regs := c.regs.flag_set_value Registers.FLAG_Z (r == 0)
  let regs := regs.flag_clear Registers.FLAG_N
  let regs := regs.flag_clear Registers.FLAG_H
  let regs := regs.flag_set_value Registers.FLAG_C (new_c != 0)
  ({c with regs := regs}, r)

/-- `Cpu::rr_r`. -/
def rr_r (c : Cpu) (reg : Reg) : Cpu × Nat :=
  let (c, new_r) := c.rr (c.regs.get reg)
  ({c with regs := c.regs.set reg new_r}, 8)

/-- `Cpu::rr_hl`. -/
def rr_hl (c : Cpu) (bus : Bus) : Option (Cpu × Bus × Nat) :=
  let (c, new_r) := c.rr (bus.read_byte c.regs.hl)
  (bus.write_byte c.regs.hl new_r).map (fun b => (c, b, 16))

/-- `Cpu::rlc`: rotate left. -/
def rlc (c : Cpu) (v : Nat) : Cpu × Nat :=
  let cy := decide (v &&& 0x80 ≠ 0)
  let rotated := ((v <<< 1) ||| (v >>> 7)) % 256
  let regs := c.regs.flag_set_value Registers.FLAG_Z (rotated == 0)
  let regs := regs.flag_clear Registers.FLAG_N
  let regs := regs.flag_clear Registers.FLAG_H
  let regs := regs.flag_set_value Registers.FLAG_C cy
  ({c with regs := regs}, rotated)

/-- `Cpu::rlc_r`. -/
def rlc_r (c : Cpu) (reg : Reg) : Cpu × Nat :=
  let (c, rotated) := c.rlc (c.regs.get reg)
  ({c with regs := c.regs.set reg rotated}, 8)

/-- `Cpu::rlc_hl`. -/
def rlc_hl (c : Cpu) (bus : Bus) : Option (Cpu × Bus × Nat) :=
  let (c, rotated) := c.rlc (bus.read_byte c.regs.hl)
  (bus.write_byte c.regs.hl rotated).map (fun b => (c, b, 16))

/-- `Cpu::rrc`: rotate right. -/
def rrc (c : Cpu) (v : Nat) : Cpu × Nat :=
  let cy := decide (v &&& 0x01 ≠ 0)
  let rotated := (v >>> 1) ||| ((v &&& 0x01) <<< 7)
  let regs := c.regs.flag_set_value Registers.FLAG_Z (rotated == 0)
  let regs := regs.flag_clear Registers.FLAG_N
  let regs := regs.flag_clear Registers.FLAG_H
  let regs := regs.flag_set_value Registers.FLAG_C cy
  ({c with regs := regs}, rotated)

/-- `Cpu::rrc_r`. -/
def rrc_r (c : Cpu) (reg : Reg) : Cpu × Nat :=
  let (c, rotated) := c.rrc (c.regs.get reg)
  ({c with regs := c.regs.set reg rotated}, 8)

/-- `Cpu::rrc_hl`. -/
def rrc_hl (c : Cpu) (bus : Bus) : Option (Cpu × Bus × Nat) :=
  let (c, rotated) := c.rrc (bus.read_byte c.regs.hl)
  (bus.write_byte c.regs.hl rotated).map (fun b => (c, b, 16))

/-- `Cpu::rla`: `RL A` with Z always cleared. -/
def rla (c : Cpu) : Cpu × Nat :=
  let (c, _) := c.rl_r Reg.A
  ({c with regs := c.regs.flag_clear Registers.FLAG_Z}, 4)

/-- `Cpu::rra`: `RR A` with Z always cleared. -/
def rra (c : Cpu) : Cpu × Nat :=
  let (c, _) := c.rr_r Reg.A
  ({c with regs := c.regs.flag_clear Registers.FLAG_Z}, 4)

/-- `Cpu::rlca`: `RLC A` with Z always cleared. -/
def rlca (c : Cpu) : Cpu × Nat :=
  let (c, _) := c.rlc_r Reg.A
  ({c with regs := c.regs.flag_clear Registers.FLAG_Z}, 4)

/-- `Cpu::rrca`: `RRC A` with Z always cleared. -/
def rrca (c : Cpu) : Cpu × Nat :=
  let (c, _) := c.rrc_r Reg.A
  ({c with regs := c.regs.flag_clear Registers.FLAG_Z}, 4)

/-- `Cpu::sla`: shift left arithmetically. -/
def sla (c : Cpu) (v : Nat) : Cpu × Nat :=
  let cy := decide (v &&& 0x80 ≠ 0)
  let r := (v <<< 1) % 256
  let regs := c.regs.flag_set_value Registers.FLAG_Z (r == 0)
  let regs := regs.flag_clear Registers.FLAG_N
  let regs := regs.flag_clear Registers.FLAG_H
  let regs := regs.flag_set_value Registers.FLAG_C cy
  ({c with regs := regs}, r)

/-- `Cpu::sla_r`. -/
def sla_r (c : Cpu) (reg : Reg) : Cpu × Nat :=
  let (c, new_r) := c.sla (c.regs.get reg)
  ({c with regs := c.regs.set reg new_r}, 8)

/-- `Cpu::sla_hl`. -/
def sla_hl (c : Cpu) (bus : Bus) : Option (Cpu × Bus × Nat) :=
  let (c, new_r) := c.sla (bus.read_byte c.regs.hl)
  (bus.write_byte c.regs.hl new_r).map (fun b => (c, b, 16))

/-- `Cpu::sra`: shift right arithmetically (the sign bit is kept, per
the `as i8 >> 1` cast). -/
def sra (c : Cpu) (v : Nat) : Cpu × Nat :=
  let cy := decide (v &&& 0x01 ≠ 0)
  let r := if 0x80 ≤ v then (v >>> 1) ||| 0x80 else v >>> 1
  let regs := c.regs.flag_set_value Registers.FLAG_Z (r == 0)
  let regs := regs.flag_clear Registers.FLAG_N
  let regs := regs.flag_clear Registers.FLAG_H
  let regs := regs.flag_set_value Registers.FLAG_C cy
  ({c with regs := regs}, r)

/-- `Cpu::sra_r`. -/
def sra_r (c : Cpu) (reg : Reg) : Cpu × Nat :=
  let (c, new_r) := c.sra (c.regs.get reg)
  ({c with regs := c.regs.set reg new_r}, 8)

/-- `Cpu::sra_hl`. -/
def sra_hl (c : Cpu) (bus : Bus) : Option (Cpu × Bus × Nat) :=
  let (c, new_r) := c.sra (bus.read_byte c.regs.hl)
  (bus.write_byte c.regs.hl new_r).map (fun b => (c, b, 16))

/-- `Cpu::srl_value_and_set_flags`: shift right logically. -/
def srl_value_and_set_flags (c : Cpu) (value : Nat) : Cpu × Nat :=
  let cy := decide ((value &&& 0x01) ≠ 0)
  let value := value >>> 1
  let regs := c.regs.flag_set_value Registers.FLAG_Z (value == 0)
  let regs := regs.flag_clear Registers.FLAG_N
  let regs := regs.flag_clear Registers.FLAG_H
  let regs := regs.flag_set_value Registers.FLAG_C cy
  ({c with regs := regs}, value)

/-- `Cpu::srl_r`. -/
def srl_r (c : Cpu) (reg : Reg) : Cpu × Nat :=
  let (c, shifted) := c.srl_value_and_set_flags (c.regs.get reg)
  ({c with regs := c.regs.set reg shifted}, 8)

/-- `Cpu::srl_hl`. -/
def srl_hl (c : Cpu) (bus : Bus) : Option (Cpu × Bus × Nat) :=
  let hl := bus.read_byte c.regs.hl
  let (c, shifted) := c.srl_value_and_set_flags hl
  (bus.write_byte c.regs.hl shifted).map (fun b => (c, b, 16))

end Cpu

/-! The two opcode dispatch tables.  Each Rust `match` over the opcode
byte (246 arms in `Cpu::step`, 256 in `Cpu::step_cb`) is embedded split
into sixteen groups keyed by the high nibble of the opcode, with the
arms transcribed verbatim in opcode order; `exec_op` / `exec_cb_op`
recombine the groups, so that e.g. `exec_op c bus 0x41` is the `0x41`
arm of the source match.  Opcode bytes missing from a group fall to the
group's catch-all, which is the `_` arm of the source match
(`Cpu::step`'s "unimplemented opcode" fail-soft arm; `Cpu::step_cb` has
no `_` arm, its match being exhaustive over `u8`). -/

def Cpu.exec_cb_g0 (c : Cpu) (bus : Bus) (op : Nat) : Option (Cpu × Bus × Nat) :=
  match op with
  | 0x00 => let (c, n) := c.rlc_r Reg.B; some (c, bus, n)
  | 0x01 => let (c, n) := c.rlc_r Reg.C; some (c, bus, n)
  | 0x02 => let (c, n) := c.rlc_r Reg.D; some (c, bus, n)
  | 0x03 => let (c, n) := c.rlc_r Reg.E; some (c, bus, n)
  | 0x04 => let (c, n) := c.rlc_r Reg.H; some (c, bus, n)
  | 0x05 => let (c, n) := c.rlc_r Reg.L; some (c, bus, n)
  | 0x06 => c.rlc_hl bus
  | 0x07 => let (c, n) := c.rlc_r Reg.A; some (c, bus, n)
  | 0x08 => let (c, n) := c.rrc_r Reg.B; some (c, bus, n)
  | 0x09 => let (c, n) := c.rrc_r Reg.C; some (c, bus, n)
  | 0x0a => let (c, n) := c.rrc_r Reg.D; some (c, bus, n)
  | 0x0b => let (c, n) := c.rrc_r Reg.E; some (c, bus, n)
  | 0x0c => let (c, n) := c.rrc_r Reg.H; some (c, bus, n)
  | 0x0d => let (c, n) := c.rrc_r Reg.L; some (c, bus, n)
  | 0x0e => c.rrc_hl bus
  | 0x0f => let (c, n) := c.rrc_r Reg.A; some (c, bus, n)
  | _ => let (c, m) := c.set_n_r 7 Reg.A; some (c, bus, m) -- cb_op = 0xff


def Cpu.exec_cb_g1 (c : Cpu) (bus : Bus) (op : Nat) : Option (Cpu × Bus × Nat) :=
  match op with
  | 0x10 => let (c, n) := c.rl_r Reg.B; some (c, bus, n)
  | 0x11 => let (c, n) := c.rl_r Reg.C; some (c, bus, n)
  | 0x12 => let (c, n) := c.rl_r Reg.D; some (c, bus, n)
  | 0x13 => let (c, n) := c.rl_r Reg.E; some (c, bus, n)
  | 0x14 => let (c, n) := c.rl_r Reg.H; some (c, bus, n)
  | 0x15 => let (c, n) := c.rl_r Reg.L; some (c, bus, n)
  | 0x16 => c.rl_hl bus
  | 0x17 => let (c, n) := c.rl_r Reg.A; some (c, bus, n)
  | 0x18 => let (c, n) := c.rr_r Reg.B; some (c, bus, n)
  | 0x19 => let (c, n) := c.rr_r Reg.C; some (c, bus, n)
  | 0x1a => let (c, n) := c.rr_r Reg.D; some (c, bus, n)
  | 0x1b => let (c, n) := c.rr_r Reg.E; some (c, bus, n)
  | 0x1c => let (c, n) := c.rr_r Reg.H; some (c, bus, n)
  | 0x1d => let (c, n) := c.rr_r Reg.L; some (c, bus, n)
  | 0x1e => c.rr_hl bus
  | 0x1f => let (c, n) := c.rr_r Reg.A; some (c, bus, n)
  | _ => let (c, m) := c.set_n_r 7 Reg.A; some (c, bus, m) -- cb_op = 0xff


def Cpu.exec_cb_g2 (c : Cpu) (bus : Bus) (op : Nat) : Option (Cpu × Bus × Nat) :=
  match op with
  | 0x20 => let (c, n) := c.sla_r Reg.B; some (c, bus, n)
  | 0x21 => let (c, n) := c.sla_r Reg.C; some (c, bus, n)
  | 0x22 => let (c, n) := c.sla_r Reg.D; some (c, bus, n)
  | 0x23 => let (c, n) := c.sla_r Reg.E; some (c, bus, n)
  | 0x24 => let (c, n) := c.sla_r Reg.H; some (c, bus, n)
  | 0x25 => let (c, n) := c.sla_r Reg.L; some (c, bus, n)
  | 0x26 => c.sla_hl bus
  | 0x27 => let (c, n) := c.sla_r Reg.A; some (c, bus, n)
  | 0x28 => let (c, n) := c.sra_r Reg.B; some (c, bus, n)
  | 0x29 => let (c, n) := c.sra_r Reg.C; some (c, bus, n)
  | 0x2a => let (c, n) := c.sra_r Reg.D; some (c, bus, n)
  | 0x2b => let (c, n) := c.sra_r Reg.E; some (c, bus, n)
  | 0x2c => let (c, n) := c.sra_r Reg.H; some (c, bus, n)
  | 0x2d => let (c, n) := c.sra_r Reg.L; some (c, bus, n)
  | 0x2e => c.sra_hl bus
  | 0x2f => let (c, n) := c.sra_r Reg.A; some (c, bus, n)
  | _ => let (c, m) := c.set_n_r 7 Reg.A; some (c, bus, m) -- cb_op = 0xff


def Cpu.exec_cb_g3 (c : Cpu) (bus : Bus) (op : Nat) : Option (Cpu × Bus × Nat) :=
  match op with
  | 0x30 => let (c, n) := c.swap_r Reg.B; some (c, bus, n)
  | 0x31 => let (c, n) := c.swap_r Reg.C; some (c, bus, n)
  | 0x32 => let (c, n) := c.swap_r Reg.D; some (c, bus, n)
  | 0x33 => let (c, n) := c.swap_r Reg.E; some (c, bus, n)
  | 0x34 => let (c, n) := c.swap_r Reg.H; some (c, bus, n)
  | 0x35 => let (c, n) := c.swap_r Reg.L; some (c, bus, n)
  | 0x36 => c.swap_hl bus
  | 0x37 => let (c, n) := c.swap_r Reg.A; some (c, bus, n)
  | 0x38 => let (c, n) := c.srl_r Reg.B; some (c, bus, n)
  | 0x39 => let (c, n) := c.srl_r Reg.C; some (c, bus, n)
  | 0x3a => let (c, n) := c.srl_r Reg.D; some (c, bus, n)
  | 0x3b => let (c, n) := c.srl_r Reg.E; some (c, bus, n)
  | 0x3c => let (c, n) := c.srl_r Reg.H; some (c, bus, n)
  | 0x3d => let (c, n) := c.srl_r Reg.L; some (c, bus, n)
  | 0x3e => c.srl_hl bus
  | 0x3f => let (c, n) := c.srl_r Reg.A; some (c, bus, n)
  | _ => let (c, m) := c.set_n_r 7 Reg.A; some (c, bus, m) -- cb_op = 0xff


def Cpu.exec_cb_g4 (c : Cpu) (bus : Bus) (op : Nat) : Option (Cpu × Bus × Nat) :=
  match op with
  | 0x40 => let (c, m) := c.bit_n_r 0 Reg.B; some (c, bus, m)
  | 0x41 => let (c, m) := c.bit_n_r 0 Reg.C; some (c, bus, m)
  | 0x42 => let (c, m) := c.bit_n_r 0 Reg.D; some (c, bus, m)
  | 0x43 => let (c, m) := c.bit_n_r 0 Reg.E; some (c, bus, m)
  | 0x44 => let (c, m) := c.bit_n_r 0 Reg.H; some (c, bus, m)
  | 0x45 => let (c, m) := c.bit_n_r 0 Reg.L; some (c, bus, m)
  | 0x46 => let (c, m) := c.bit_n_hl 0 bus; some (c, bus, m)
  | 0x47 => let (c, m) := c.bit_n_r 0 Reg.A; some (c, bus, m)
  | 0x48 => let (c, m) := c.bit_n_r 1 Reg.B; some (c, bus, m)
  | 0x49 => let (c, m) := c.bit_n_r 1 Reg.C; some (c, bus, m)
  | 0x4a => let (c, m) := c.bit_n_r 1 Reg.D; some (c, bus, m)
  | 0x4b => let (c, m) := c.bit_n_r 1 Reg.E; some (c, bus, m)
  | 0x4c => let (c, m) := c.bit_n_r 1 Reg.H; some (c, bus, m)
  | 0x4d => let (c, m) := c.bit_n_r 1 Reg.L; some (c, bus, m)
  | 0x4e => let (c, m) := c.bit_n_hl 1 bus; some (c, bus, m)
  | 0x4f => let (c, m) := c.bit_n_r 1 Reg.A; some (c, bus, m)
  | _ => let (c, m) := c.set_n_r 7 Reg.A; some (c, bus, m) -- cb_op = 0xff


def Cpu.exec_cb_g5 (c : Cpu) (bus : Bus) (op : Nat) : Option (Cpu × Bus × Nat) :=
  match op with
  | 0x50 => let (c, m) := c.bit_n_r 2 Reg.B; some (c, bus, m)
  | 0x51 => let (c, m) := c.bit_n_r 2 Reg.C; some (c, bus, m)
  | 0x52 => let (c, m) := c.bit_n_r 2 Reg.D; some (c, bus, m)
  | 0x53 => let (c, m) := c.bit_n_r 2 Reg.E; some (c, bus, m)
  | 0x54 => let (c, m) := c.bit_n_r 2 Reg.H; some (c, bus, m)
  | 0x55 => let (c, m) := c.bit_n_r 2 Reg.L; some (c, bus, m)
  | 0x56 => let (c, m) := c.bit_n_hl 2 bus; some (c, bus, m)
  | 0x57 => let (c, m) := c.bit_n_r 2 Reg.A; some (c, bus, m)
  | 0x58 => let (c, m) := c.bit_n_r 3 Reg.B; some (c, bus, m)
  | 0x59 => let (c, m) := c.bit_n_r 3 Reg.C; some (c, bus, m)
  | 0x5a => let (c, m) := c.bit_n_r 3 Reg.D; some (c, bus, m)
  | 0x5b => let (c, m) := c.bit_n_r 3 Reg.E; some (c, bus, m)
  | 0x5c => let (c, m) := c.bit_n_r 3 Reg.H; some (c, bus, m)
  | 0x5d => let (c, m) := c.bit_n_r 3 Reg.L; some (c, bus, m)
  | 0x5e => let (c, m) := c.bit_n_hl 3 bus; some (c, bus, m)
  | 0x5f => let (c, m) := c.bit_n_r 3 Reg.A; some (c, bus, m)
  | _ => let (c, m) := c.set_n_r 7 Reg.A; some (c, bus, m) -- cb_op = 0xff


def Cpu.exec_cb_g6 (c : Cpu) (bus : Bus) (op : Nat) : Option (Cpu × Bus × Nat) :=
  match op with
  | 0x60 => let (c, m) := c.bit_n_r 4 Reg.B; some (c, bus, m)
  | 0x61 => let (c, m) := c.bit_n_r 4 Reg.C; some (c, bus, m)
  | 0x62 => let (c, m) := c.bit_n_r 4 Reg.D; some (c, bus, m)
  | 0x63 => let (c, m) := c.bit_n_r 4 Reg.E; some (c, bus, m)
  | 0x64 => let (c, m) := c.bit_n_r 4 Reg.H; some (c, bus, m)
  | 0x65 => let (c, m) := c.bit_n_r 4 Reg.L; some (c, bus, m)
  | 0x66 => let (c, m) := c.bit_n_hl 4 bus; some (c, bus, m)
  | 0x67 => let (c, m) := c.bit_n_r 4 Reg.A; some (c, bus, m)
  | 0x68 => let (c, m) := c.bit_n_r 5 Reg.B; some (c, bus, m)
  | 0x69 => let (c, m) := c.bit_n_r 5 Reg.C; some (c, bus, m)
  | 0x6a => let (c, m) := c.bit_n_r 5 Reg.D; some (c, bus, m)
  | 0x6b => let (c, m) := c.bit_n_r 5 Reg.E; some (c, bus, m)
  | 0x6c => let (c, m) := c.bit_n_r 5 Reg.H; some (c, bus, m)
  | 0x6d => let (c, m) := c.bit_n_r 5 Reg.L; some (c, bus, m)
  | 0x6e => let (c, m) := c.bit_n_hl 5 bus; some (c, bus, m)
  | 0x6f => let (c, m) := c.bit_n_r 5 Reg.A; some (c, bus, m)
  | _ => let (c, m) := c.set_n_r 7 Reg.A; some (c, bus, m) -- cb_op = 0xff


def Cpu.exec_cb_g7 (c : Cpu) (bus : Bus) (op : Nat) : Option (Cpu × Bus × Nat) :=
  match op with
  | 0x70 => let (c, m) := c.bit_n_r 6 Reg.B; some (c, bus, m)
  | 0x71 => let (c, m) := c.bit_n_r 6 Reg.C; some (c, bus, m)
  | 0x72 => let (c, m) := c.bit_n_r 6 Reg.D; some (c, bus, m)
  | 0x73 => let (c, m) := c.bit_n_r 6 Reg.E; some (c, bus, m)
  | 0x74 => let (c, m) := c.bit_n_r 6 Reg.H; some (c, bus, m)
  | 0x75 => let (c, m) := c.bit_n_r 6 Reg.L; some (c, bus, m)
  | 0x76 => let (c, m) := c.bit_n_hl 6 bus; some (c, bus, m)
  | 0x77 => let (c, m) := c.bit_n_r 6 Reg.A; some (c, bus, m)
  | 0x78 => let (c, m) := c.bit_n_r 7 Reg.B; some (c, bus, m)
  | 0x79 => let (c, m) := c.bit_n_r 7 Reg.C; some (c, bus, m)
  | 0x7a => let (c, m) := c.bit_n_r 7 Reg.D; some (c, bus, m)
  | 0x7b => let (c, m) := c.bit_n_r 7 Reg.E; some (c, bus, m)
  | 0x7c => let (c, m) := c.bit_n_r 7 Reg.H; some (c, bus, m)
  | 0x7d => let (c, m) := c.bit_n_r 7 Reg.L; some (c, bus, m)
  | 0x7e => let (c, m) := c.bit_n_hl 7 bus; some (c, bus, m)
  | 0x7f => let (c, m) := c.bit_n_r 7 Reg.A; some (c, bus, m)
  | _ => let (c, m) := c.set_n_r 7 Reg.A; some (c, bus, m) -- cb_op = 0xff


def Cpu.exec_cb_g8 (c : Cpu) (bus : Bus) (op : Nat) : Option (Cpu × Bus × Nat) :=
  match op with
  | 0x80 => let (c, m) := c.res_n_r 0 Reg.B; some (c, bus, m)
  | 0x81 => let (c, m) := c.res_n_r 0 Reg.C; some (c, bus, m)
  | 0x82 => let (c, m) := c.res_n_r 0 Reg.D; some (c, bus, m)
  | 0x83 => let (c, m) := c.res_n_r 0 Reg.E; some (c, bus, m)
  | 0x84 => let (c, m) := c.res_n_r 0 Reg.H; some (c, bus, m)
  | 0x85 => let (c, m) := c.res_n_r 0 Reg.L; some (c, bus, m)
  | 0x86 => c.res_hl 0 bus
  | 0x87 => let (c, m) := c.res_n_r 0 Reg.A; some (c, bus, m)
  | 0x88 => let (c, m) := c.res_n_r 1 Reg.B; some (c, bus, m)
  | 0x89 => let (c, m) := c.res_n_r 1 Reg.C; some (c, bus, m)
  | 0x8a => let (c, m) := c.res_n_r 1 Reg.D; some (c, bus, m)
  | 0x8b => let (c, m) := c.res_n_r 1 Reg.E; some (c, bus, m)
  | 0x8c => let (c, m) := c.res_n_r 1 Reg.H; some (c, bus, m)
  | 0x8d => let (c, m) := c.res_n_r 1 Reg.L; some (c, bus, m)
  | 0x8e => c.res_hl 1 bus
  | 0x8f => let (c, m) := c.res_n_r 1 Reg.A; some (c, bus, m)
  | _ => let (c, m) := c.set_n_r 7 Reg.A; some (c, bus, m) -- cb_op = 0xff


def Cpu.exec_cb_g9 (c : Cpu) (bus : Bus) (op : Nat) : Option (Cpu × Bus × Nat) :=
  match op with
  | 0x90 => let (c, m) := c.res_n_r 2 Reg.B; some (c, bus, m)
  | 0x91 => let (c, m) := c.res_n_r 2 Reg.C; some (c, bus, m)
  | 0x92 => let (c, m) := c.res_n_r 2 Reg.D; some (c, bus, m)
  | 0x93 => let (c, m) := c.res_n_r 2 Reg.E; some (c, bus, m)
  | 0x94 => let (c, m) := c.res_n_r 2 Reg.H; some (c, bus, m)
  | 0x95 => let (c, m) := c.res_n_r 2 Reg.L; some (c, bus, m)
  | 0x96 => c.res_hl 2 bus
  | 0x97 => let (c, m) := c.res_n_r 2 Reg.A; some (c, bus, m)
  | 0x98 => let (c, m) := c.res_n_r 3 Reg.B; some (c, bus, m)
  | 0x99 => let (c, m) := c.res_n_r 3 Reg.C; some (c, bus, m)
  | 0x9a => let (c, m) := c.res_n_r 3 Reg.D; some (c, bus, m)
  | 0x9b => let (c, m) := c.res_n_r 3 Reg.E; some (c, bus, m)
  | 0x9c => let (c, m) := c.res_n_r 3 Reg.H; some (c, bus, m)
  | 0x9d => let (c, m) := c.res_n_r 3 Reg.L; some (c, bus, m)
  | 0x9e => c.res_hl 3 bus
  | 0x9f => let (c, m) := c.res_n_r 3 Reg.A; some (c, bus, m)
  | _ => let (c, m) := c.set_n_r 7 Reg.A; some (c, bus, m) -- cb_op = 0xff


def Cpu.exec_cb_g10 (c : Cpu) (bus : Bus) (op : Nat) : Option (Cpu × Bus × Nat) :=
  match op with
  | 0xa0 => let (c, m) := c.res_n_r 4 Reg.B; some (c, bus, m)
  | 0xa1 => let (c, m) := c.res_n_r 4 Reg.C; some (c, bus, m)
  | 0xa2 => let (c, m) := c.res_n_r 4 Reg.D; some (c, bus, m)
  | 0xa3 => let (c, m) := c.res_n_r 4 Reg.E; some (c, bus, m)
  | 0xa4 => let (c, m) := c.res_n_r 4 Reg.H; some (c, bus, m)
  | 0xa5 => let (c, m) := c.res_n_r 4 Reg.L; some (c, bus, m)
  | 0xa6 => c.res_hl 4 bus
  | 0xa7 => let (c, m) := c.res_n_r 4 Reg.A; some (c, bus, m)
  | 0xa8 => let (c, m) := c.res_n_r 5 Reg.B; some (c, bus, m)
  | 0xa9 => let (c, m) := c.res_n_r 5 Reg.C; some (c, bus, m)
  | 0xaa => let (c, m) := c.res_n_r 5 Reg.D; some (c, bus, m)
  | 0xab => let (c, m) := c.res_n_r 5 Reg.E; some (c, bus, m)
  | 0xac => let (c, m) := c.res_n_r 5 Reg.H; some (c, bus, m)
  | 0xad => let (c, m) := c.res_n_r 5 Reg.L; some (c, bus, m)
  | 0xae => c.res_hl 5 bus
  | 0xaf => let (c, m) := c.res_n_r 5 Reg.A; some (c, bus, m)
  | _ => let (c, m) := c.set_n_r 7 Reg.A; some (c, bus, m) -- cb_op = 0xff


def Cpu.exec_cb_g11 (c : Cpu) (bus : Bus) (op : Nat) : Option (Cpu × Bus × Nat) :=
  match op with
  | 0xb0 => let (c, m) := c.res_n_r 6 Reg.B; some (c, bus, m)
  | 0xb1 => let (c, m) := c.res_n_r 6 Reg.C; some (c, bus, m)
  | 0xb2 => let (c, m) := c.res_n_r 6 Reg.D; some (c, bus, m)
  | 0xb3 => let (c, m) := c.res_n_r 6 Reg.E; some (c, bus, m)
  | 0xb4 => let (c, m) := c.res_n_r 6 Reg.H; some (c, bus, m)
  | 0xb5 => let (c, m) := c.res_n_r 6 Reg.L; some (c, bus, m)
  | 0xb6 => c.res_hl 6 bus
  | 0xb7 => let (c, m) := c.res_n_r 6 Reg.A; some (c, bus, m)
  | 0xb8 => let (c, m) := c.res_n_r 7 Reg.B; some (c, bus, m)
  | 0xb9 => let (c, m) := c.res_n_r 7 Reg.C; some (c, bus, m)
  | 0xba => let (c, m) := c.res_n_r 7 Reg.D; some (c, bus, m)
  | 0xbb => let (c, m) := c.res_n_r 7 Reg.E; some (c, bus, m)
  | 0xbc => let (c, m) := c.res_n_r 7 Reg.H; some (c, bus, m)
  | 0xbd => let (c, m) := c.res_n_r 7 Reg.L; some (c, bus, m)
  | 0xbe => c.res_hl 7 bus
  | 0xbf => let (c, m) := c.res_n_r 7 Reg.A; some (c, bus, m)
  | _ => let (c, m) := c.set_n_r 7 Reg.A; some (c, bus, m) -- cb_op = 0xff


def Cpu.exec_cb_g12 (c : Cpu) (bus : Bus) (op : Nat) : Option (Cpu × Bus × Nat) :=
  match op with
  | 0xc0 => let (c, m) := c.set_n_r 0 Reg.B; some (c, bus, m)
  | 0xc1 => let (c, m) := c.set_n_r 0 Reg.C; some (c, bus, m)
  | 0xc2 => let (c, m) := c.set_n_r 0 Reg.D; some (c, bus, m)
  | 0xc3 => let (c, m) := c.set_n_r 0 Reg.E; some (c, bus, m)
  | 0xc4 => let (c, m) := c.set_n_r 0 Reg.H; some (c, bus, m)
  | 0xc5 => let (c, m) := c.set_n_r 0 Reg.L; some (c, bus, m)
  | 0xc6 => c.set_hl 0 bus
  | 0xc7 => let (c, m) := c.set_n_r 0 Reg.A; some (c, bus, m)
  | 0xc8 => let (c, m) := c.set_n_r 1 Reg.B; some (c, bus, m)
  | 0xc9 => let (c, m) := c.set_n_r 1 Reg.C; some (c, bus, m)
  | 0xca => let (c, m) := c.set_n_r 1 Reg.D; some (c, bus, m)
  | 0xcb => let (c, m) := c.set_n_r 1 Reg.E; some (c, bus, m)
  | 0xcc => let (c, m) := c.set_n_r 1 Reg.H; some (c, bus, m)
  | 0xcd => let (c, m) := c.set_n_r 1 Reg.L; some (c, bus, m)
  | 0xce => c.set_hl 1 bus
  | 0xcf => let (c, m) := c.set_n_r 1 Reg.A; some (c, bus, m)
  | _ => let (c, m) := c.set_n_r 7 Reg.A; some (c, bus, m) -- cb_op = 0xff


def Cpu.exec_cb_g13 (c : Cpu) (bus : Bus) (op : Nat) : Option (Cpu × Bus × Nat) :=
  match op with
  | 0xd0 => let (c, m) := c.set_n_r 2 Reg.B; some (c, bus, m)
  | 0xd1 => let (c, m) := c.set_n_r 2 Reg.C; some (c, bus, m)
  | 0xd2 => let (c, m) := c.set_n_r 2 Reg.D; some (c, bus, m)
  | 0xd3 => let (c, m) := c.set_n_r 2 Reg.E; some (c, bus, m)
  | 0xd4 => let (c, m) := c.set_n_r 2 Reg.H; some (c, bus, m)
  | 0xd5 => let (c, m) := c.set_n_r 2 Reg.L; some (c, bus, m)
  | 0xd6 => c.set_hl 2 bus
  | 0xd7 => let (c, m) := c.set_n_r 2 Reg.A; some (c, bus, m)
  | 0xd8 => let (c, m) := c.set_n_r 3 Reg.B; some (c, bus, m)
  | 0xd9 => let (c, m) := c.set_n_r 3 Reg.C; some (c, bus, m)
  | 0xda => let (c, m) := c.set_n_r 3 Reg.D; some (c, bus, m)
  | 0xdb => let (c, m) := c.set_n_r 3 Reg.E; some (c, bus, m)
  | 0xdc => let (c, m) := c.set_n_r 3 Reg.H; some (c, bus, m)
  | 0xdd => let (c, m) := c.set_n_r 3 Reg.L; some (c, bus, m)
  | 0xde => c.set_hl 3 bus
  | 0xdf => let (c, m) := c.set_n_r 3 Reg.A; some (c, bus, m)
  | _ => let (c, m) := c.set_n_r 7 Reg.A; some (c, bus, m) -- cb_op = 0xff


def Cpu.exec_cb_g14 (c : Cpu) (bus : Bus) (op : Nat) : Option (Cpu × Bus × Nat) :=
  match op with
  | 0xe0 => let (c, m) := c.set_n_r 4 Reg.B; some (c, bus, m)
  | 0xe1 => let (c, m) := c.set_n_r 4 Reg.C; some (c, bus, m)
  | 0xe2 => let (c, m) := c.set_n_r 4 Reg.D; some (c, bus, m)
  | 0xe3 => let (c, m) := c.set_n_r 4 Reg.E; some (c, bus, m)
  | 0xe4 => let (c, m) := c.set_n_r 4 Reg.H; some (c, bus, m)
  | 0xe5 => let (c, m) := c.set_n_r 4 Reg.L; some (c, bus, m)
  | 0xe6 => c.set_hl 4 bus
  | 0xe7 => let (c, m) := c.set_n_r 4 Reg.A; some (c, bus, m)
  | 0xe8 => let (c, m) := c.set_n_r 5 Reg.B; some (c, bus, m)
  | 0xe9 => let (c, m) := c.set_n_r 5 Reg.C; some (c, bus, m)
  | 0xea => let (c, m) := c.set_n_r 5 Reg.D; some (c, bus, m)
  | 0xeb => let (c, m) := c.set_n_r 5 Reg.E; some (c, bus, m)
  | 0xec => let (c, m) := c.set_n_r 5 Reg.H; some (c, bus, m)
  | 0xed => let (c, m) := c.set_n_r 5 Reg.L; some (c, bus, m)
  | 0xee => c.set_hl 5 bus
  | 0xef => let (c, m) := c.set_n_r 5 Reg.A; some (c, bus, m)
  | _ => let (c, m) := c.set_n_r 7 Reg.A; some (c, bus, m) -- cb_op = 0xff


def Cpu.exec_cb_g15 (c : Cpu) (bus : Bus) (op : Nat) : Option (Cpu × Bus × Nat) :=
  match op with
  | 0xf0 => let (c, m) := c.set_n_r 6 Reg.B; some (c, bus, m)
  | 0xf1 => let (c, m) := c.set_n_r 6 Reg.C; some (c, bus, m)
  | 0xf2 => let (c, m) := c.set_n_r 6 Reg.D; some (c, bus, m)
  | 0xf3 => let (c, m) := c.set_n_r 6 Reg.E; some (c, bus, m)
  | 0xf4 => let (c, m) := c.set_n_r 6 Reg.H; some (c, bus, m)
  | 0xf5 => let (c, m) := c.set_n_r 6 Reg.L; some (c, bus, m)
  | 0xf6 => c.set_hl 6 bus
  | 0xf7 => let (c, m) := c.set_n_r 6 Reg.A; some (c, bus, m)
  | 0xf8 => let (c, m) := c.set_n_r 7 Reg.B; some (c, bus, m)
  | 0xf9 => let (c, m) := c.set_n_r 7 Reg.C; some (c, bus, m)
  | 0xfa => let (c, m) := c.set_n_r 7 Reg.D; some (c, bus, m)
  | 0xfb => let (c, m) := c.set_n_r 7 Reg.E; some (c, bus, m)
  | 0xfc => let (c, m) := c.set_n_r 7 Reg.H; some (c, bus, m)
  | 0xfd => let (c, m) := c.set_n_r 7 Reg.L; some (c, bus, m)
  | 0xfe => c.set_hl 7 bus
  | _ => let (c, m) := c.set_n_r 7 Reg.A; some (c, bus, m) -- cb_op = 0xff


/-- The match block of `Cpu::step_cb` (see the note above). -/
def Cpu.exec_cb_op (c : Cpu) (bus : Bus) (op : Nat) : Option (Cpu × Bus × Nat) :=
  match op >>> 4 with
  | 0x0 => c.exec_cb_g0 bus op
  | 0x1 => c.exec_cb_g1 bus op
  | 0x2 => c.exec_cb_g2 bus op
  | 0x3 => c.exec_cb_g3 bus op
  | 0x4 => c.exec_cb_g4 bus op
  | 0x5 => c.exec_cb_g5 bus op
  | 0x6 => c.exec_cb_g6 bus op
  | 0x7 => c.exec_cb_g7 bus op
  | 0x8 => c.exec_cb_g8 bus op
  | 0x9 => c.exec_cb_g9 bus op
  | 0xa => c.exec_cb_g10 bus op
  | 0xb => c.exec_cb_g11 bus op
  | 0xc => c.exec_cb_g12 bus op
  | 0xd => c.exec_cb_g13 bus op
  | 0xe => c.exec_cb_g14 bus op
  | 0xf => c.exec_cb_g15 bus op
  | _ => let (c, m) := c.set_n_r 7 Reg.A; some (c, bus, m) -- not reachable from a fetched byte

/-- `Cpu::step_cb`: fetch the CB-prefixed opcode byte and dispatch. -/
def Cpu.step_cb (c : Cpu) (bus : Bus) : Option (Cpu × Bus × Nat) :=
  let (cb_op, c) := c.fetch bus
  c.exec_cb_op bus cb_op

def Cpu.exec_g0 (c : Cpu) (bus : Bus) (op : Nat) : Option (Cpu × Bus × Nat) :=
  match op with
  | 0x00 => some (c, bus, 4)
  | 0x01 => let (c, n) := c.ld_rr_d16 bus RegPair.BC; some (c, bus, n)
  | 0x02 => c.ld_addr_r bus RegPair.BC Reg.A
  | 0x03 => let (c, n) := c.inc_rr RegPair.BC; some (c, bus, n)
  | 0x04 => let (c, n) := c.inc_r Reg.B; some (c, bus, n)
  | 0x05 => let (c, n) := c.dec_r Reg.B; some (c, bus, n)
  | 0x06 => let (c, n) := c.ld_r_d8 bus Reg.B; some (c, bus, n)
  | 0x07 => let (c, n) := c.rlca; some (c, bus, n)
  | 0x08 =>
    -- LD (a16),SP
    let (addr, c) := c.fetch_word bus
    (bus.write_word addr c.sp).map (fun b => (c, b, 20))
  | 0x09 => let (c, n) := c.add_rr_rr RegPair.HL c.regs.bc; some (c, bus, n)
  | 0x0a => let (c, n) := c.ld_r_addr bus Reg.A RegPair.BC; some (c, bus, n)
  | 0x0b => let (c, n) := c.dec_rr RegPair.BC; some (c, bus, n)
  | 0x0c => let (c, n) := c.inc_r Reg.C; some (c, bus, n)
  | 0x0d => let (c, n) := c.dec_r Reg.C; some (c, bus, n)
  | 0x0e => let (c, n) := c.ld_r_d8 bus Reg.C; some (c, bus, n)
  | 0x0f => let (c, n) := c.rrca; some (c, bus, n)
  | _ => some (c, bus, 0) -- unimplemented/illegal opcode: logged, 0-cycle no-op


def Cpu.exec_g1 (c : Cpu) (bus : Bus) (op : Nat) : Option (Cpu × Bus × Nat) :=
  match op with
  | 0x10 =>
    -- STOP 0: modelled as a halt by the source
    some ({c with halted := true}, bus, 4)
  | 0x11 => let (c, n) := c.ld_rr_d16 bus RegPair.DE; some (c, bus, n)
  | 0x12 => c.ld_addr_r bus RegPair.DE Reg.A
  | 0x13 => let (c, n) := c.inc_rr RegPair.DE; some (c, bus, n)
  | 0x14 => let (c, n) := c.inc_r Reg.D; some (c, bus, n)
  | 0x15 => let (c, n) := c.dec_r Reg.D; some (c, bus, n)
  | 0x16 => let (c, n) := c.ld_r_d8 bus Reg.D; some (c, bus, n)
  | 0x17 => let (c, n) := c.rla; some (c, bus, n)
  | 0x18 => let (c, n) := c.jr_if_r8 bus true; some (c, bus, n)
  | 0x19 => let (c, n) := c.add_rr_rr RegPair.HL c.regs.de; some (c, bus, n)
  | 0x1a => let (c, n) := c.ld_r_addr bus Reg.A RegPair.DE; some (c, bus, n)
  | 0x1b => let (c, n) := c.dec_rr RegPair.DE; some (c, bus, n)
  | 0x1c => let (c, n) := c.inc_r Reg.E; some (c, bus, n)
  | 0x1d => let (c, n) := c.dec_r Reg.E; some (c, bus, n)
  | 0x1e => let (c, n) := c.ld_r_d8 bus Reg.E; some (c, bus, n)
  | 0x1f => let (c, n) := c.rra; some (c, bus, n)
  | _ => some (c, bus, 0) -- unimplemented/illegal opcode: logged, 0-cycle no-op


def Cpu.exec_g2 (c : Cpu) (bus : Bus) (op : Nat) : Option (Cpu × Bus × Nat) :=
  match op with
  | 0x20 =>
    -- JR NZ,r8
    let flag := !(c.regs.flag_is_set Registers.FLAG_Z)
    let (c, n) := c.jr_if_r8 bus flag
    some (c, bus, n)
  | 0x21 => let (c, n) := c.ld_rr_d16 bus RegPair.HL; some (c, bus, n)
  | 0x22 =>
    -- LD (HL+),A
    (bus.write_byte c.regs.hl (c.regs.get Reg.A)).map
      (fun b => ({c with regs := {c.regs with hl := (c.regs.hl + 1) % 65536}}, b, 8))
  | 0x23 => let (c, n) := c.inc_rr RegPair.HL; some (c, bus, n)
  | 0x24 => let (c, n) := c.inc_r Reg.H; some (c, bus, n)
  | 0x25 => let (c, n) := c.dec_r Reg.H; some (c, bus, n)
  | 0x26 => let (c, n) := c.ld_r_d8 bus Reg.H; some (c, bus, n)
  | 0x27 => let (c, n) := c.daa; some (c, bus, n)
  | 0x28 =>
    -- JR Z,r8
    let flag := c.regs.flag_is_set Registers.FLAG_Z
    let (c, n) := c.jr_if_r8 bus flag
    some (c, bus, n)
  | 0x29 => let (c, n) := c.add_rr_rr RegPair.HL c.regs.hl; some (c, bus, n)
  | 0x2a =>
    -- LD A,(HL+)
    let (c, _) := c.ld_r_addr bus Reg.A RegPair.HL
    some ({c with regs := {c.regs with hl := (c.regs.hl + 1) % 65536}}, bus, 8)
  | 0x2b => let (c, n) := c.dec_rr RegPair.HL; some (c, bus, n)
  | 0x2c => let (c, n) := c.inc_r Reg.L; some (c, bus, n)
  | 0x2d => let (c, n) := c.dec_r Reg.L; some (c, bus, n)
  | 0x2e => let (c, n) := c.ld_r_d8 bus Reg.L; some (c, bus, n)
  | 0x2f => let (c, n) := c.cpl; some (c, bus, n)
  | _ => some (c, bus, 0) -- unimplemented/illegal opcode: logged, 0-cycle no-op


def Cpu.exec_g3 (c : Cpu) (bus : Bus) (op : Nat) : Option (Cpu × Bus × Nat) :=
  match op with
  | 0x30 =>
    -- JR NC,r8
    let flag := !(c.regs.flag_is_set Registers.FLAG_C)
    let (c, n) := c.jr_if_r8 bus flag
    some (c, bus, n)
  | 0x31 =>
    -- LD SP,d16
    let (d16, c) := c.fetch_word bus
    some ({c with sp := d16}, bus, 12)
  | 0x32 =>
    -- LD (HL-),A
    (bus.write_byte (c.regs.get_pair RegPair.HL) (c.regs.get Reg.A)).map
      (fun b => ({c with regs := {c.regs with hl := (c.regs.hl + 65536 - 1) % 65536}}, b, 8))
  | 0x33 => let (c, n) := c.inc_sp; some (c, bus, n)
  | 0x34 => c.inc_hl bus
  | 0x35 => c.dec_hl bus
  | 0x36 => c.ld_hl_d8 bus
  | 0x37 =>
    -- SCF
    let regs := c.regs.flag_clear Registers.FLAG_N
    let regs := regs.flag_clear Registers.FLAG_H
    let regs := regs.flag_set Registers.FLAG_C
    some ({c with regs := regs}, bus, 4)
  | 0x38 =>
    -- JR C,r8
    let flag := c.regs.flag_is_set Registers.FLAG_C
    let (c, n) := c.jr_if_r8 bus flag
    some (c, bus, n)
  | 0x39 => let (c, n) := c.add_rr_rr RegPair.HL c.sp; some (c, bus, n)
  | 0x3a =>
    -- LD A,(HL-)
    let (c, _) := c.ld_r_addr bus Reg.A RegPair.HL
    some ({c with regs := {c.regs with hl := (c.regs.hl + 65536 - 1) % 65536}}, bus, 8)
  | 0x3b =>
    -- DEC SP
    some ({c with sp := (c.sp + 65536 - 1) % 65536}, bus, 8)
  | 0x3c => let (c, n) := c.inc_r Reg.A; some (c, bus, n)
  | 0x3d => let (c, n) := c.dec_r Reg.A; some (c, bus, n)
  | 0x3e => let (c, n) := c.ld_r_d8 bus Reg.A; some (c, bus, n)
  | 0x3f =>
    -- CCF
    let regs := c.regs.flag_clear Registers.FLAG_N
    let regs := regs.flag_clear Registers.FLAG_H
    let cy := regs.flag_is_set Registers.FLAG_C
    let regs := regs.flag_set_value Registers.FLAG_C (!cy)
    some ({c with regs := regs}, bus, 4)
  | _ => some (c, bus, 0) -- unimplemented/illegal opcode: logged, 0-cycle no-op


def Cpu.exec_g4 (c : Cpu) (bus : Bus) (op : Nat) : Option (Cpu × Bus × Nat) :=
  match op with
  | 0x40 => let (c, n) := c.ld_r_r Reg.B Reg.B; some (c, bus, n)
  | 0x41 => let (c, n) := c.ld_r_r Reg.B Reg.C; some (c, bus, n)
  | 0x42 => let (c, n) := c.ld_r_r Reg.B Reg.D; some (c, bus, n)
  | 0x43 => let (c, n) := c.ld_r_r Reg.B Reg.E; some (c, bus, n)
  | 0x44 => let (c, n) := c.ld_r_r Reg.B Reg.H; some (c, bus, n)
  | 0x45 => let (c, n) := c.ld_r_r Reg.B Reg.L; some (c, bus, n)
  | 0x46 => let (c, n) := c.ld_r_addr bus Reg.B RegPair.HL; some (c, bus, n)
  | 0x47 => let (c, n) := c.ld_r_r Reg.B Reg.A; some (c, bus, n)
  | 0x48 => let (c, n) := c.ld_r_r Reg.C Reg.B; some (c, bus, n)
  | 0x49 => let (c, n) := c.ld_r_r Reg.C Reg.C; some (c, bus, n)
  | 0x4a => let (c, n) := c.ld_r_r Reg.C Reg.D; some (c, bus, n)
  | 0x4b => let (c, n) := c.ld_r_r Reg.C Reg.E; some (c, bus, n)
  | 0x4c => let (c, n) := c.ld_r_r Reg.C Reg.H; some (c, bus, n)
  | 0x4d => let (c, n) := c.ld_r_r Reg.C Reg.L; some (c, bus, n)
  | 0x4e => let (c, n) := c.ld_r_addr bus Reg.C RegPair.HL; some (c, bus, n)
  | 0x4f => let (c, n) := c.ld_r_r Reg.C Reg.A; some (c, bus, n)
  | _ => some (c, bus, 0) -- unimplemented/illegal opcode: logged, 0-cycle no-op


def Cpu.exec_g5 (c : Cpu) (bus : Bus) (op : Nat) : Option (Cpu × Bus × Nat) :=
  match op with
  | 0x50 => let (c, n) := c.ld_r_r Reg.D Reg.B; some (c, bus, n)
  | 0x51 => let (c, n) := c.ld_r_r Reg.D Reg.C; some (c, bus, n)
  | 0x52 => let (c, n) := c.ld_r_r Reg.D Reg.D; some (c, bus, n)
  | 0x53 => let (c, n) := c.ld_r_r Reg.D Reg.E; some (c, bus, n)
  | 0x54 => let (c, n) := c.ld_r_r Reg.D Reg.H; some (c, bus, n)
  | 0x55 => let (c, n) := c.ld_r_r Reg.D Reg.L; some (c, bus, n)
  | 0x56 => let (c, n) := c.ld_r_addr bus Reg.D RegPair.HL; some (c, bus, n)
  | 0x57 => let (c, n) := c.ld_r_r Reg.D Reg.A; some (c, bus, n)
  | 0x58 => let (c, n) := c.ld_r_r Reg.E Reg.B; some (c, bus, n)
  | 0x59 => let (c, n) := c.ld_r_r Reg.E Reg.C; some (c, bus, n)
  | 0x5a => let (c, n) := c.ld_r_r Reg.E Reg.D; some (c, bus, n)
  | 0x5b => let (c, n) := c.ld_r_r Reg.E Reg.E; some (c, bus, n)
  | 0x5c => let (c, n) := c.ld_r_r Reg.E Reg.H; some (c, bus, n)
  | 0x5d => let (c, n) := c.ld_r_r Reg.E Reg.L; some (c, bus, n)
  | 0x5e => let (c, n) := c.ld_r_addr bus Reg.E RegPair.HL; some (c, bus, n)
  | 0x5f => let (c, n) := c.ld_r_r Reg.E Reg.A; some (c, bus, n)
  | _ => some (c, bus, 0) -- unimplemented/illegal opcode: logged, 0-cycle no-op


def Cpu.exec_g6 (c : Cpu) (bus : Bus) (op : Nat) : Option (Cpu × Bus × Nat) :=
  match op with
  | 0x60 => let (c, n) := c.ld_r_r Reg.H Reg.B; some (c, bus, n)
  | 0x61 => let (c, n) := c.ld_r_r Reg.H Reg.C; some (c, bus, n)
  | 0x62 => let (c, n) := c.ld_r_r Reg.H Reg.D; some (c, bus, n)
  | 0x63 => let (c, n) := c.ld_r_r Reg.H Reg.E; some (c, bus, n)
  | 0x64 => let (c, n) := c.ld_r_r Reg.H Reg.H; some (c, bus, n)
  | 0x65 => let (c, n) := c.ld_r_r Reg.H Reg.L; some (c, bus, n)
  | 0x66 => let (c, n) := c.ld_r_addr bus Reg.H RegPair.HL; some (c, bus, n)
  | 0x67 => let (c, n) := c.ld_r_r Reg.H Reg.A; some (c, bus, n)
  | 0x68 => let (c, n) := c.ld_r_r Reg.L Reg.B; some (c, bus, n)
  | 0x69 => let (c, n) := c.ld_r_r Reg.L Reg.C; some (c, bus, n)
  | 0x6a => let (c, n) := c.ld_r_r Reg.L Reg.D; some (c, bus, n)
  | 0x6b => let (c, n) := c.ld_r_r Reg.L Reg.E; some (c, bus, n)
  | 0x6c => let (c, n) := c.ld_r_r Reg.L Reg.H; some (c, bus, n)
  | 0x6d => let (c, n) := c.ld_r_r Reg.L Reg.L; some (c, bus, n)
  | 0x6e => let (c, n) := c.ld_r_addr bus Reg.L RegPair.HL; some (c, bus, n)
  | 0x6f => let (c, n) := c.ld_r_r Reg.L Reg.A; some (c, bus, n)
  | _ => some (c, bus, 0) -- unimplemented/illegal opcode: logged, 0-cycle no-op


def Cpu.exec_g7 (c : Cpu) (bus : Bus) (op : Nat) : Option (Cpu × Bus × Nat) :=
  match op with
  | 0x70 => c.ld_addr_r bus RegPair.HL Reg.B
  | 0x71 => c.ld_addr_r bus RegPair.HL Reg.C
  | 0x72 => c.ld_addr_r bus RegPair.HL Reg.D
  | 0x73 => c.ld_addr_r bus RegPair.HL Reg.E
  | 0x74 => c.ld_addr_r bus RegPair.HL Reg.H
  | 0x75 => c.ld_addr_r bus RegPair.HL Reg.L
  | 0x76 =>
    -- HALT
    if c.ime then
      some ({c with halted := true}, bus, 4)
    else if bus.interrupt_pending then
      -- HALT bug: do not pause the CPU; the next byte is read twice
      some ({c with halt_bug := true}, bus, 4)
    else
      some ({c with halted := true}, bus, 4)
  | 0x77 => c.ld_addr_r bus RegPair.HL Reg.A
  | 0x78 => let (c, n) := c.ld_r_r Reg.A Reg.B; some (c, bus, n)
  | 0x79 => let (c, n) := c.ld_r_r Reg.A Reg.C; some (c, bus, n)
  | 0x7a => let (c, n) := c.ld_r_r Reg.A Reg.D; some (c, bus, n)
  | 0x7b => let (c, n) := c.ld_r_r Reg.A Reg.E; some (c, bus, n)
  | 0x7c => let (c, n) := c.ld_r_r Reg.A Reg.H; some (c, bus, n)
  | 0x7d => let (c, n) := c.ld_r_r Reg.A Reg.L; some (c, bus, n)
  | 0x7e => let (c, n) := c.ld_r_addr bus Reg.A RegPair.HL; some (c, bus, n)
  | 0x7f => let (c, n) := c.ld_r_r Reg.A Reg.A; some (c, bus, n)
  | _ => some (c, bus, 0) -- unimplemented/illegal opcode: logged, 0-cycle no-op


def Cpu.exec_g8 (c : Cpu) (bus : Bus) (op : Nat) : Option (Cpu × Bus × Nat) :=
  match op with
  | 0x80 => let (c, n) := c.add_r Reg.B; some (c, bus, n)
  | 0x81 => let (c, n) := c.add_r Reg.C; some (c, bus, n)
  | 0x82 => let (c, n) := c.add_r Reg.D; some (c, bus, n)
  | 0x83 => let (c, n) := c.add_r Reg.E; some (c, bus, n)
  | 0x84 => let (c, n) := c.add_r Reg.H; some (c, bus, n)
  | 0x85 => let (c, n) := c.add_r Reg.L; some (c, bus, n)
  | 0x86 => let (c, n) := c.add_hl_addr bus; some (c, bus, n)
  | 0x87 => let (c, n) := c.add_r Reg.A; some (c, bus, n)
  | 0x88 => let (c, n) := c.adc_r Reg.B; some (c, bus, n)
  | 0x89 => let (c, n) := c.adc_r Reg.C; some (c, bus, n)
  | 0x8a => let (c, n) := c.adc_r Reg.D; some (c, bus, n)
  | 0x8b => let (c, n) := c.adc_r Reg.E; some (c, bus, n)
  | 0x8c => let (c, n) := c.adc_r Reg.H; some (c, bus, n)
  | 0x8d => let (c, n) := c.adc_r Reg.L; some (c, bus, n)
  | 0x8e => let (c, n) := c.adc_hl bus; some (c, bus, n)
  | 0x8f => let (c, n) := c.adc_r Reg.A; some (c, bus, n)
  | _ => some (c, bus, 0) -- unimplemented/illegal opcode: logged, 0-cycle no-op


def Cpu.exec_g9 (c : Cpu) (bus : Bus) (op : Nat) : Option (Cpu × Bus × Nat) :=
  match op with
  | 0x90 => let (c, n) := c.sub_r Reg.B; some (c, bus, n)
  | 0x91 => let (c, n) := c.sub_r Reg.C; some (c, bus, n)
  | 0x92 => let (c, n) := c.sub_r Reg.D; some (c, bus, n)
  | 0x93 => let (c, n) := c.sub_r Reg.E; some (c, bus, n)
  | 0x94 => let (c, n) := c.sub_r Reg.H; some (c, bus, n)
  | 0x95 => let (c, n) := c.sub_r Reg.L; some (c, bus, n)
  | 0x96 => let (c, n) := c.sub_hl_addr bus; some (c, bus, n)
  | 0x97 => let (c, n) := c.sub_r Reg.A; some (c, bus, n)
  | 0x98 => let (c, n) := c.sbc_r Reg.B; some (c, bus, n)
  | 0x99 => let (c, n) := c.sbc_r Reg.C; some (c, bus, n)
  | 0x9a => let (c, n) := c.sbc_r Reg.D; some (c, bus, n)
  | 0x9b => let (c, n) := c.sbc_r Reg.E; some (c, bus, n)
  | 0x9c => let (c, n) := c.sbc_r Reg.H; some (c, bus, n)
  | 0x9d => let (c, n) := c.sbc_r Reg.L; some (c, bus, n)
  | 0x9e => let (c, n) := c.sbc_hl bus; some (c, bus, n)
  | 0x9f => let (c, n) := c.sbc_r Reg.A; some (c, bus, n)
  | _ => some (c, bus, 0) -- unimplemented/illegal opcode: logged, 0-cycle no-op


def Cpu.exec_g10 (c : Cpu) (bus : Bus) (op : Nat) : Option (Cpu × Bus × Nat) :=
  match op with
  | 0xa0 => let (c, n) := c.and_r Reg.B; some (c, bus, n)
  | 0xa1 => let (c, n) := c.and_r Reg.C; some (c, bus, n)
  | 0xa2 => let (c, n) := c.and_r Reg.D; some (c, bus, n)
  | 0xa3 => let (c, n) := c.and_r Reg.E; some (c, bus, n)
  | 0xa4 => let (c, n) := c.and_r Reg.H; some (c, bus, n)
  | 0xa5 => let (c, n) := c.and_r Reg.L; some (c, bus, n)
  | 0xa6 => let (c, n) := c.and_hl bus; some (c, bus, n)
  | 0xa7 => let (c, n) := c.and_r Reg.A; some (c, bus, n)
  | 0xa8 => let (c, n) := c.xor_r Reg.B; some (c, bus, n)
  | 0xa9 => let (c, n) := c.xor_r Reg.C; some (c, bus, n)
  | 0xaa => let (c, n) := c.xor_r Reg.D; some (c, bus, n)
  | 0xab => let (c, n) := c.xor_r Reg.E; some (c, bus, n)
  | 0xac => let (c, n) := c.xor_r Reg.H; some (c, bus, n)
  | 0xad => let (c, n) := c.xor_r Reg.L; some (c, bus, n)
  | 0xae => let (c, n) := c.xor_hl bus; some (c, bus, n)
  | 0xaf => let (c, n) := c.xor_r Reg.A; some (c, bus, n)
  | _ => some (c, bus, 0) -- unimplemented/illegal opcode: logged, 0-cycle no-op


def Cpu.exec_g11 (c : Cpu) (bus : Bus) (op : Nat) : Option (Cpu × Bus × Nat) :=
  match op with
  | 0xb0 => let (c, n) := c.or_r Reg.B; some (c, bus, n)
  | 0xb1 => let (c, n) := c.or_r Reg.C; some (c, bus, n)
  | 0xb2 => let (c, n) := c.or_r Reg.D; some (c, bus, n)
  | 0xb3 => let (c, n) := c.or_r Reg.E; some (c, bus, n)
  | 0xb4 => let (c, n) := c.or_r Reg.H; some (c, bus, n)
  | 0xb5 => let (c, n) := c.or_r Reg.L; some (c, bus, n)
  | 0xb6 => let (c, n) := c.or_hl bus; some (c, bus, n)
  | 0xb7 => let (c, n) := c.or_r Reg.A; some (c, bus, n)
  | 0xb8 => let (c, n) := c.cp_r Reg.B; some (c, bus, n)
  | 0xb9 => let (c, n) := c.cp_r Reg.C; some (c, bus, n)
  | 0xba => let (c, n) := c.cp_r Reg.D; some (c, bus, n)
  | 0xbb => let (c, n) := c.cp_r Reg.E; some (c, bus, n)
  | 0xbc => let (c, n) := c.cp_r Reg.H; some (c, bus, n)
  | 0xbd => let (c, n) := c.cp_r Reg.L; some (c, bus, n)
  | 0xbe => let (c, n) := c.cp_hl bus; some (c, bus, n)
  | 0xbf => let (c, n) := c.cp_r Reg.A; some (c, bus, n)
  | _ => some (c, bus, 0) -- unimplemented/illegal opcode: logged, 0-cycle no-op


def Cpu.exec_g12 (c : Cpu) (bus : Bus) (op : Nat) : Option (Cpu × Bus × Nat) :=
  match op with
  | 0xc0 =>
    -- RET NZ
    let nz := !(c.regs.flag_is_set Registers.FLAG_Z)
    let (c, n) := c.ret_if bus nz
    some (c, bus, n)
  | 0xc1 => let (c, n) := c.pop_rr bus RegPair.BC; some (c, bus, n)
  | 0xc2 =>
    -- JP NZ,a16
    let nz := !(c.regs.flag_is_set Registers.FLAG_Z)
    let (c, n) := c.jp_if_a16 bus nz
    some (c, bus, n)
  | 0xc3 => let (c, n) := c.jp_if_a16 bus true; some (c, bus, n)
  | 0xc4 =>
    -- CALL NZ a16
    let nz := !(c.regs.flag_is_set Registers.FLAG_Z)
    c.call_if_a16 bus nz
  | 0xc5 => c.push_rr bus RegPair.BC
  | 0xc6 => let (c, n) := c.add_d8 bus; some (c, bus, n)
  | 0xc7 => c.rst bus 0x00
  | 0xc8 =>
    -- RET Z
    let z := c.regs.flag_is_set Registers.FLAG_Z
    let (c, n) := c.ret_if bus z
    some (c, bus, n)
  | 0xc9 =>
    -- RET (the source discards ret_if's cycle count and returns 16)
    let (c, _) := c.ret_if bus true
    some (c, bus, 16)
  | 0xca =>
    -- JP Z,a16
    let z := c.regs.flag_is_set Registers.FLAG_Z
    let (c, n) := c.jp_if_a16 bus z
    some (c, bus, n)
  | 0xcb => c.step_cb bus
  | 0xcc =>
    -- CALL Z a16
    let z := c.regs.flag_is_set Registers.FLAG_Z
    c.call_if_a16 bus z
  | 0xcd => c.call_if_a16 bus true
  | 0xce => let (c, n) := c.adc_d8 bus; some (c, bus, n)
  | 0xcf => c.rst bus 0x08
  | _ => some (c, bus, 0) -- unimplemented/illegal opcode: logged, 0-cycle no-op


def Cpu.exec_g13 (c : Cpu) (bus : Bus) (op : Nat) : Option (Cpu × Bus × Nat) :=
  match op with
  | 0xd0 =>
    -- RET NC
    let nc := !(c.regs.flag_is_set Registers.FLAG_C)
    let (c, n) := c.ret_if bus nc
    some (c, bus, n)
  | 0xd1 => let (c, n) := c.pop_rr bus RegPair.DE; some (c, bus, n)
  | 0xd2 =>
    -- JP NC,a16
    let nc := !(c.regs.flag_is_set Registers.FLAG_C)
    let (c, n) := c.jp_if_a16 bus nc
    some (c, bus, n)
  | 0xd4 =>
    -- CALL NC a16
    let nc := !(c.regs.flag_is_set Registers.FLAG_C)
    c.call_if_a16 bus nc
  | 0xd5 => c.push_rr bus RegPair.DE
  | 0xd6 => let (c, n) := c.sub_d8 bus; some (c, bus, n)
  | 0xd7 => c.rst bus 0x10
  | 0xd8 =>
    -- RET C
    let cf := c.regs.flag_is_set Registers.FLAG_C
    let (c, n) := c.ret_if bus cf
    some (c, bus, n)
  | 0xd9 =>
    -- RETI: RET then re-enable interrupts
    let (c, _) := c.ret_if bus true
    some ({c with ime := true}, bus, 16)
  | 0xda =>
    -- JP C,a16
    let cf := c.regs.flag_is_set Registers.FLAG_C
    let (c, n) := c.jp_if_a16 bus cf
    some (c, bus, n)
  | 0xdc =>
    -- CALL C a16
    let cf := c.regs.flag_is_set Registers.FLAG_C
    c.call_if_a16 bus cf
  | 0xde => let (c, n) := c.sbc_d8 bus; some (c, bus, n)
  | 0xdf => c.rst bus 0x18
  | _ => some (c, bus, 0) -- unimplemented/illegal opcode: logged, 0-cycle no-op


def Cpu.exec_g14 (c : Cpu) (bus : Bus) (op : Nat) : Option (Cpu × Bus × Nat) :=
  match op with
  | 0xe0 =>
    -- LDH (a8),A
    let (a8, c) := c.fetch bus
    (bus.write_byte (0xFF00 + a8) (c.regs.get Reg.A)).map (fun b => (c, b, 12))
  | 0xe1 => let (c, n) := c.pop_rr bus RegPair.HL; some (c, bus, n)
  | 0xe2 =>
    -- LD (C),A
    (bus.write_byte (0xFF00 + c.regs.get Reg.C) (c.regs.get Reg.A)).map
      (fun b => (c, b, 8))
  | 0xe5 => c.push_rr bus RegPair.HL
  | 0xe6 => let (c, n) := c.and_d8 bus; some (c, bus, n)
  | 0xe7 => c.rst bus 0x20
  | 0xe8 => let (c, n) := c.add_sp_r8 bus; some (c, bus, n)
  | 0xe9 => let (c, n) := c.jp_hl; some (c, bus, n)
  | 0xea => c.ld_a16_r bus Reg.A
  | 0xee => let (c, n) := c.xor_d8 bus; some (c, bus, n)
  | 0xef => c.rst bus 0x28
  | _ => some (c, bus, 0) -- unimplemented/illegal opcode: logged, 0-cycle no-op


def Cpu.exec_g15 (c : Cpu) (bus : Bus) (op : Nat) : Option (Cpu × Bus × Nat) :=
  match op with
  | 0xf0 =>
    -- LDH A,(a8)
    let (a8, c) := c.fetch bus
    some ({c with regs := c.regs.set Reg.A (bus.read_byte (0xFF00 + a8))}, bus, 12)
  | 0xf1 => let (c, n) := c.pop_rr bus RegPair.AF; some (c, bus, n)
  | 0xf2 =>
    -- LD A,(C)
    some ({c with regs := c.regs.set Reg.A (bus.read_byte (0xFF00 + c.regs.get Reg.C))}, bus, 8)
  | 0xf3 =>
    -- DI
    some ({c with ime := false}, bus, 4)
  | 0xf5 => c.push_rr bus RegPair.AF
  | 0xf6 => let (c, n) := c.or_d8 bus; some (c, bus, n)
  | 0xf7 => c.rst bus 0x30
  | 0xf8 => let (c, n) := c.ld_hl_sp_r8 bus; some (c, bus, n)
  | 0xf9 =>
    -- LD SP,HL
    some ({c with sp := c.regs.hl}, bus, 8)
  | 0xfa => let (c, n) := c.ld_r_a16 bus Reg.A; some (c, bus, n)
  | 0xfb =>
    -- EI (takes effect immediately in this implementation)
    some ({c with ime := true}, bus, 4)
  | 0xfe => let (c, n) := c.cp_d8 bus; some (c, bus, n)
  | 0xff => c.rst bus 0x38
  | _ => some (c, bus, 0) -- unimplemented/illegal opcode: logged, 0-cycle no-op


/-- The match block of `Cpu::step` (the `let cycles = match op {...}`;
see the note above). -/
def Cpu.exec_op (c : Cpu) (bus : Bus) (op : Nat) : Option (Cpu × Bus × Nat) :=
  match op >>> 4 with
  | 0x0 => c.exec_g0 bus op
  | 0x1 => c.exec_g1 bus op
  | 0x2 => c.exec_g2 bus op
  | 0x3 => c.exec_g3 bus op
  | 0x4 => c.exec_g4 bus op
  | 0x5 => c.exec_g5 bus op
  | 0x6 => c.exec_g6 bus op
  | 0x7 => c.exec_g7 bus op
  | 0x8 => c.exec_g8 bus op
  | 0x9 => c.exec_g9 bus op
  | 0xa => c.exec_g10 bus op
  | 0xb => c.exec_g11 bus op
  | 0xc => c.exec_g12 bus op
  | 0xd => c.exec_g13 bus op
  | 0xe => c.exec_g14 bus op
  | 0xf => c.exec_g15 bus op
  | _ => some (c, bus, 0)

/-- `Cpu::step`: one fetch-decode-execute step.  Returns the cycle
count (`none` stands for a Rust panic along the execution). -/
def Cpu.step (c : Cpu) (bus : Bus) : Option (Cpu × Bus × Nat) :=
  -- for debugging
  let c := if c.pc = c.breakpoint then {c with paused := true} else c
  if c.halted then some (c, bus, 4)
  else
    let (op, c) := c.fetch bus
    c.exec_op bus op

/-- `Cpu::handle_interrupt`: wake a halted CPU on any pending
interrupt; with IME set, service the highest-priority enabled-and-
pending interrupt. -/
def Cpu.handle_interrupt (c : Cpu) (bus : Bus) : Option (Cpu × Bus) :=
  let interrupt_flag := bus.interrupt_flag
  let interrupt_enable := bus.interrupt_enable
  let pending_interrupts := bus.interrupt_pending
  -- if there are pending interrupts, we need to wake the cpu (even if IME=0)
  let c := if pending_interrupts && c.halted then {c with halted := false} else c
  if !c.ime || !pending_interrupts then
    some (c, bus)
  else
    let should_handle := fun f =>
      InterruptFlag.contains interrupt_flag f && InterruptFlag.contains interrupt_enable f
    -- These need to be ordered by priority:
    if should_handle InterruptFlag.VBLANK then
      c.call_interrupt bus InterruptFlag.VBLANK
    else if should_handle InterruptFlag.STAT then
      c.call_interrupt bus InterruptFlag.STAT
    else if should_handle InterruptFlag.TIMER then
      c.call_interrupt bus InterruptFlag.TIMER
    else if should_handle InterruptFlag.SERIAL then
      c.call_interrupt bus InterruptFlag.SERIAL
    else if should_handle InterruptFlag.JOYPAD then
      c.call_interrupt bus InterruptFlag.JOYPAD
    else
      some (c, bus)

/-! ### Claim C10 infrastructure

Transport of the CPU step along a change of the debug-only fields
(`breakpoint`, `paused`, `enable_soft_break`).  `Cpu.core` projects out
the non-debug part of the CPU state; `stepProj` applies it to a step
result.  Each instruction helper `h` gets a lemma `h_wd` stating that
running `h` on a state with replaced debug fields gives the same result
up to the same replacement (for `ld_r_r`, up to its soft-break hook,
which may set `paused`). -/

/-- The CPU state without its debug fields. -/
def Cpu.core (c : Cpu) : Registers × Nat × Nat × Bool × Bool × Bool :=
  (c.regs, c.sp, c.pc, c.halted, c.ime, c.halt_bug)

/-- Replace the debug fields of a CPU state. -/
def Cpu.withDebug (c : Cpu) (bp : Nat) (p e : Bool) : Cpu :=
  {c with breakpoint := bp, paused := p, enable_soft_break := e}

/-- Forget the debug fields of a step result. -/
def stepProj :
    Option (Cpu × Bus × Nat) → Option ((Registers × Nat × Nat × Bool × Bool × Bool) × Bus × Nat) :=
  Option.map (fun r => (r.1.core, r.2))

/-- The body of `Cpu.step` after the breakpoint check, as a function. -/
def Cpu.step_tail (c : Cpu) (bus : Bus) : Option (Cpu × Bus × Nat) :=
  if c.halted then some (c, bus, 4)
  else Cpu.exec_op (c.fetch bus).2 bus (c.fetch bus).1

/-! Concrete machine states used by the witnesses: an all-zero
cartridge, powered-on bus, and zeroed peripherals. -/

def gfx0 : Gfx :=
  { vram := fun _ => 0, oam_ram := fun _ => 0, running_mode := .Mode2
    lcd_and_ppu_enabled := false, window_tile_map_area := false
    window_enable := false, bg_and_window_tile_data_area := false
    bg_tile_map_area := false, obj_size := false, obj_enabled := false
    bg_and_window_enable := false, scy := 0, scx := 0, ly := 0, lyc := 0
    wy := 0, wx := 0
    stat_lyc_eq_ly_itr_source := false, stat_oam_itr_source := false
    stat_vblank_itr_source := false, stat_hblank_itr_source := false
    stat_lyc_eq_ly_active := false, stat_oam_active := false
    stat_vblank_active := false, stat_hblank_active := false
    bgp := ⟨.White, .White, .White, .White⟩
    obp0 := ⟨.White, .White, .White, .White⟩
    obp1 := ⟨.White, .White, .White, .White⟩ }

def cart0 : Cartridge :=
  { data := fun _ => 0, ram := fun _ => 0, selected_rom_bank := 1
    secondary_bank_register := 0, banking_mode_1 := false }

def joypad0 : Joypad :=
  { action_selected := false, direction_selected := false
    select_pressed := false, start_pressed := false, a_pressed := false
    b_pressed := false, up_pressed := false, down_pressed := false
    left_pressed := false, right_pressed := false }

def timer0 : Timer :=
  { div_timer := 0, tima := 0, tma := 0, tac_timer_enable := false
    tac_input_clock_select := .Speed0, tima_has_overflowed := false }

def bus0 : Bus :=
  { ram := fun _ => 0, hram := fun _ => 0, gfx := gfx0, cartridge := cart0
    joypad := joypad0, input_has_changed := false, has_booted := true
    interrupt_enable := 0, interrupt_flag := 0, timer := timer0
    boot_rom := fun _ => 0 }

def busD3 : Bus := {bus0 with ram := updateFn bus0.ram 0 0xD3}

def cpu45 : Cpu := {Cpu.default with regs := ⟨0x4500, 0, 0, 0⟩}

/-- The interrupt `handle_interrupt` should service according to the
spec's words: the highest-priority flag bit set in both IF and IE, in
the fixed order VBLANK, STAT, TIMER, SERIAL, JOYPAD (`none` when no
flag bit is both enabled and pending).  Stated from the spec so the
dispatcher can be compared against it. -/
def spec_priority_interrupt (interrupt_enable interrupt_flag : Nat) : Option Nat :=
  if InterruptFlag.contains interrupt_flag InterruptFlag.VBLANK &&
      InterruptFlag.contains interrupt_enable InterruptFlag.VBLANK then
    some InterruptFlag.VBLANK
  else if InterruptFlag.contains interrupt_flag InterruptFlag.STAT &&
      InterruptFlag.contains interrupt_enable InterruptFlag.STAT then
    some InterruptFlag.STAT
  else if InterruptFlag.contains interrupt_flag InterruptFlag.TIMER &&
      InterruptFlag.contains interrupt_enable InterruptFlag.TIMER then
    some InterruptFlag.TIMER
  else if InterruptFlag.contains interrupt_flag InterruptFlag.SERIAL &&
      InterruptFlag.contains interrupt_enable InterruptFlag.SERIAL then
    some InterruptFlag.SERIAL
  else if InterruptFlag.contains interrupt_flag InterruptFlag.JOYPAD &&
      InterruptFlag.contains interrupt_enable InterruptFlag.JOYPAD then
    some InterruptFlag.JOYPAD
  else
    none

def cpuC1 : Cpu := {Cpu.default with pc := 0x1234, sp := 0xFFFE, ime := true}
def busC1 : Bus := {bus0 with interrupt_enable := 0b101, interrupt_flag := 0b101}

def cpuC1w : Cpu := {cpuC1 with ime := false, sp := 0xFFFC, pc := 0x0040}
def busC1w : Bus :=
  {busC1 with
    interrupt_flag := 0b100
    hram := updateFn (updateFn busC1.hram 0x7C 0x34) 0x7D 0x12}

@[simp] theorem Cpu.withDebug_regs (c : Cpu) (bp : Nat) (p e : Bool) :
    (c.withDebug bp p e).regs = c.regs := rfl

@[simp] theorem Cpu.withDebug_sp (c : Cpu) (bp : Nat) (p e : Bool) :
    (c.withDebug bp p e).sp = c.sp := rfl

@[simp] theorem Cpu.withDebug_pc (c : Cpu) (bp : Nat) (p e : Bool) :
    (c.withDebug bp p e).pc = c.pc := rfl

@[simp] theorem Cpu.withDebug_halted (c : Cpu) (bp : Nat) (p e : Bool) :
    (c.withDebug bp p e).halted = c.halted := rfl

@[simp] theorem Cpu.withDebug_ime (c : Cpu) (bp : Nat) (p e : Bool) :
    (c.withDebug bp p e).ime = c.ime := rfl

@[simp] theorem Cpu.withDebug_halt_bug (c : Cpu) (bp : Nat) (p e : Bool) :
    (c.withDebug bp p e).halt_bug = c.halt_bug := rfl

@[simp] theorem Cpu.withDebug_breakpoint (c : Cpu) (bp : Nat) (p e : Bool) :
    (c.withDebug bp p e).breakpoint = bp := rfl

@[simp] theorem Cpu.withDebug_paused (c : Cpu) (bp : Nat) (p e : Bool) :
    (c.withDebug bp p e).paused = p := rfl

@[simp] theorem Cpu.withDebug_esb (c : Cpu) (bp : Nat) (p e : Bool) :
    (c.withDebug bp p e).enable_soft_break = e := rfl

@[simp] theorem Cpu.core_withDebug (c : Cpu) (bp : Nat) (p e : Bool) :
    (c.withDebug bp p e).core = c.core := rfl

@[simp] theorem stepProj_some (x : Cpu) (b : Bus) (n : Nat) :
    stepProj (some (x, b, n)) = some (x.core, b, n) := rfl

@[simp] theorem stepProj_map_wd (bp : Nat) (p e : Bool) (X : Option (Cpu × Bus × Nat)) :
    stepProj (X.map (fun r => (r.1.withDebug bp p e, r.2))) = stepProj X := by
  cases X <;> rfl

@[simp] theorem stepProj_ite (P : Prop) [Decidable P] (X Y : Option (Cpu × Bus × Nat)) :
    stepProj (if P then X else Y) = if P then stepProj X else stepProj Y :=
  apply_ite stepProj P X Y

@[simp] theorem stepProj_map {α : Type} (X : Option α) (f : α → Cpu × Bus × Nat) :
    stepProj (X.map f) = X.map (fun a => ((f a).1.core, (f a).2)) := by
  cases X <;> rfl

@[simp] theorem stepProj_fold (X : Option (Cpu × Bus × Nat)) :
    Option.map (fun r => (r.1.core, r.2)) X = stepProj X := rfl

@[simp] theorem Cpu.core_mk (r : Registers) (s pc : Nat) (h i : Bool) (b : Nat)
    (pa e hb : Bool) :
    Cpu.core ⟨r, s, pc, h, i, b, pa, e, hb⟩ = (r, s, pc, h, i, hb) := rfl

@[simp] theorem Cpu.inc_value_and_set_flags_wd (c : Cpu) (bp : Nat) (p e : Bool) (v : Nat) :
    Cpu.inc_value_and_set_flags (c.withDebug bp p e) v
      = ((Cpu.inc_value_and_set_flags c v).1.withDebug bp p e, (Cpu.inc_value_and_set_flags c v).2) := rfl

@[simp] theorem Cpu.dec_value_and_set_flags_wd (c : Cpu) (bp : Nat) (p e : Bool) (v : Nat) :
    Cpu.dec_value_and_set_flags (c.withDebug bp p e) v
      = ((Cpu.dec_value_and_set_flags c v).1.withDebug bp p e, (Cpu.dec_value_and_set_flags c v).2) := rfl

@[simp] theorem Cpu.srl_value_and_set_flags_wd (c : Cpu) (bp : Nat) (p e : Bool) (v : Nat) :
    Cpu.srl_value_and_set_flags (c.withDebug bp p e) v
      = ((Cpu.srl_value_and_set_flags c v).1.withDebug bp p e, (Cpu.srl_value_and_set_flags c v).2) := rfl

@[simp] theorem Cpu.swap_wd (c : Cpu) (bp : Nat) (p e : Bool) (v : Nat) :
    Cpu.swap (c.withDebug bp p e) v
      = ((Cpu.swap c v).1.withDebug bp p e, (Cpu.swap c v).2) := rfl

@[simp] theorem Cpu.rl_wd (c : Cpu) (bp : Nat) (p e : Bool) (v : Nat) :
    Cpu.rl (c.withDebug bp p e) v
      = ((Cpu.rl c v).1.withDebug bp p e, (Cpu.rl c v).2) := rfl

@[simp] theorem Cpu.rr_wd (c : Cpu) (bp : Nat) (p e : Bool) (v : Nat) :
    Cpu.rr (c.withDebug bp p e) v
      = ((Cpu.rr c v).1.withDebug bp p e, (Cpu.rr c v).2) := rfl

@[simp] theorem Cpu.rlc_wd (c : Cpu) (bp : Nat) (p e : Bool) (v : Nat) :
    Cpu.rlc (c.withDebug bp p e) v
      = ((Cpu.rlc c v).1.withDebug bp p e, (Cpu.rlc c v).2) := rfl

@[simp] theorem Cpu.rrc_wd (c : Cpu) (bp : Nat) (p e : Bool) (v : Nat) :
    Cpu.rrc (c.withDebug bp p e) v
      = ((Cpu.rrc c v).1.withDebug bp p e, (Cpu.rrc c v).2) := rfl

@[simp] theorem Cpu.sla_wd (c : Cpu) (bp : Nat) (p e : Bool) (v : Nat) :
    Cpu.sla (c.withDebug bp p e) v
      = ((Cpu.sla c v).1.withDebug bp p e, (Cpu.sla c v).2) := rfl

@[simp] theorem Cpu.sra_wd (c : Cpu) (bp : Nat) (p e : Bool) (v : Nat) :
    Cpu.sra (c.withDebug bp p e) v
      = ((Cpu.sra c v).1.withDebug bp p e, (Cpu.sra c v).2) := rfl

@[simp] theorem Cpu.xor_wd (c : Cpu) (bp : Nat) (p e : Bool) (v : Nat) :
    Cpu.xor (c.withDebug bp p e) v
      = ((Cpu.xor c v).1.withDebug bp p e, (Cpu.xor c v).2) := rfl

@[simp] theorem Cpu.and_wd (c : Cpu) (bp : Nat) (p e : Bool) (v : Nat) :
    Cpu.and (c.withDebug bp p e) v
      = ((Cpu.and c v).1.withDebug bp p e, (Cpu.and c v).2) := rfl

@[simp] theorem Cpu.or_wd (c : Cpu) (bp : Nat) (p e : Bool) (v : Nat) :
    Cpu.or (c.withDebug bp p e) v
      = ((Cpu.or c v).1.withDebug bp p e, (Cpu.or c v).2) := rfl

@[simp] theorem Cpu.adc_wd (c : Cpu) (bp : Nat) (p e : Bool) (v : Nat) (w : Bool) :
    Cpu.adc (c.withDebug bp p e) v w
      = ((Cpu.adc c v w).1.withDebug bp p e, (Cpu.adc c v w).2) := rfl

@[simp] theorem Cpu.add_wd (c : Cpu) (bp : Nat) (p e : Bool) (v : Nat) :
    Cpu.add (c.withDebug bp p e) v
      = ((Cpu.add c v).1.withDebug bp p e, (Cpu.add c v).2) := rfl

@[simp] theorem Cpu.sbc_wd (c : Cpu) (bp : Nat) (p e : Bool) (v : Nat) (w : Bool) :
    Cpu.sbc (c.withDebug bp p e) v w
      = ((Cpu.sbc c v w).1.withDebug bp p e, (Cpu.sbc c v w).2) := rfl

@[simp] theorem Cpu.sub_wd (c : Cpu) (bp : Nat) (p e : Bool) (v : Nat) :
    Cpu.sub (c.withDebug bp p e) v
      = ((Cpu.sub c v).1.withDebug bp p e, (Cpu.sub c v).2) := rfl

@[simp] theorem Cpu.xor_r_wd (c : Cpu) (bp : Nat) (p e : Bool) (reg : Reg) :
    Cpu.xor_r (c.withDebug bp p e) reg
      = ((Cpu.xor_r c reg).1.withDebug bp p e, (Cpu.xor_r c reg).2) := rfl

@[simp] theorem Cpu.and_r_wd (c : Cpu) (bp : Nat) (p e : Bool) (reg : Reg) :
    Cpu.and_r (c.withDebug bp p e) reg
      = ((Cpu.and_r c reg).1.withDebug bp p e, (Cpu.and_r c reg).2) := rfl

@[simp] theorem Cpu.or_r_wd (c : Cpu) (bp : Nat) (p e : Bool) (reg : Reg) :
    Cpu.or_r (c.withDebug bp p e) reg
      = ((Cpu.or_r c reg).1.withDebug bp p e, (Cpu.or_r c reg).2) := rfl

@[simp] theorem Cpu.add_r_wd (c : Cpu) (bp : Nat) (p e : Bool) (reg : Reg) :
    Cpu.add_r (c.withDebug bp p e) reg
      = ((Cpu.add_r c reg).1.withDebug bp p e, (Cpu.add_r c reg).2) := rfl

@[simp] theorem Cpu.adc_r_wd (c : Cpu) (bp : Nat) (p e : Bool) (reg : Reg) :
    Cpu.adc_r (c.withDebug bp p e) reg
      = ((Cpu.adc_r c reg).1.withDebug bp p e, (Cpu.adc_r c reg).2) := rfl

@[simp] theorem Cpu.sub_r_wd (c : Cpu) (bp : Nat) (p e : Bool) (reg : Reg) :
    Cpu.sub_r (c.withDebug bp p e) reg
      = ((Cpu.sub_r c reg).1.withDebug bp p e, (Cpu.sub_r c reg).2) := rfl

@[simp] theorem Cpu.sbc_r_wd (c : Cpu) (bp : Nat) (p e : Bool) (reg : Reg) :
    Cpu.sbc_r (c.withDebug bp p e) reg
      = ((Cpu.sbc_r c reg).1.withDebug bp p e, (Cpu.sbc_r c reg).2) := rfl

@[simp] theorem Cpu.cp_r_wd (c : Cpu) (bp : Nat) (p e : Bool) (reg : Reg) :
    Cpu.cp_r (c.withDebug bp p e) reg
      = ((Cpu.cp_r c reg).1.withDebug bp p e, (Cpu.cp_r c reg).2) := rfl

@[simp] theorem Cpu.xor_hl_wd (c : Cpu) (bp : Nat) (p e : Bool) (bus : Bus) :
    Cpu.xor_hl (c.withDebug bp p e) bus
      = ((Cpu.xor_hl c bus).1.withDebug bp p e, (Cpu.xor_hl c bus).2) := rfl

@[simp] theorem Cpu.and_hl_wd (c : Cpu) (bp : Nat) (p e : Bool) (bus : Bus) :
    Cpu.and_hl (c.withDebug bp p e) bus
      = ((Cpu.and_hl c bus).1.withDebug bp p e, (Cpu.and_hl c bus).2) := rfl

@[simp] theorem Cpu.or_hl_wd (c : Cpu) (bp : Nat) (p e : Bool) (bus : Bus) :
    Cpu.or_hl (c.withDebug bp p e) bus
      = ((Cpu.or_hl c bus).1.withDebug bp p e, (Cpu.or_hl c bus).2) := rfl

@[simp] theorem Cpu.add_hl_addr_wd (c : Cpu) (bp : Nat) (p e : Bool) (bus : Bus) :
    Cpu.add_hl_addr (c.withDebug bp p e) bus
      = ((Cpu.add_hl_addr c bus).1.withDebug bp p e, (Cpu.add_hl_addr c bus).2) := rfl

@[simp] theorem Cpu.adc_hl_wd (c : Cpu) (bp : Nat) (p e : Bool) (bus : Bus) :
    Cpu.adc_hl (c.withDebug bp p e) bus
      = ((Cpu.adc_hl c bus).1.withDebug bp p e, (Cpu.adc_hl c bus).2) := rfl

@[simp] theorem Cpu.sub_hl_addr_wd (c : Cpu) (bp : Nat) (p e : Bool) (bus : Bus) :
    Cpu.sub_hl_addr (c.withDebug bp p e) bus
      = ((Cpu.sub_hl_addr c bus).1.withDebug bp p e, (Cpu.sub_hl_addr c bus).2) := rfl

@[simp] theorem Cpu.sbc_hl_wd (c : Cpu) (bp : Nat) (p e : Bool) (bus : Bus) :
    Cpu.sbc_hl (c.withDebug bp p e) bus
      = ((Cpu.sbc_hl c bus).1.withDebug bp p e, (Cpu.sbc_hl c bus).2) := rfl

@[simp] theorem Cpu.cp_hl_wd (c : Cpu) (bp : Nat) (p e : Bool) (bus : Bus) :
    Cpu.cp_hl (c.withDebug bp p e) bus
      = ((Cpu.cp_hl c bus).1.withDebug bp p e, (Cpu.cp_hl c bus).2) := rfl

@[simp] theorem Cpu.inc_r_wd (c : Cpu) (bp : Nat) (p e : Bool) (reg : Reg) :
    Cpu.inc_r (c.withDebug bp p e) reg
      = ((Cpu.inc_r c reg).1.withDebug bp p e, (Cpu.inc_r c reg).2) := rfl

@[simp] theorem Cpu.dec_r_wd (c : Cpu) (bp : Nat) (p e : Bool) (reg : Reg) :
    Cpu.dec_r (c.withDebug bp p e) reg
      = ((Cpu.dec_r c reg).1.withDebug bp p e, (Cpu.dec_r c reg).2) := rfl

@[simp] theorem Cpu.inc_rr_wd (c : Cpu) (bp : Nat) (p e : Bool) (reg : RegPair) :
    Cpu.inc_rr (c.withDebug bp p e) reg
      = ((Cpu.inc_rr c reg).1.withDebug bp p e, (Cpu.inc_rr c reg).2) := rfl

@[simp] theorem Cpu.dec_rr_wd (c : Cpu) (bp : Nat) (p e : Bool) (reg : RegPair) :
    Cpu.dec_rr (c.withDebug bp p e) reg
      = ((Cpu.dec_rr c reg).1.withDebug bp p e, (Cpu.dec_rr c reg).2) := rfl

@[simp] theorem Cpu.inc_sp_wd (c : Cpu) (bp : Nat) (p e : Bool) :
    Cpu.inc_sp (c.withDebug bp p e)
      = ((Cpu.inc_sp c).1.withDebug bp p e, (Cpu.inc_sp c).2) := rfl

@[simp] theorem Cpu.add_rr_rr_wd (c : Cpu) (bp : Nat) (p e : Bool) (rt : RegPair) (v : Nat) :
    Cpu.add_rr_rr (c.withDebug bp p e) rt v
      = ((Cpu.add_rr_rr c rt v).1.withDebug bp p e, (Cpu.add_rr_rr c rt v).2) := rfl

@[simp] theorem Cpu.bit_n_value_wd (c : Cpu) (bp : Nat) (p e : Bool) (n : Nat) (v : Nat) :
    Cpu.bit_n_value (c.withDebug bp p e) n v
      = ((Cpu.bit_n_value c n v).1.withDebug bp p e, (Cpu.bit_n_value c n v).2) := rfl

@[simp] theorem Cpu.bit_n_r_wd (c : Cpu) (bp : Nat) (p e : Bool) (n : Nat) (reg : Reg) :
    Cpu.bit_n_r (c.withDebug bp p e) n reg
      = ((Cpu.bit_n_r c n reg).1.withDebug bp p e, (Cpu.bit_n_r c n reg).2) := rfl

@[simp] theorem Cpu.bit_n_hl_wd (c : Cpu) (bp : Nat) (p e : Bool) (n : Nat) (bus : Bus) :
    Cpu.bit_n_hl (c.withDebug bp p e) n bus
      = ((Cpu.bit_n_hl c n bus).1.withDebug bp p e, (Cpu.bit_n_hl c n bus).2) := rfl

@[simp] theorem Cpu.res_n_r_wd (c : Cpu) (bp : Nat) (p e : Bool) (n : Nat) (reg : Reg) :
    Cpu.res_n_r (c.withDebug bp p e) n reg
      = ((Cpu.res_n_r c n reg).1.withDebug bp p e, (Cpu.res_n_r c n reg).2) := rfl

@[simp] theorem Cpu.set_n_r_wd (c : Cpu) (bp : Nat) (p e : Bool) (n : Nat) (reg : Reg) :
    Cpu.set_n_r (c.withDebug bp p e) n reg
      = ((Cpu.set_n_r c n reg).1.withDebug bp p e, (Cpu.set_n_r c n reg).2) := rfl

@[simp] theorem Cpu.rl_r_wd (c : Cpu) (bp : Nat) (p e : Bool) (reg : Reg) :
    Cpu.rl_r (c.withDebug bp p e) reg
      = ((Cpu.rl_r c reg).1.withDebug bp p e, (Cpu.rl_r c reg).2) := rfl

@[simp] theorem Cpu.rr_r_wd (c : Cpu) (bp : Nat) (p e : Bool) (reg : Reg) :
    Cpu.rr_r (c.withDebug bp p e) reg
      = ((Cpu.rr_r c reg).1.withDebug bp p e, (Cpu.rr_r c reg).2) := rfl

@[simp] theorem Cpu.rlc_r_wd (c : Cpu) (bp : Nat) (p e : Bool) (reg : Reg) :
    Cpu.rlc_r (c.withDebug bp p e) reg
      = ((Cpu.rlc_r c reg).1.withDebug bp p e, (Cpu.rlc_r c reg).2) := rfl

@[simp] theorem Cpu.rrc_r_wd (c : Cpu) (bp : Nat) (p e : Bool) (reg : Reg) :
    Cpu.rrc_r (c.withDebug bp p e) reg
      = ((Cpu.rrc_r c reg).1.withDebug bp p e, (Cpu.rrc_r c reg).2) := rfl

@[simp] theorem Cpu.sla_r_wd (c : Cpu) (bp : Nat) (p e : Bool) (reg : Reg) :
    Cpu.sla_r (c.withDebug bp p e) reg
      = ((Cpu.sla_r c reg).1.withDebug bp p e, (Cpu.sla_r c reg).2) := rfl

@[simp] theorem Cpu.sra_r_wd (c : Cpu) (bp : Nat) (p e : Bool) (reg : Reg) :
    Cpu.sra_r (c.withDebug bp p e) reg
      = ((Cpu.sra_r c reg).1.withDebug bp p e, (Cpu.sra_r c reg).2) := rfl

@[simp] theorem Cpu.srl_r_wd (c : Cpu) (bp : Nat) (p e : Bool) (reg : Reg) :
    Cpu.srl_r (c.withDebug bp p e) reg
      = ((Cpu.srl_r c reg).1.withDebug bp p e, (Cpu.srl_r c reg).2) := rfl

@[simp] theorem Cpu.swap_r_wd (c : Cpu) (bp : Nat) (p e : Bool) (reg : Reg) :
    Cpu.swap_r (c.withDebug bp p e) reg
      = ((Cpu.swap_r c reg).1.withDebug bp p e, (Cpu.swap_r c reg).2) := rfl

@[simp] theorem Cpu.rla_wd (c : Cpu) (bp : Nat) (p e : Bool) :
    Cpu.rla (c.withDebug bp p e)
      = ((Cpu.rla c).1.withDebug bp p e, (Cpu.rla c).2) := rfl

@[simp] theorem Cpu.rra_wd (c : Cpu) (bp : Nat) (p e : Bool) :
    Cpu.rra (c.withDebug bp p e)
      = ((Cpu.rra c).1.withDebug bp p e, (Cpu.rra c).2) := rfl

@[simp] theorem Cpu.rlca_wd (c : Cpu) (bp : Nat) (p e : Bool) :
    Cpu.rlca (c.withDebug bp p e)
      = ((Cpu.rlca c).1.withDebug bp p e, (Cpu.rlca c).2) := rfl

@[simp] theorem Cpu.rrca_wd (c : Cpu) (bp : Nat) (p e : Bool) :
    Cpu.rrca (c.withDebug bp p e)
      = ((Cpu.rrca c).1.withDebug bp p e, (Cpu.rrca c).2) := rfl

@[simp] theorem Cpu.jp_hl_wd (c : Cpu) (bp : Nat) (p e : Bool) :
    Cpu.jp_hl (c.withDebug bp p e)
      = ((Cpu.jp_hl c).1.withDebug bp p e, (Cpu.jp_hl c).2) := rfl

@[simp] theorem Cpu.cpl_wd (c : Cpu) (bp : Nat) (p e : Bool) :
    Cpu.cpl (c.withDebug bp p e)
      = ((Cpu.cpl c).1.withDebug bp p e, (Cpu.cpl c).2) := rfl

@[simp] theorem Cpu.ld_r_addr_wd (c : Cpu) (bp : Nat) (p e : Bool) (bus : Bus) (r : Reg) (rr : RegPair) :
    Cpu.ld_r_addr (c.withDebug bp p e) bus r rr
      = ((Cpu.ld_r_addr c bus r rr).1.withDebug bp p e, (Cpu.ld_r_addr c bus r rr).2) := rfl

@[simp] theorem Cpu.pop_rr_wd (c : Cpu) (bp : Nat) (p e : Bool) (bus : Bus) (rr : RegPair) :
    Cpu.pop_rr (c.withDebug bp p e) bus rr
      = ((Cpu.pop_rr c bus rr).1.withDebug bp p e, (Cpu.pop_rr c bus rr).2) := rfl

@[simp] theorem Cpu.cp_wd (c : Cpu) (bp : Nat) (p e : Bool) (v : Nat) :
    Cpu.cp (c.withDebug bp p e) v = (Cpu.cp c v).withDebug bp p e := rfl

@[simp] theorem Cpu.pop_word_wd (c : Cpu) (bp : Nat) (p e : Bool) (bus : Bus) :
    Cpu.pop_word (c.withDebug bp p e) bus
      = ((Cpu.pop_word c bus).1, (Cpu.pop_word c bus).2.withDebug bp p e) := rfl

@[simp] theorem Cpu.fetch_wd (c : Cpu) (bp : Nat) (p e : Bool) (bus : Bus) :
    Cpu.fetch (c.withDebug bp p e) bus
      = ((Cpu.fetch c bus).1, (Cpu.fetch c bus).2.withDebug bp p e) := by
  simp only [Cpu.fetch, Cpu.withDebug]
  split <;> rfl

@[simp] theorem Cpu.fetch_word_wd (c : Cpu) (bp : Nat) (p e : Bool) (bus : Bus) :
    Cpu.fetch_word (c.withDebug bp p e) bus
      = ((Cpu.fetch_word c bus).1, (Cpu.fetch_word c bus).2.withDebug bp p e) := by
  simp only [Cpu.fetch_word, Cpu.fetch_wd, Cpu.withDebug_pc, Cpu.withDebug_halt_bug]

@[simp] theorem Cpu.ld_r_d8_wd (c : Cpu) (bp : Nat) (p e : Bool) (bus : Bus) (reg : Reg) :
    Cpu.ld_r_d8 (c.withDebug bp p e) bus reg
      = ((Cpu.ld_r_d8 c bus reg).1.withDebug bp p e, (Cpu.ld_r_d8 c bus reg).2) := by
  simp only [Cpu.ld_r_d8, Cpu.fetch_wd, Cpu.withDebug_regs, Cpu.withDebug_sp, Cpu.withDebug_pc, Cpu.withDebug_halted, Cpu.withDebug_ime, Cpu.withDebug_halt_bug, Cpu.withDebug_breakpoint, Cpu.withDebug_paused, Cpu.withDebug_esb]
  try rfl

@[simp] theorem Cpu.add_sp_r8_wd (c : Cpu) (bp : Nat) (p e : Bool) (bus : Bus) :
    Cpu.add_sp_r8 (c.withDebug bp p e) bus
      = ((Cpu.add_sp_r8 c bus).1.withDebug bp p e, (Cpu.add_sp_r8 c bus).2) := by
  simp only [Cpu.add_sp_r8, Cpu.fetch_wd, Cpu.withDebug_regs, Cpu.withDebug_sp, Cpu.withDebug_pc, Cpu.withDebug_halted, Cpu.withDebug_ime, Cpu.withDebug_halt_bug, Cpu.withDebug_breakpoint, Cpu.withDebug_paused, Cpu.withDebug_esb]
  try rfl

@[simp] theorem Cpu.ld_hl_sp_r8_wd (c : Cpu) (bp : Nat) (p e : Bool) (bus : Bus) :
    Cpu.ld_hl_sp_r8 (c.withDebug bp p e) bus
      = ((Cpu.ld_hl_sp_r8 c bus).1.withDebug bp p e, (Cpu.ld_hl_sp_r8 c bus).2) := by
  simp only [Cpu.ld_hl_sp_r8, Cpu.add_sp_r8_wd, Cpu.withDebug_regs, Cpu.withDebug_sp, Cpu.withDebug_pc, Cpu.withDebug_halted, Cpu.withDebug_ime, Cpu.withDebug_halt_bug, Cpu.withDebug_breakpoint, Cpu.withDebug_paused, Cpu.withDebug_esb]
  try rfl

@[simp] theorem Cpu.xor_d8_wd (c : Cpu) (bp : Nat) (p e : Bool) (bus : Bus) :
    Cpu.xor_d8 (c.withDebug bp p e) bus
      = ((Cpu.xor_d8 c bus).1.withDebug bp p e, (Cpu.xor_d8 c bus).2) := by
  simp only [Cpu.xor_d8, Cpu.fetch_wd, Cpu.xor_wd, Cpu.withDebug_regs, Cpu.withDebug_sp, Cpu.withDebug_pc, Cpu.withDebug_halted, Cpu.withDebug_ime, Cpu.withDebug_halt_bug, Cpu.withDebug_breakpoint, Cpu.withDebug_paused, Cpu.withDebug_esb]
  try rfl

@[simp] theorem Cpu.and_d8_wd (c : Cpu) (bp : Nat) (p e : Bool) (bus : Bus) :
    Cpu.and_d8 (c.withDebug bp p e) bus
      = ((Cpu.and_d8 c bus).1.withDebug bp p e, (Cpu.and_d8 c bus).2) := by
  simp only [Cpu.and_d8, Cpu.fetch_wd, Cpu.and_wd, Cpu.withDebug_regs, Cpu.withDebug_sp, Cpu.withDebug_pc, Cpu.withDebug_halted, Cpu.withDebug_ime, Cpu.withDebug_halt_bug, Cpu.withDebug_breakpoint, Cpu.withDebug_paused, Cpu.withDebug_esb]
  try rfl

@[simp] theorem Cpu.or_d8_wd (c : Cpu) (bp : Nat) (p e : Bool) (bus : Bus) :
    Cpu.or_d8 (c.withDebug bp p e) bus
      = ((Cpu.or_d8 c bus).1.withDebug bp p e, (Cpu.or_d8 c bus).2) := by
  simp only [Cpu.or_d8, Cpu.fetch_wd, Cpu.or_wd, Cpu.withDebug_regs, Cpu.withDebug_sp, Cpu.withDebug_pc, Cpu.withDebug_halted, Cpu.withDebug_ime, Cpu.withDebug_halt_bug, Cpu.withDebug_breakpoint, Cpu.withDebug_paused, Cpu.withDebug_esb]
  try rfl

@[simp] theorem Cpu.add_d8_wd (c : Cpu) (bp : Nat) (p e : Bool) (bus : Bus) :
    Cpu.add_d8 (c.withDebug bp p e) bus
      = ((Cpu.add_d8 c bus).1.withDebug bp p e, (Cpu.add_d8 c bus).2) := by
  simp only [Cpu.add_d8, Cpu.fetch_wd, Cpu.add_wd, Cpu.withDebug_regs, Cpu.withDebug_sp, Cpu.withDebug_pc, Cpu.withDebug_halted, Cpu.withDebug_ime, Cpu.withDebug_halt_bug, Cpu.withDebug_breakpoint, Cpu.withDebug_paused, Cpu.withDebug_esb]
  try rfl

@[simp] theorem Cpu.adc_d8_wd (c : Cpu) (bp : Nat) (p e : Bool) (bus : Bus) :
    Cpu.adc_d8 (c.withDebug bp p e) bus
      = ((Cpu.adc_d8 c bus).1.withDebug bp p e, (Cpu.adc_d8 c bus).2) := by
  simp only [Cpu.adc_d8, Cpu.fetch_wd, Cpu.adc_wd, Cpu.withDebug_regs, Cpu.withDebug_sp, Cpu.withDebug_pc, Cpu.withDebug_halted, Cpu.withDebug_ime, Cpu.withDebug_halt_bug, Cpu.withDebug_breakpoint, Cpu.withDebug_paused, Cpu.withDebug_esb]
  try rfl

@[simp] theorem Cpu.sub_d8_wd (c : Cpu) (bp : Nat) (p e : Bool) (bus : Bus) :
    Cpu.sub_d8 (c.withDebug bp p e) bus
      = ((Cpu.sub_d8 c bus).1.withDebug bp p e, (Cpu.sub_d8 c bus).2) := by
  simp only [Cpu.sub_d8, Cpu.fetch_wd, Cpu.sub_wd, Cpu.withDebug_regs, Cpu.withDebug_sp, Cpu.withDebug_pc, Cpu.withDebug_halted, Cpu.withDebug_ime, Cpu.withDebug_halt_bug, Cpu.withDebug_breakpoint, Cpu.withDebug_paused, Cpu.withDebug_esb]
  try rfl

@[simp] theorem Cpu.sbc_d8_wd (c : Cpu) (bp : Nat) (p e : Bool) (bus : Bus) :
    Cpu.sbc_d8 (c.withDebug bp p e) bus
      = ((Cpu.sbc_d8 c bus).1.withDebug bp p e, (Cpu.sbc_d8 c bus).2) := by
  simp only [Cpu.sbc_d8, Cpu.fetch_wd, Cpu.sbc_wd, Cpu.withDebug_regs, Cpu.withDebug_sp, Cpu.withDebug_pc, Cpu.withDebug_halted, Cpu.withDebug_ime, Cpu.withDebug_halt_bug, Cpu.withDebug_breakpoint, Cpu.withDebug_paused, Cpu.withDebug_esb]
  try rfl

@[simp] theorem Cpu.cp_d8_wd (c : Cpu) (bp : Nat) (p e : Bool) (bus : Bus) :
    Cpu.cp_d8 (c.withDebug bp p e) bus
      = ((Cpu.cp_d8 c bus).1.withDebug bp p e, (Cpu.cp_d8 c bus).2) := by
  simp only [Cpu.cp_d8, Cpu.fetch_wd, Cpu.cp_wd, Cpu.withDebug_regs, Cpu.withDebug_sp, Cpu.withDebug_pc, Cpu.withDebug_halted, Cpu.withDebug_ime, Cpu.withDebug_halt_bug, Cpu.withDebug_breakpoint, Cpu.withDebug_paused, Cpu.withDebug_esb]
  try rfl

@[simp] theorem Cpu.ld_rr_d16_wd (c : Cpu) (bp : Nat) (p e : Bool) (bus : Bus) (reg : RegPair) :
    Cpu.ld_rr_d16 (c.withDebug bp p e) bus reg
      = ((Cpu.ld_rr_d16 c bus reg).1.withDebug bp p e, (Cpu.ld_rr_d16 c bus reg).2) := by
  simp only [Cpu.ld_rr_d16, Cpu.fetch_word_wd, Cpu.withDebug_regs, Cpu.withDebug_sp, Cpu.withDebug_pc, Cpu.withDebug_halted, Cpu.withDebug_ime, Cpu.withDebug_halt_bug, Cpu.withDebug_breakpoint, Cpu.withDebug_paused, Cpu.withDebug_esb]
  try rfl

@[simp] theorem Cpu.ld_r_a16_wd (c : Cpu) (bp : Nat) (p e : Bool) (bus : Bus) (r : Reg) :
    Cpu.ld_r_a16 (c.withDebug bp p e) bus r
      = ((Cpu.ld_r_a16 c bus r).1.withDebug bp p e, (Cpu.ld_r_a16 c bus r).2) := by
  simp only [Cpu.ld_r_a16, Cpu.fetch_word_wd, Cpu.withDebug_regs, Cpu.withDebug_sp, Cpu.withDebug_pc, Cpu.withDebug_halted, Cpu.withDebug_ime, Cpu.withDebug_halt_bug, Cpu.withDebug_breakpoint, Cpu.withDebug_paused, Cpu.withDebug_esb]
  try rfl

@[simp] theorem Cpu.jr_if_r8_wd (c : Cpu) (bp : Nat) (p e : Bool) (bus : Bus) (flag : Bool) :
    Cpu.jr_if_r8 (c.withDebug bp p e) bus flag
      = ((Cpu.jr_if_r8 c bus flag).1.withDebug bp p e, (Cpu.jr_if_r8 c bus flag).2) := by
  simp only [Cpu.jr_if_r8, Cpu.fetch_wd, Cpu.withDebug_regs, Cpu.withDebug_sp, Cpu.withDebug_pc, Cpu.withDebug_halted, Cpu.withDebug_ime, Cpu.withDebug_halt_bug, Cpu.withDebug_breakpoint, Cpu.withDebug_paused, Cpu.withDebug_esb]
  split <;> rfl

@[simp] theorem Cpu.jp_if_a16_wd (c : Cpu) (bp : Nat) (p e : Bool) (bus : Bus) (flag : Bool) :
    Cpu.jp_if_a16 (c.withDebug bp p e) bus flag
      = ((Cpu.jp_if_a16 c bus flag).1.withDebug bp p e, (Cpu.jp_if_a16 c bus flag).2) := by
  simp only [Cpu.jp_if_a16, Cpu.fetch_word_wd, Cpu.withDebug_regs, Cpu.withDebug_sp, Cpu.withDebug_pc, Cpu.withDebug_halted, Cpu.withDebug_ime, Cpu.withDebug_halt_bug, Cpu.withDebug_breakpoint, Cpu.withDebug_paused, Cpu.withDebug_esb]
  split <;> rfl

@[simp] theorem Cpu.ret_if_wd (c : Cpu) (bp : Nat) (p e : Bool) (bus : Bus) (flag : Bool) :
    Cpu.ret_if (c.withDebug bp p e) bus flag
      = ((Cpu.ret_if c bus flag).1.withDebug bp p e, (Cpu.ret_if c bus flag).2) := by
  cases flag <;> rfl

@[simp] theorem Cpu.daa_wd (c : Cpu) (bp : Nat) (p e : Bool) :
    Cpu.daa (c.withDebug bp p e)
      = ((Cpu.daa c).1.withDebug bp p e, (Cpu.daa c).2) := by
  simp only [Cpu.daa, Cpu.withDebug_regs]
  split_ifs <;> rfl

@[simp] theorem Cpu.ld_r_r_wd (c : Cpu) (bp : Nat) (p e : Bool) (rt rs : Reg) :
    Cpu.ld_r_r (c.withDebug bp p e) rt rs
      = ((Cpu.ld_r_r c rt rs).1.withDebug bp
          (if e && rt == Reg.B && rs == Reg.B then true else p) e,
         (Cpu.ld_r_r c rt rs).2) := by
  simp only [Cpu.ld_r_r, Cpu.withDebug]
  split_ifs <;> rfl

@[simp] theorem Cpu.push_word_wd (c : Cpu) (bp : Nat) (p e : Bool) (bus : Bus) (w : Nat) :
    Cpu.push_word (c.withDebug bp p e) bus w
      = (Cpu.push_word c bus w).map (fun x => (x.1.withDebug bp p e, x.2)) := by
  simp only [Cpu.push_word, Cpu.withDebug_sp, Option.map_map]
  exact Option.map_congr fun a _ => rfl

@[simp] theorem Cpu.call_wd (c : Cpu) (bp : Nat) (p e : Bool) (bus : Bus) (addr : Nat) :
    Cpu.call (c.withDebug bp p e) bus addr
      = (Cpu.call c bus addr).map (fun x => (x.1.withDebug bp p e, x.2)) := by
  simp only [Cpu.call, Cpu.push_word_wd, Cpu.withDebug_pc, Option.map_map]
  exact Option.map_congr fun a _ => rfl

@[simp] theorem Cpu.call_if_a16_wd (c : Cpu) (bp : Nat) (p e : Bool) (bus : Bus) (flag : Bool) :
    Cpu.call_if_a16 (c.withDebug bp p e) bus flag
      = (Cpu.call_if_a16 c bus flag).map (fun x => (x.1.withDebug bp p e, x.2)) := by
  simp only [Cpu.call_if_a16, Cpu.fetch_word_wd, Cpu.call_wd, Option.map_map]
  cases flag <;> simp [Option.map_map]
  · exact Option.map_congr fun a _ => rfl

@[simp] theorem Cpu.ld_addr_r_wd (c : Cpu) (bp : Nat) (p e : Bool) (bus : Bus) (rr : RegPair) (r : Reg) :
    Cpu.ld_addr_r (c.withDebug bp p e) bus rr r
      = (Cpu.ld_addr_r c bus rr r).map (fun x => (x.1.withDebug bp p e, x.2)) := by
  simp only [Cpu.ld_addr_r, Cpu.withDebug_regs, Cpu.withDebug_sp, Cpu.withDebug_pc, Cpu.withDebug_halted, Cpu.withDebug_ime, Cpu.withDebug_halt_bug, Cpu.withDebug_breakpoint, Cpu.withDebug_paused, Cpu.withDebug_esb, Option.map_map]
  exact Option.map_congr fun a _ => rfl

@[simp] theorem Cpu.ld_hl_d8_wd (c : Cpu) (bp : Nat) (p e : Bool) (bus : Bus) :
    Cpu.ld_hl_d8 (c.withDebug bp p e) bus
      = (Cpu.ld_hl_d8 c bus).map (fun x => (x.1.withDebug bp p e, x.2)) := by
  simp only [Cpu.ld_hl_d8, Cpu.fetch_wd, Cpu.withDebug_regs, Cpu.withDebug_sp, Cpu.withDebug_pc, Cpu.withDebug_halted, Cpu.withDebug_ime, Cpu.withDebug_halt_bug, Cpu.withDebug_breakpoint, Cpu.withDebug_paused, Cpu.withDebug_esb, Option.map_map]
  exact Option.map_congr fun a _ => rfl

@[simp] theorem Cpu.ld_a16_r_wd (c : Cpu) (bp : Nat) (p e : Bool) (bus : Bus) (r : Reg) :
    Cpu.ld_a16_r (c.withDebug bp p e) bus r
      = (Cpu.ld_a16_r c bus r).map (fun x => (x.1.withDebug bp p e, x.2)) := by
  simp only [Cpu.ld_a16_r, Cpu.fetch_word_wd, Cpu.withDebug_regs, Cpu.withDebug_sp, Cpu.withDebug_pc, Cpu.withDebug_halted, Cpu.withDebug_ime, Cpu.withDebug_halt_bug, Cpu.withDebug_breakpoint, Cpu.withDebug_paused, Cpu.withDebug_esb, Option.map_map]
  exact Option.map_congr fun a _ => rfl

@[simp] theorem Cpu.inc_hl_wd (c : Cpu) (bp : Nat) (p e : Bool) (bus : Bus) :
    Cpu.inc_hl (c.withDebug bp p e) bus
      = (Cpu.inc_hl c bus).map (fun x => (x.1.withDebug bp p e, x.2)) := by
  simp only [Cpu.inc_hl, Cpu.inc_value_and_set_flags_wd, Cpu.withDebug_regs, Cpu.withDebug_sp, Cpu.withDebug_pc, Cpu.withDebug_halted, Cpu.withDebug_ime, Cpu.withDebug_halt_bug, Cpu.withDebug_breakpoint, Cpu.withDebug_paused, Cpu.withDebug_esb, Option.map_map]
  exact Option.map_congr fun a _ => rfl

@[simp] theorem Cpu.dec_hl_wd (c : Cpu) (bp : Nat) (p e : Bool) (bus : Bus) :
    Cpu.dec_hl (c.withDebug bp p e) bus
      = (Cpu.dec_hl c bus).map (fun x => (x.1.withDebug bp p e, x.2)) := by
  simp only [Cpu.dec_hl, Cpu.dec_value_and_set_flags_wd, Cpu.withDebug_regs, Cpu.withDebug_sp, Cpu.withDebug_pc, Cpu.withDebug_halted, Cpu.withDebug_ime, Cpu.withDebug_halt_bug, Cpu.withDebug_breakpoint, Cpu.withDebug_paused, Cpu.withDebug_esb, Option.map_map]
  exact Option.map_congr fun a _ => rfl

@[simp] theorem Cpu.swap_hl_wd (c : Cpu) (bp : Nat) (p e : Bool) (bus : Bus) :
    Cpu.swap_hl (c.withDebug bp p e) bus
      = (Cpu.swap_hl c bus).map (fun x => (x.1.withDebug bp p e, x.2)) := by
  simp only [Cpu.swap_hl, Cpu.swap_wd, Cpu.withDebug_regs, Cpu.withDebug_sp, Cpu.withDebug_pc, Cpu.withDebug_halted, Cpu.withDebug_ime, Cpu.withDebug_halt_bug, Cpu.withDebug_breakpoint, Cpu.withDebug_paused, Cpu.withDebug_esb, Option.map_map]
  exact Option.map_congr fun a _ => rfl

@[simp] theorem Cpu.rl_hl_wd (c : Cpu) (bp : Nat) (p e : Bool) (bus : Bus) :
    Cpu.rl_hl (c.withDebug bp p e) bus
      = (Cpu.rl_hl c bus).map (fun x => (x.1.withDebug bp p e, x.2)) := by
  simp only [Cpu.rl_hl, Cpu.rl_wd, Cpu.withDebug_regs, Cpu.withDebug_sp, Cpu.withDebug_pc, Cpu.withDebug_halted, Cpu.withDebug_ime, Cpu.withDebug_halt_bug, Cpu.withDebug_breakpoint, Cpu.withDebug_paused, Cpu.withDebug_esb, Option.map_map]
  exact Option.map_congr fun a _ => rfl

@[simp] theorem Cpu.rr_hl_wd (c : Cpu) (bp : Nat) (p e : Bool) (bus : Bus) :
    Cpu.rr_hl (c.withDebug bp p e) bus
      = (Cpu.rr_hl c bus).map (fun x => (x.1.withDebug bp p e, x.2)) := by
  simp only [Cpu.rr_hl, Cpu.rr_wd, Cpu.withDebug_regs, Cpu.withDebug_sp, Cpu.withDebug_pc, Cpu.withDebug_halted, Cpu.withDebug_ime, Cpu.withDebug_halt_bug, Cpu.withDebug_breakpoint, Cpu.withDebug_paused, Cpu.withDebug_esb, Option.map_map]
  exact Option.map_congr fun a _ => rfl

@[simp] theorem Cpu.rlc_hl_wd (c : Cpu) (bp : Nat) (p e : Bool) (bus : Bus) :
    Cpu.rlc_hl (c.withDebug bp p e) bus
      = (Cpu.rlc_hl c bus).map (fun x => (x.1.withDebug bp p e, x.2)) := by
  simp only [Cpu.rlc_hl, Cpu.rlc_wd, Cpu.withDebug_regs, Cpu.withDebug_sp, Cpu.withDebug_pc, Cpu.withDebug_halted, Cpu.withDebug_ime, Cpu.withDebug_halt_bug, Cpu.withDebug_breakpoint, Cpu.withDebug_paused, Cpu.withDebug_esb, Option.map_map]
  exact Option.map_congr fun a _ => rfl

@[simp] theorem Cpu.rrc_hl_wd (c : Cpu) (bp : Nat) (p e : Bool) (bus : Bus) :
    Cpu.rrc_hl (c.withDebug bp p e) bus
      = (Cpu.rrc_hl c bus).map (fun x => (x.1.withDebug bp p e, x.2)) := by
  simp only [Cpu.rrc_hl, Cpu.rrc_wd, Cpu.withDebug_regs, Cpu.withDebug_sp, Cpu.withDebug_pc, Cpu.withDebug_halted, Cpu.withDebug_ime, Cpu.withDebug_halt_bug, Cpu.withDebug_breakpoint, Cpu.withDebug_paused, Cpu.withDebug_esb, Option.map_map]
  exact Option.map_congr fun a _ => rfl

@[simp] theorem Cpu.sla_hl_wd (c : Cpu) (bp : Nat) (p e : Bool) (bus : Bus) :
    Cpu.sla_hl (c.withDebug bp p e) bus
      = (Cpu.sla_hl c bus).map (fun x => (x.1.withDebug bp p e, x.2)) := by
  simp only [Cpu.sla_hl, Cpu.sla_wd, Cpu.withDebug_regs, Cpu.withDebug_sp, Cpu.withDebug_pc, Cpu.withDebug_halted, Cpu.withDebug_ime, Cpu.withDebug_halt_bug, Cpu.withDebug_breakpoint, Cpu.withDebug_paused, Cpu.withDebug_esb, Option.map_map]
  exact Option.map_congr fun a _ => rfl

@[simp] theorem Cpu.sra_hl_wd (c : Cpu) (bp : Nat) (p e : Bool) (bus : Bus) :
    Cpu.sra_hl (c.withDebug bp p e) bus
      = (Cpu.sra_hl c bus).map (fun x => (x.1.withDebug bp p e, x.2)) := by
  simp only [Cpu.sra_hl, Cpu.sra_wd, Cpu.withDebug_regs, Cpu.withDebug_sp, Cpu.withDebug_pc, Cpu.withDebug_halted, Cpu.withDebug_ime, Cpu.withDebug_halt_bug, Cpu.withDebug_breakpoint, Cpu.withDebug_paused, Cpu.withDebug_esb, Option.map_map]
  exact Option.map_congr fun a _ => rfl

@[simp] theorem Cpu.srl_hl_wd (c : Cpu) (bp : Nat) (p e : Bool) (bus : Bus) :
    Cpu.srl_hl (c.withDebug bp p e) bus
      = (Cpu.srl_hl c bus).map (fun x => (x.1.withDebug bp p e, x.2)) := by
  simp only [Cpu.srl_hl, Cpu.srl_value_and_set_flags_wd, Cpu.withDebug_regs, Cpu.withDebug_sp, Cpu.withDebug_pc, Cpu.withDebug_halted, Cpu.withDebug_ime, Cpu.withDebug_halt_bug, Cpu.withDebug_breakpoint, Cpu.withDebug_paused, Cpu.withDebug_esb, Option.map_map]
  exact Option.map_congr fun a _ => rfl

@[simp] theorem Cpu.res_hl_wd (c : Cpu) (bp : Nat) (p e : Bool) (n : Nat) (bus : Bus) :
    Cpu.res_hl (c.withDebug bp p e) n bus
      = (Cpu.res_hl c n bus).map (fun x => (x.1.withDebug bp p e, x.2)) := by
  simp only [Cpu.res_hl, Cpu.withDebug_regs, Cpu.withDebug_sp, Cpu.withDebug_pc, Cpu.withDebug_halted, Cpu.withDebug_ime, Cpu.withDebug_halt_bug, Cpu.withDebug_breakpoint, Cpu.withDebug_paused, Cpu.withDebug_esb, Option.map_map]
  exact Option.map_congr fun a _ => rfl

@[simp] theorem Cpu.set_hl_wd (c : Cpu) (bp : Nat) (p e : Bool) (n : Nat) (bus : Bus) :
    Cpu.set_hl (c.withDebug bp p e) n bus
      = (Cpu.set_hl c n bus).map (fun x => (x.1.withDebug bp p e, x.2)) := by
  simp only [Cpu.set_hl, Cpu.withDebug_regs, Cpu.withDebug_sp, Cpu.withDebug_pc, Cpu.withDebug_halted, Cpu.withDebug_ime, Cpu.withDebug_halt_bug, Cpu.withDebug_breakpoint, Cpu.withDebug_paused, Cpu.withDebug_esb, Option.map_map]
  exact Option.map_congr fun a _ => rfl

@[simp] theorem Cpu.push_rr_wd (c : Cpu) (bp : Nat) (p e : Bool) (bus : Bus) (rr : RegPair) :
    Cpu.push_rr (c.withDebug bp p e) bus rr
      = (Cpu.push_rr c bus rr).map (fun x => (x.1.withDebug bp p e, x.2)) := by
  simp only [Cpu.push_rr, Cpu.push_word_wd, Cpu.withDebug_regs, Cpu.withDebug_sp, Cpu.withDebug_pc, Cpu.withDebug_halted, Cpu.withDebug_ime, Cpu.withDebug_halt_bug, Cpu.withDebug_breakpoint, Cpu.withDebug_paused, Cpu.withDebug_esb, Option.map_map]
  exact Option.map_congr fun a _ => rfl

@[simp] theorem Cpu.rst_wd (c : Cpu) (bp : Nat) (p e : Bool) (bus : Bus) (vec : Nat) :
    Cpu.rst (c.withDebug bp p e) bus vec
      = (Cpu.rst c bus vec).map (fun x => (x.1.withDebug bp p e, x.2)) := by
  simp only [Cpu.rst, Cpu.call_wd, Cpu.withDebug_regs, Cpu.withDebug_sp, Cpu.withDebug_pc, Cpu.withDebug_halted, Cpu.withDebug_ime, Cpu.withDebug_halt_bug, Cpu.withDebug_breakpoint, Cpu.withDebug_paused, Cpu.withDebug_esb, Option.map_map]
  exact Option.map_congr fun a _ => rfl

theorem Cpu.exec_cb_g0_wd (c : Cpu) (bp : Nat) (p e : Bool) (bus : Bus) (op : Nat) :
    stepProj (Cpu.exec_cb_g0 (c.withDebug bp p e) bus op)
      = stepProj (Cpu.exec_cb_g0 c bus op) := by
  unfold Cpu.exec_cb_g0
  split <;> simp only [Cpu.rlc_r_wd, Cpu.rlc_hl_wd, Cpu.rrc_r_wd, Cpu.rrc_hl_wd, Cpu.set_n_r_wd, Cpu.withDebug_regs, Cpu.withDebug_sp, Cpu.withDebug_pc, Cpu.withDebug_halted, Cpu.withDebug_ime, Cpu.withDebug_halt_bug, Cpu.withDebug_breakpoint, Cpu.withDebug_paused, Cpu.withDebug_esb, stepProj_map, stepProj_fold, stepProj_some, stepProj_ite, stepProj_map_wd, Cpu.core_mk, Cpu.core_withDebug, ite_self, Cpu.fetch_wd, Cpu.fetch_word_wd]

theorem Cpu.exec_cb_g1_wd (c : Cpu) (bp : Nat) (p e : Bool) (bus : Bus) (op : Nat) :
    stepProj (Cpu.exec_cb_g1 (c.withDebug bp p e) bus op)
      = stepProj (Cpu.exec_cb_g1 c bus op) := by
  unfold Cpu.exec_cb_g1
  split <;> simp only [Cpu.rl_r_wd, Cpu.rl_hl_wd, Cpu.rr_r_wd, Cpu.rr_hl_wd, Cpu.set_n_r_wd, Cpu.withDebug_regs, Cpu.withDebug_sp, Cpu.withDebug_pc, Cpu.withDebug_halted, Cpu.withDebug_ime, Cpu.withDebug_halt_bug, Cpu.withDebug_breakpoint, Cpu.withDebug_paused, Cpu.withDebug_esb, stepProj_map, stepProj_fold, stepProj_some, stepProj_ite, stepProj_map_wd, Cpu.core_mk, Cpu.core_withDebug, ite_self, Cpu.fetch_wd, Cpu.fetch_word_wd]

theorem Cpu.exec_cb_g2_wd (c : Cpu) (bp : Nat) (p e : Bool) (bus : Bus) (op : Nat) :
    stepProj (Cpu.exec_cb_g2 (c.withDebug bp p e) bus op)
      = stepProj (Cpu.exec_cb_g2 c bus op) := by
  unfold Cpu.exec_cb_g2
  split <;> simp only [Cpu.sla_r_wd, Cpu.sla_hl_wd, Cpu.sra_r_wd, Cpu.sra_hl_wd, Cpu.set_n_r_wd, Cpu.withDebug_regs, Cpu.withDebug_sp, Cpu.withDebug_pc, Cpu.withDebug_halted, Cpu.withDebug_ime, Cpu.withDebug_halt_bug, Cpu.withDebug_breakpoint, Cpu.withDebug_paused, Cpu.withDebug_esb, stepProj_map, stepProj_fold, stepProj_some, stepProj_ite, stepProj_map_wd, Cpu.core_mk, Cpu.core_withDebug, ite_self, Cpu.fetch_wd, Cpu.fetch_word_wd]

theorem Cpu.exec_cb_g3_wd (c : Cpu) (bp : Nat) (p e : Bool) (bus : Bus) (op : Nat) :
    stepProj (Cpu.exec_cb_g3 (c.withDebug bp p e) bus op)
      = stepProj (Cpu.exec_cb_g3 c bus op) := by
  unfold Cpu.exec_cb_g3
  split <;> simp only [Cpu.swap_r_wd, Cpu.swap_hl_wd, Cpu.srl_r_wd, Cpu.srl_hl_wd, Cpu.set_n_r_wd, Cpu.withDebug_regs, Cpu.withDebug_sp, Cpu.withDebug_pc, Cpu.withDebug_halted, Cpu.withDebug_ime, Cpu.withDebug_halt_bug, Cpu.withDebug_breakpoint, Cpu.withDebug_paused, Cpu.withDebug_esb, stepProj_map, stepProj_fold, stepProj_some, stepProj_ite, stepProj_map_wd, Cpu.core_mk, Cpu.core_withDebug, ite_self, Cpu.fetch_wd, Cpu.fetch_word_wd]

theorem Cpu.exec_cb_g4_wd (c : Cpu) (bp : Nat) (p e : Bool) (bus : Bus) (op : Nat) :
    stepProj (Cpu.exec_cb_g4 (c.withDebug bp p e) bus op)
      = stepProj (Cpu.exec_cb_g4 c bus op) := by
  unfold Cpu.exec_cb_g4
  split <;> simp only [Cpu.bit_n_r_wd, Cpu.bit_n_hl_wd, Cpu.set_n_r_wd, Cpu.withDebug_regs, Cpu.withDebug_sp, Cpu.withDebug_pc, Cpu.withDebug_halted, Cpu.withDebug_ime, Cpu.withDebug_halt_bug, Cpu.withDebug_breakpoint, Cpu.withDebug_paused, Cpu.withDebug_esb, stepProj_map, stepProj_fold, stepProj_some, stepProj_ite, stepProj_map_wd, Cpu.core_mk, Cpu.core_withDebug, ite_self, Cpu.fetch_wd, Cpu.fetch_word_wd]

theorem Cpu.exec_cb_g5_wd (c : Cpu) (bp : Nat) (p e : Bool) (bus : Bus) (op : Nat) :
    stepProj (Cpu.exec_cb_g5 (c.withDebug bp p e) bus op)
      = stepProj (Cpu.exec_cb_g5 c bus op) := by
  unfold Cpu.exec_cb_g5
  split <;> simp only [Cpu.bit_n_r_wd, Cpu.bit_n_hl_wd, Cpu.set_n_r_wd, Cpu.withDebug_regs, Cpu.withDebug_sp, Cpu.withDebug_pc, Cpu.withDebug_halted, Cpu.withDebug_ime, Cpu.withDebug_halt_bug, Cpu.withDebug_breakpoint, Cpu.withDebug_paused, Cpu.withDebug_esb, stepProj_map, stepProj_fold, stepProj_some, stepProj_ite, stepProj_map_wd, Cpu.core_mk, Cpu.core_withDebug, ite_self, Cpu.fetch_wd, Cpu.fetch_word_wd]

theorem Cpu.exec_cb_g6_wd (c : Cpu) (bp : Nat) (p e : Bool) (bus : Bus) (op : Nat) :
    stepProj (Cpu.exec_cb_g6 (c.withDebug bp p e) bus op)
      = stepProj (Cpu.exec_cb_g6 c bus op) := by
  unfold Cpu.exec_cb_g6
  split <;> simp only [Cpu.bit_n_r_wd, Cpu.bit_n_hl_wd, Cpu.set_n_r_wd, Cpu.withDebug_regs, Cpu.withDebug_sp, Cpu.withDebug_pc, Cpu.withDebug_halted, Cpu.withDebug_ime, Cpu.withDebug_halt_bug, Cpu.withDebug_breakpoint, Cpu.withDebug_paused, Cpu.withDebug_esb, stepProj_map, stepProj_fold, stepProj_some, stepProj_ite, stepProj_map_wd, Cpu.core_mk, Cpu.core_withDebug, ite_self, Cpu.fetch_wd, Cpu.fetch_word_wd]

theorem Cpu.exec_cb_g7_wd (c : Cpu) (bp : Nat) (p e : Bool) (bus : Bus) (op : Nat) :
    stepProj (Cpu.exec_cb_g7 (c.withDebug bp p e) bus op)
      = stepProj (Cpu.exec_cb_g7 c bus op) := by
  unfold Cpu.exec_cb_g7
  split <;> simp only [Cpu.bit_n_r_wd, Cpu.bit_n_hl_wd, Cpu.set_n_r_wd, Cpu.withDebug_regs, Cpu.withDebug_sp, Cpu.withDebug_pc, Cpu.withDebug_halted, Cpu.withDebug_ime, Cpu.withDebug_halt_bug, Cpu.withDebug_breakpoint, Cpu.withDebug_paused, Cpu.withDebug_esb, stepProj_map, stepProj_fold, stepProj_some, stepProj_ite, stepProj_map_wd, Cpu.core_mk, Cpu.core_withDebug, ite_self, Cpu.fetch_wd, Cpu.fetch_word_wd]

theorem Cpu.exec_cb_g8_wd (c : Cpu) (bp : Nat) (p e : Bool) (bus : Bus) (op : Nat) :
    stepProj (Cpu.exec_cb_g8 (c.withDebug bp p e) bus op)
      = stepProj (Cpu.exec_cb_g8 c bus op) := by
  unfold Cpu.exec_cb_g8
  split <;> simp only [Cpu.res_n_r_wd, Cpu.res_hl_wd, Cpu.set_n_r_wd, Cpu.withDebug_regs, Cpu.withDebug_sp, Cpu.withDebug_pc, Cpu.withDebug_halted, Cpu.withDebug_ime, Cpu.withDebug_halt_bug, Cpu.withDebug_breakpoint, Cpu.withDebug_paused, Cpu.withDebug_esb, stepProj_map, stepProj_fold, stepProj_some, stepProj_ite, stepProj_map_wd, Cpu.core_mk, Cpu.core_withDebug, ite_self, Cpu.fetch_wd, Cpu.fetch_word_wd]

theorem Cpu.exec_cb_g9_wd (c : Cpu) (bp : Nat) (p e : Bool) (bus : Bus) (op : Nat) :
    stepProj (Cpu.exec_cb_g9 (c.withDebug bp p e) bus op)
      = stepProj (Cpu.exec_cb_g9 c bus op) := by
  unfold Cpu.exec_cb_g9
  split <;> simp only [Cpu.res_n_r_wd, Cpu.res_hl_wd, Cpu.set_n_r_wd, Cpu.withDebug_regs, Cpu.withDebug_sp, Cpu.withDebug_pc, Cpu.withDebug_halted, Cpu.withDebug_ime, Cpu.withDebug_halt_bug, Cpu.withDebug_breakpoint, Cpu.withDebug_paused, Cpu.withDebug_esb, stepProj_map, stepProj_fold, stepProj_some, stepProj_ite, stepProj_map_wd, Cpu.core_mk, Cpu.core_withDebug, ite_self, Cpu.fetch_wd, Cpu.fetch_word_wd]

theorem Cpu.exec_cb_g10_wd (c : Cpu) (bp : Nat) (p e : Bool) (bus : Bus) (op : Nat) :
    stepProj (Cpu.exec_cb_g10 (c.withDebug bp p e) bus op)
      = stepProj (Cpu.exec_cb_g10 c bus op) := by
  unfold Cpu.exec_cb_g10
  split <;> simp only [Cpu.res_n_r_wd, Cpu.res_hl_wd, Cpu.set_n_r_wd, Cpu.withDebug_regs, Cpu.withDebug_sp, Cpu.withDebug_pc, Cpu.withDebug_halted, Cpu.withDebug_ime, Cpu.withDebug_halt_bug, Cpu.withDebug_breakpoint, Cpu.withDebug_paused, Cpu.withDebug_esb, stepProj_map, stepProj_fold, stepProj_some, stepProj_ite, stepProj_map_wd, Cpu.core_mk, Cpu.core_withDebug, ite_self, Cpu.fetch_wd, Cpu.fetch_word_wd]

theorem Cpu.exec_cb_g11_wd (c : Cpu) (bp : Nat) (p e : Bool) (bus : Bus) (op : Nat) :
    stepProj (Cpu.exec_cb_g11 (c.withDebug bp p e) bus op)
      = stepProj (Cpu.exec_cb_g11 c bus op) := by
  unfold Cpu.exec_cb_g11
  split <;> simp only [Cpu.res_n_r_wd, Cpu.res_hl_wd, Cpu.set_n_r_wd, Cpu.withDebug_regs, Cpu.withDebug_sp, Cpu.withDebug_pc, Cpu.withDebug_halted, Cpu.withDebug_ime, Cpu.withDebug_halt_bug, Cpu.withDebug_breakpoint, Cpu.withDebug_paused, Cpu.withDebug_esb, stepProj_map, stepProj_fold, stepProj_some, stepProj_ite, stepProj_map_wd, Cpu.core_mk, Cpu.core_withDebug, ite_self, Cpu.fetch_wd, Cpu.fetch_word_wd]

theorem Cpu.exec_cb_g12_wd (c : Cpu) (bp : Nat) (p e : Bool) (bus : Bus) (op : Nat) :
    stepProj (Cpu.exec_cb_g12 (c.withDebug bp p e) bus op)
      = stepProj (Cpu.exec_cb_g12 c bus op) := by
  unfold Cpu.exec_cb_g12
  split <;> simp only [Cpu.set_n_r_wd, Cpu.set_hl_wd, Cpu.withDebug_regs, Cpu.withDebug_sp, Cpu.withDebug_pc, Cpu.withDebug_halted, Cpu.withDebug_ime, Cpu.withDebug_halt_bug, Cpu.withDebug_breakpoint, Cpu.withDebug_paused, Cpu.withDebug_esb, stepProj_map, stepProj_fold, stepProj_some, stepProj_ite, stepProj_map_wd, Cpu.core_mk, Cpu.core_withDebug, ite_self, Cpu.fetch_wd, Cpu.fetch_word_wd]

theorem Cpu.exec_cb_g13_wd (c : Cpu) (bp : Nat) (p e : Bool) (bus : Bus) (op : Nat) :
    stepProj (Cpu.exec_cb_g13 (c.withDebug bp p e) bus op)
      = stepProj (Cpu.exec_cb_g13 c bus op) := by
  unfold Cpu.exec_cb_g13
  split <;> simp only [Cpu.set_n_r_wd, Cpu.set_hl_wd, Cpu.withDebug_regs, Cpu.withDebug_sp, Cpu.withDebug_pc, Cpu.withDebug_halted, Cpu.withDebug_ime, Cpu.withDebug_halt_bug, Cpu.withDebug_breakpoint, Cpu.withDebug_paused, Cpu.withDebug_esb, stepProj_map, stepProj_fold, stepProj_some, stepProj_ite, stepProj_map_wd, Cpu.core_mk, Cpu.core_withDebug, ite_self, Cpu.fetch_wd, Cpu.fetch_word_wd]

theorem Cpu.exec_cb_g14_wd (c : Cpu) (bp : Nat) (p e : Bool) (bus : Bus) (op : Nat) :
    stepProj (Cpu.exec_cb_g14 (c.withDebug bp p e) bus op)
      = stepProj (Cpu.exec_cb_g14 c bus op) := by
  unfold Cpu.exec_cb_g14
  split <;> simp only [Cpu.set_n_r_wd, Cpu.set_hl_wd, Cpu.withDebug_regs, Cpu.withDebug_sp, Cpu.withDebug_pc, Cpu.withDebug_halted, Cpu.withDebug_ime, Cpu.withDebug_halt_bug, Cpu.withDebug_breakpoint, Cpu.withDebug_paused, Cpu.withDebug_esb, stepProj_map, stepProj_fold, stepProj_some, stepProj_ite, stepProj_map_wd, Cpu.core_mk, Cpu.core_withDebug, ite_self, Cpu.fetch_wd, Cpu.fetch_word_wd]

theorem Cpu.exec_cb_g15_wd (c : Cpu) (bp : Nat) (p e : Bool) (bus : Bus) (op : Nat) :
    stepProj (Cpu.exec_cb_g15 (c.withDebug bp p e) bus op)
      = stepProj (Cpu.exec_cb_g15 c bus op) := by
  unfold Cpu.exec_cb_g15
  split <;> simp only [Cpu.set_n_r_wd, Cpu.set_hl_wd, Cpu.withDebug_regs, Cpu.withDebug_sp, Cpu.withDebug_pc, Cpu.withDebug_halted, Cpu.withDebug_ime, Cpu.withDebug_halt_bug, Cpu.withDebug_breakpoint, Cpu.withDebug_paused, Cpu.withDebug_esb, stepProj_map, stepProj_fold, stepProj_some, stepProj_ite, stepProj_map_wd, Cpu.core_mk, Cpu.core_withDebug, ite_self, Cpu.fetch_wd, Cpu.fetch_word_wd]

theorem Cpu.exec_cb_op_wd (c : Cpu) (bp : Nat) (p e : Bool) (bus : Bus) (op : Nat) :
    stepProj (Cpu.exec_cb_op (c.withDebug bp p e) bus op)
      = stepProj (Cpu.exec_cb_op c bus op) := by
  unfold Cpu.exec_cb_op
  split <;>
    simp only [Cpu.exec_cb_g0_wd, Cpu.exec_cb_g1_wd, Cpu.exec_cb_g2_wd, Cpu.exec_cb_g3_wd,
      Cpu.exec_cb_g4_wd, Cpu.exec_cb_g5_wd, Cpu.exec_cb_g6_wd, Cpu.exec_cb_g7_wd,
      Cpu.exec_cb_g8_wd, Cpu.exec_cb_g9_wd, Cpu.exec_cb_g10_wd, Cpu.exec_cb_g11_wd,
      Cpu.exec_cb_g12_wd, Cpu.exec_cb_g13_wd, Cpu.exec_cb_g14_wd, Cpu.exec_cb_g15_wd,
      Cpu.set_n_r_wd, stepProj_some, Cpu.core_withDebug]

theorem Cpu.step_cb_wd (c : Cpu) (bp : Nat) (p e : Bool) (bus : Bus) :
    stepProj (Cpu.step_cb (c.withDebug bp p e) bus)
      = stepProj (Cpu.step_cb c bus) := by
  simp only [Cpu.step_cb, Cpu.fetch_wd, Cpu.exec_cb_op_wd]

theorem Cpu.exec_g0_wd (c : Cpu) (bp : Nat) (p e : Bool) (bus : Bus) (op : Nat) :
    stepProj (Cpu.exec_g0 (c.withDebug bp p e) bus op)
      = stepProj (Cpu.exec_g0 c bus op) := by
  unfold Cpu.exec_g0
  split <;> simp only [Cpu.ld_rr_d16_wd, Cpu.ld_addr_r_wd, Cpu.inc_rr_wd, Cpu.inc_r_wd, Cpu.dec_r_wd, Cpu.ld_r_d8_wd, Cpu.rlca_wd, Cpu.add_rr_rr_wd, Cpu.ld_r_addr_wd, Cpu.dec_rr_wd, Cpu.rrca_wd, Cpu.withDebug_regs, Cpu.withDebug_sp, Cpu.withDebug_pc, Cpu.withDebug_halted, Cpu.withDebug_ime, Cpu.withDebug_halt_bug, Cpu.withDebug_breakpoint, Cpu.withDebug_paused, Cpu.withDebug_esb, stepProj_map, stepProj_fold, stepProj_some, stepProj_ite, stepProj_map_wd, Cpu.core_mk, Cpu.core_withDebug, ite_self, Cpu.fetch_wd, Cpu.fetch_word_wd]

theorem Cpu.exec_g1_wd (c : Cpu) (bp : Nat) (p e : Bool) (bus : Bus) (op : Nat) :
    stepProj (Cpu.exec_g1 (c.withDebug bp p e) bus op)
      = stepProj (Cpu.exec_g1 c bus op) := by
  unfold Cpu.exec_g1
  split <;> simp only [Cpu.ld_rr_d16_wd, Cpu.ld_addr_r_wd, Cpu.inc_rr_wd, Cpu.inc_r_wd, Cpu.dec_r_wd, Cpu.ld_r_d8_wd, Cpu.rla_wd, Cpu.jr_if_r8_wd, Cpu.add_rr_rr_wd, Cpu.ld_r_addr_wd, Cpu.dec_rr_wd, Cpu.rra_wd, Cpu.withDebug_regs, Cpu.withDebug_sp, Cpu.withDebug_pc, Cpu.withDebug_halted, Cpu.withDebug_ime, Cpu.withDebug_halt_bug, Cpu.withDebug_breakpoint, Cpu.withDebug_paused, Cpu.withDebug_esb, stepProj_map, stepProj_fold, stepProj_some, stepProj_ite, stepProj_map_wd, Cpu.core_mk, Cpu.core_withDebug, ite_self, Cpu.fetch_wd, Cpu.fetch_word_wd]

theorem Cpu.exec_g2_wd (c : Cpu) (bp : Nat) (p e : Bool) (bus : Bus) (op : Nat) :
    stepProj (Cpu.exec_g2 (c.withDebug bp p e) bus op)
      = stepProj (Cpu.exec_g2 c bus op) := by
  unfold Cpu.exec_g2
  split <;> simp only [Cpu.jr_if_r8_wd, Cpu.ld_rr_d16_wd, Cpu.inc_rr_wd, Cpu.inc_r_wd, Cpu.dec_r_wd, Cpu.ld_r_d8_wd, Cpu.daa_wd, Cpu.add_rr_rr_wd, Cpu.ld_r_addr_wd, Cpu.dec_rr_wd, Cpu.cpl_wd, Cpu.withDebug_regs, Cpu.withDebug_sp, Cpu.withDebug_pc, Cpu.withDebug_halted, Cpu.withDebug_ime, Cpu.withDebug_halt_bug, Cpu.withDebug_breakpoint, Cpu.withDebug_paused, Cpu.withDebug_esb, stepProj_map, stepProj_fold, stepProj_some, stepProj_ite, stepProj_map_wd, Cpu.core_mk, Cpu.core_withDebug, ite_self, Cpu.fetch_wd, Cpu.fetch_word_wd]

theorem Cpu.exec_g3_wd (c : Cpu) (bp : Nat) (p e : Bool) (bus : Bus) (op : Nat) :
    stepProj (Cpu.exec_g3 (c.withDebug bp p e) bus op)
      = stepProj (Cpu.exec_g3 c bus op) := by
  unfold Cpu.exec_g3
  split <;> simp only [Cpu.jr_if_r8_wd, Cpu.inc_sp_wd, Cpu.inc_hl_wd, Cpu.dec_hl_wd, Cpu.ld_hl_d8_wd, Cpu.add_rr_rr_wd, Cpu.ld_r_addr_wd, Cpu.inc_r_wd, Cpu.dec_r_wd, Cpu.ld_r_d8_wd, Cpu.withDebug_regs, Cpu.withDebug_sp, Cpu.withDebug_pc, Cpu.withDebug_halted, Cpu.withDebug_ime, Cpu.withDebug_halt_bug, Cpu.withDebug_breakpoint, Cpu.withDebug_paused, Cpu.withDebug_esb, stepProj_map, stepProj_fold, stepProj_some, stepProj_ite, stepProj_map_wd, Cpu.core_mk, Cpu.core_withDebug, ite_self, Cpu.fetch_wd, Cpu.fetch_word_wd]

theorem Cpu.exec_g4_wd (c : Cpu) (bp : Nat) (p e : Bool) (bus : Bus) (op : Nat) :
    stepProj (Cpu.exec_g4 (c.withDebug bp p e) bus op)
      = stepProj (Cpu.exec_g4 c bus op) := by
  unfold Cpu.exec_g4
  split <;> simp only [Cpu.ld_r_r_wd, Cpu.ld_r_addr_wd, Cpu.withDebug_regs, Cpu.withDebug_sp, Cpu.withDebug_pc, Cpu.withDebug_halted, Cpu.withDebug_ime, Cpu.withDebug_halt_bug, Cpu.withDebug_breakpoint, Cpu.withDebug_paused, Cpu.withDebug_esb, stepProj_map, stepProj_fold, stepProj_some, stepProj_ite, stepProj_map_wd, Cpu.core_mk, Cpu.core_withDebug, ite_self, Cpu.fetch_wd, Cpu.fetch_word_wd]

theorem Cpu.exec_g5_wd (c : Cpu) (bp : Nat) (p e : Bool) (bus : Bus) (op : Nat) :
    stepProj (Cpu.exec_g5 (c.withDebug bp p e) bus op)
      = stepProj (Cpu.exec_g5 c bus op) := by
  unfold Cpu.exec_g5
  split <;> simp only [Cpu.ld_r_r_wd, Cpu.ld_r_addr_wd, Cpu.withDebug_regs, Cpu.withDebug_sp, Cpu.withDebug_pc, Cpu.withDebug_halted, Cpu.withDebug_ime, Cpu.withDebug_halt_bug, Cpu.withDebug_breakpoint, Cpu.withDebug_paused, Cpu.withDebug_esb, stepProj_map, stepProj_fold, stepProj_some, stepProj_ite, stepProj_map_wd, Cpu.core_mk, Cpu.core_withDebug, ite_self, Cpu.fetch_wd, Cpu.fetch_word_wd]

theorem Cpu.exec_g6_wd (c : Cpu) (bp : Nat) (p e : Bool) (bus : Bus) (op : Nat) :
    stepProj (Cpu.exec_g6 (c.withDebug bp p e) bus op)
      = stepProj (Cpu.exec_g6 c bus op) := by
  unfold Cpu.exec_g6
  split <;> simp only [Cpu.ld_r_r_wd, Cpu.ld_r_addr_wd, Cpu.withDebug_regs, Cpu.withDebug_sp, Cpu.withDebug_pc, Cpu.withDebug_halted, Cpu.withDebug_ime, Cpu.withDebug_halt_bug, Cpu.withDebug_breakpoint, Cpu.withDebug_paused, Cpu.withDebug_esb, stepProj_map, stepProj_fold, stepProj_some, stepProj_ite, stepProj_map_wd, Cpu.core_mk, Cpu.core_withDebug, ite_self, Cpu.fetch_wd, Cpu.fetch_word_wd]

theorem Cpu.exec_g7_wd (c : Cpu) (bp : Nat) (p e : Bool) (bus : Bus) (op : Nat) :
    stepProj (Cpu.exec_g7 (c.withDebug bp p e) bus op)
      = stepProj (Cpu.exec_g7 c bus op) := by
  unfold Cpu.exec_g7
  split <;> simp only [Cpu.ld_addr_r_wd, Cpu.ld_r_r_wd, Cpu.ld_r_addr_wd, Cpu.withDebug_regs, Cpu.withDebug_sp, Cpu.withDebug_pc, Cpu.withDebug_halted, Cpu.withDebug_ime, Cpu.withDebug_halt_bug, Cpu.withDebug_breakpoint, Cpu.withDebug_paused, Cpu.withDebug_esb, stepProj_map, stepProj_fold, stepProj_some, stepProj_ite, stepProj_map_wd, Cpu.core_mk, Cpu.core_withDebug, ite_self, Cpu.fetch_wd, Cpu.fetch_word_wd]

theorem Cpu.exec_g8_wd (c : Cpu) (bp : Nat) (p e : Bool) (bus : Bus) (op : Nat) :
    stepProj (Cpu.exec_g8 (c.withDebug bp p e) bus op)
      = stepProj (Cpu.exec_g8 c bus op) := by
  unfold Cpu.exec_g8
  split <;> simp only [Cpu.add_r_wd, Cpu.add_hl_addr_wd, Cpu.adc_r_wd, Cpu.adc_hl_wd, Cpu.withDebug_regs, Cpu.withDebug_sp, Cpu.withDebug_pc, Cpu.withDebug_halted, Cpu.withDebug_ime, Cpu.withDebug_halt_bug, Cpu.withDebug_breakpoint, Cpu.withDebug_paused, Cpu.withDebug_esb, stepProj_map, stepProj_fold, stepProj_some, stepProj_ite, stepProj_map_wd, Cpu.core_mk, Cpu.core_withDebug, ite_self, Cpu.fetch_wd, Cpu.fetch_word_wd]

theorem Cpu.exec_g9_wd (c : Cpu) (bp : Nat) (p e : Bool) (bus : Bus) (op : Nat) :
    stepProj (Cpu.exec_g9 (c.withDebug bp p e) bus op)
      = stepProj (Cpu.exec_g9 c bus op) := by
  unfold Cpu.exec_g9
  split <;> simp only [Cpu.sub_r_wd, Cpu.sub_hl_addr_wd, Cpu.sbc_r_wd, Cpu.sbc_hl_wd, Cpu.withDebug_regs, Cpu.withDebug_sp, Cpu.withDebug_pc, Cpu.withDebug_halted, Cpu.withDebug_ime, Cpu.withDebug_halt_bug, Cpu.withDebug_breakpoint, Cpu.withDebug_paused, Cpu.withDebug_esb, stepProj_map, stepProj_fold, stepProj_some, stepProj_ite, stepProj_map_wd, Cpu.core_mk, Cpu.core_withDebug, ite_self, Cpu.fetch_wd, Cpu.fetch_word_wd]

theorem Cpu.exec_g10_wd (c : Cpu) (bp : Nat) (p e : Bool) (bus : Bus) (op : Nat) :
    stepProj (Cpu.exec_g10 (c.withDebug bp p e) bus op)
      = stepProj (Cpu.exec_g10 c bus op) := by
  unfold Cpu.exec_g10
  split <;> simp only [Cpu.and_r_wd, Cpu.and_hl_wd, Cpu.xor_r_wd, Cpu.xor_hl_wd, Cpu.withDebug_regs, Cpu.withDebug_sp, Cpu.withDebug_pc, Cpu.withDebug_halted, Cpu.withDebug_ime, Cpu.withDebug_halt_bug, Cpu.withDebug_breakpoint, Cpu.withDebug_paused, Cpu.withDebug_esb, stepProj_map, stepProj_fold, stepProj_some, stepProj_ite, stepProj_map_wd, Cpu.core_mk, Cpu.core_withDebug, ite_self, Cpu.fetch_wd, Cpu.fetch_word_wd]

theorem Cpu.exec_g11_wd (c : Cpu) (bp : Nat) (p e : Bool) (bus : Bus) (op : Nat) :
    stepProj (Cpu.exec_g11 (c.withDebug bp p e) bus op)
      = stepProj (Cpu.exec_g11 c bus op) := by
  unfold Cpu.exec_g11
  split <;> simp only [Cpu.or_r_wd, Cpu.or_hl_wd, Cpu.cp_r_wd, Cpu.cp_hl_wd, Cpu.withDebug_regs, Cpu.withDebug_sp, Cpu.withDebug_pc, Cpu.withDebug_halted, Cpu.withDebug_ime, Cpu.withDebug_halt_bug, Cpu.withDebug_breakpoint, Cpu.withDebug_paused, Cpu.withDebug_esb, stepProj_map, stepProj_fold, stepProj_some, stepProj_ite, stepProj_map_wd, Cpu.core_mk, Cpu.core_withDebug, ite_self, Cpu.fetch_wd, Cpu.fetch_word_wd]

theorem Cpu.exec_g12_wd (c : Cpu) (bp : Nat) (p e : Bool) (bus : Bus) (op : Nat) :
    stepProj (Cpu.exec_g12 (c.withDebug bp p e) bus op)
      = stepProj (Cpu.exec_g12 c bus op) := by
  unfold Cpu.exec_g12
  split <;> simp only [Cpu.ret_if_wd, Cpu.pop_rr_wd, Cpu.jp_if_a16_wd, Cpu.call_if_a16_wd, Cpu.push_rr_wd, Cpu.add_d8_wd, Cpu.rst_wd, Cpu.step_cb_wd, Cpu.adc_d8_wd, Cpu.withDebug_regs, Cpu.withDebug_sp, Cpu.withDebug_pc, Cpu.withDebug_halted, Cpu.withDebug_ime, Cpu.withDebug_halt_bug, Cpu.withDebug_breakpoint, Cpu.withDebug_paused, Cpu.withDebug_esb, stepProj_map, stepProj_fold, stepProj_some, stepProj_ite, stepProj_map_wd, Cpu.core_mk, Cpu.core_withDebug, ite_self, Cpu.fetch_wd, Cpu.fetch_word_wd]

theorem Cpu.exec_g13_wd (c : Cpu) (bp : Nat) (p e : Bool) (bus : Bus) (op : Nat) :
    stepProj (Cpu.exec_g13 (c.withDebug bp p e) bus op)
      = stepProj (Cpu.exec_g13 c bus op) := by
  unfold Cpu.exec_g13
  split <;> simp only [Cpu.ret_if_wd, Cpu.pop_rr_wd, Cpu.jp_if_a16_wd, Cpu.call_if_a16_wd, Cpu.push_rr_wd, Cpu.sub_d8_wd, Cpu.rst_wd, Cpu.sbc_d8_wd, Cpu.withDebug_regs, Cpu.withDebug_sp, Cpu.withDebug_pc, Cpu.withDebug_halted, Cpu.withDebug_ime, Cpu.withDebug_halt_bug, Cpu.withDebug_breakpoint, Cpu.withDebug_paused, Cpu.withDebug_esb, stepProj_map, stepProj_fold, stepProj_some, stepProj_ite, stepProj_map_wd, Cpu.core_mk, Cpu.core_withDebug, ite_self, Cpu.fetch_wd, Cpu.fetch_word_wd]

theorem Cpu.exec_g14_wd (c : Cpu) (bp : Nat) (p e : Bool) (bus : Bus) (op : Nat) :
    stepProj (Cpu.exec_g14 (c.withDebug bp p e) bus op)
      = stepProj (Cpu.exec_g14 c bus op) := by
  unfold Cpu.exec_g14
  split <;> simp only [Cpu.pop_rr_wd, Cpu.push_rr_wd, Cpu.and_d8_wd, Cpu.rst_wd, Cpu.add_sp_r8_wd, Cpu.jp_hl_wd, Cpu.ld_a16_r_wd, Cpu.xor_d8_wd, Cpu.withDebug_regs, Cpu.withDebug_sp, Cpu.withDebug_pc, Cpu.withDebug_halted, Cpu.withDebug_ime, Cpu.withDebug_halt_bug, Cpu.withDebug_breakpoint, Cpu.withDebug_paused, Cpu.withDebug_esb, stepProj_map, stepProj_fold, stepProj_some, stepProj_ite, stepProj_map_wd, Cpu.core_mk, Cpu.core_withDebug, ite_self, Cpu.fetch_wd, Cpu.fetch_word_wd]

theorem Cpu.exec_g15_wd (c : Cpu) (bp : Nat) (p e : Bool) (bus : Bus) (op : Nat) :
    stepProj (Cpu.exec_g15 (c.withDebug bp p e) bus op)
      = stepProj (Cpu.exec_g15 c bus op) := by
  unfold Cpu.exec_g15
  split <;> simp only [Cpu.pop_rr_wd, Cpu.push_rr_wd, Cpu.or_d8_wd, Cpu.rst_wd, Cpu.ld_hl_sp_r8_wd, Cpu.ld_r_a16_wd, Cpu.cp_d8_wd, Cpu.withDebug_regs, Cpu.withDebug_sp, Cpu.withDebug_pc, Cpu.withDebug_halted, Cpu.withDebug_ime, Cpu.withDebug_halt_bug, Cpu.withDebug_breakpoint, Cpu.withDebug_paused, Cpu.withDebug_esb, stepProj_map, stepProj_fold, stepProj_some, stepProj_ite, stepProj_map_wd, Cpu.core_mk, Cpu.core_withDebug, ite_self, Cpu.fetch_wd, Cpu.fetch_word_wd]

theorem Cpu.exec_op_wd (c : Cpu) (bp : Nat) (p e : Bool) (bus : Bus) (op : Nat) :
    stepProj (Cpu.exec_op (c.withDebug bp p e) bus op)
      = stepProj (Cpu.exec_op c bus op) := by
  unfold Cpu.exec_op
  split <;>
    simp only [Cpu.exec_g0_wd, Cpu.exec_g1_wd, Cpu.exec_g2_wd, Cpu.exec_g3_wd,
      Cpu.exec_g4_wd, Cpu.exec_g5_wd, Cpu.exec_g6_wd, Cpu.exec_g7_wd,
      Cpu.exec_g8_wd, Cpu.exec_g9_wd, Cpu.exec_g10_wd, Cpu.exec_g11_wd,
      Cpu.exec_g12_wd, Cpu.exec_g13_wd, Cpu.exec_g14_wd, Cpu.exec_g15_wd,
      stepProj_some, Cpu.core_withDebug]


theorem Cpu.step_eq (c : Cpu) (bus : Bus) :
    Cpu.step c bus
      = Cpu.step_tail (if c.pc = c.breakpoint then {c with paused := true} else c) bus := rfl

theorem Cpu.step_tail_wd (c : Cpu) (bp : Nat) (p e : Bool) (bus : Bus) :
    stepProj (Cpu.step_tail (c.withDebug bp p e) bus)
      = stepProj (Cpu.step_tail c bus) := by
  simp only [Cpu.step_tail, Cpu.withDebug_halted, Cpu.fetch_wd, Cpu.exec_op_wd,
    stepProj_ite, stepProj_some, Cpu.core_withDebug]

/-- C10: Debug state does not interfere with emulated semantics: a `step`
from a state with any replaced breakpoint address, paused flag and
soft-break toggle returns the same non-debug CPU state (registers, SP,
PC, halted, IME, halt-bug), the same bus and the same cycle count as a
`step` from the original state. -/
theorem C10_step_debug_independent (c : Cpu) (bp : Nat) (p e : Bool) (bus : Bus) :
    stepProj (Cpu.step (c.withDebug bp p e) bus) = stepProj (Cpu.step c bus) := by
  rw [Cpu.step_eq, Cpu.step_eq]
  simp only [Cpu.withDebug_pc, Cpu.withDebug_breakpoint]
  by_cases h1 : c.pc = bp <;> by_cases h2 : c.pc = c.breakpoint
  · rw [if_pos h1, if_pos h2]
    exact (Cpu.step_tail_wd c bp true e bus).trans
      (Cpu.step_tail_wd c c.breakpoint true c.enable_soft_break bus).symm
  · rw [if_pos h1, if_neg h2]
    exact (Cpu.step_tail_wd c bp true e bus).trans
      (Cpu.step_tail_wd c c.breakpoint c.paused c.enable_soft_break bus).symm
  · rw [if_neg h1, if_pos h2]
    exact (Cpu.step_tail_wd c bp p e bus).trans
      (Cpu.step_tail_wd c c.breakpoint true c.enable_soft_break bus).symm
  · rw [if_neg h1, if_neg h2]
    exact Cpu.step_tail_wd c bp p e bus

/-! Bitwise helper lemmas for the flag-register and memory proofs. -/

theorem nat_and_or_right (a b c : Nat) : (a ||| b) &&& c = (a &&& c) ||| (b &&& c) := by
  apply Nat.eq_of_testBit_eq
  intro i
  cases ha : a.testBit i <;> cases hb : b.testBit i <;>
    simp [Nat.testBit_and, Nat.testBit_or, ha, hb]

theorem nat_and_masked_or_self (a m : Nat) : (a &&& m) ||| m = m := by
  apply Nat.eq_of_testBit_eq
  intro i
  simp [Nat.testBit_and, Nat.testBit_or]

theorem and_or_mask (a m f : Nat) (h : m &&& f = 0) : (a ||| m) &&& f = a &&& f := by
  rw [nat_and_or_right, h, Nat.or_zero]

theorem and_and_mask (a m f : Nat) (h : m &&& f = f) : (a &&& m) &&& f = a &&& f := by
  rw [Nat.and_assoc, h]

theorem flag_set_value_other (regs : Registers) (g f : Nat) (b : Bool)
    (h1 : g &&& f = 0) (h2 : (0xFFFF ^^^ g) &&& f = f) :
    (regs.flag_set_value g b).af &&& f = regs.af &&& f := by
  unfold Registers.flag_set_value Registers.flag_set Registers.flag_clear
  split
  · exact and_or_mask _ _ _ h1
  · exact and_and_mask _ _ _ h2

theorem flag_set_other (regs : Registers) (g f : Nat) (h1 : g &&& f = 0) :
    (regs.flag_set g).af &&& f = regs.af &&& f := and_or_mask _ _ _ h1

theorem flag_clear_other (regs : Registers) (g f : Nat) (h2 : (0xFFFF ^^^ g) &&& f = f) :
    (regs.flag_clear g).af &&& f = regs.af &&& f := and_and_mask _ _ _ h2

theorem flag_clear_self (regs : Registers) (g : Nat)
    (h : (0xFFFF ^^^ g) &&& g = 0) : (regs.flag_clear g).af &&& g = 0 := by
  unfold Registers.flag_clear
  rw [Nat.and_assoc, h, Nat.and_zero]

theorem flag_set_self_ne (regs : Registers) (g : Nat) (h : g ≠ 0) :
    (regs.flag_set g).af &&& g ≠ 0 := by
  unfold Registers.flag_set
  rw [nat_and_or_right, Nat.and_self, nat_and_masked_or_self]
  exact h

theorem flag_set_value_self (regs : Registers) (g : Nat) (b : Bool)
    (h1 : g ≠ 0) (h2 : (0xFFFF ^^^ g) &&& g = 0) :
    (regs.flag_set_value g b).flag_is_set g = b := by
  unfold Registers.flag_set_value Registers.flag_set Registers.flag_clear
    Registers.flag_is_set
  cases b with
  | true => simp [nat_and_or_right, Nat.and_self, nat_and_masked_or_self, h1]
  | false => simp [Nat.and_assoc, h2]

theorem shl8_low (x m : Nat) (h : m < 256) : (x <<< 8) &&& m = 0 := by
  apply Nat.eq_of_testBit_eq
  intro i
  cases hm : m.testBit i with
  | false => simp [Nat.testBit_and, hm]
  | true =>
    have hi8 : i < 8 := by
      by_contra hge
      have h8i : (8 : Nat) ≤ i := Nat.le_of_not_lt hge
      have hlt : m < 2 ^ i :=
        lt_of_lt_of_le h (Nat.pow_le_pow_right (by norm_num : (0 : Nat) < 2) h8i)
      rw [Nat.testBit_eq_false_of_lt hlt] at hm
      exact Bool.noConfusion hm
    simp [Nat.testBit_and, Nat.testBit_shiftLeft, hm, Nat.not_le.2 hi8]

theorem shr8_or (x y : Nat) : ((x <<< 8) ||| y) >>> 8 = x ||| (y >>> 8) := by
  apply Nat.eq_of_testBit_eq
  intro i
  simp [Nat.testBit_shiftRight, Nat.testBit_or, Nat.testBit_shiftLeft]

theorem set_a_flag (regs : Registers) (a f : Nat) (h1 : 0xFF &&& f = f) (h2 : f < 256) :
    (regs.set Reg.A a).af &&& f = regs.af &&& f := by
  unfold Registers.set Registers.set_hi
  rw [nat_and_or_right, shl8_low _ _ h2, Nat.zero_or, Nat.and_assoc, h1]

theorem get_a_set_a (regs : Registers) (a : Nat) : (regs.set Reg.A a).get Reg.A = a % 256 := by
  unfold Registers.set Registers.get Registers.set_hi Registers.hi
  show ((((a % 256) <<< 8) ||| (regs.af &&& 0xFF)) >>> 8) % 256 = a % 256
  rw [shr8_or]
  have hy : (regs.af &&& 0xFF) >>> 8 = 0 := by
    rw [Nat.shiftRight_eq_div_pow]
    exact Nat.div_eq_of_lt (lt_of_le_of_lt (Nat.and_le_right) (by norm_num))
  rw [hy, Nat.or_zero]
  omega

theorem read_byte_wram (bus : Bus) (addr : Nat) (h1 : 0xC000 ≤ addr) (h2 : addr ≤ 0xDFFF) :
    bus.read_byte addr = bus.ram (addr - 0xC000) % 256 := by
  unfold Bus.read_byte
  rw [if_neg (by rintro ⟨ha, -⟩; omega), if_neg (by omega), if_neg (by omega),
      if_neg (by omega), if_pos (show 0xC000 ≤ addr ∧ addr ≤ 0xDFFF by omega)]

theorem write_byte_wram (bus : Bus) (addr b : Nat) (h1 : 0xC000 ≤ addr) (h2 : addr ≤ 0xDFFF) :
    bus.write_byte addr b
      = some {bus with ram := updateFn bus.ram (addr - 0xC000) (b % 256)} := by
  unfold Bus.write_byte
  rw [if_neg (by rintro ⟨ha, -⟩; omega), if_neg (by omega), if_neg (by omega),
      if_neg (by omega), if_neg (by omega),
      if_pos (show 0xC000 ≤ addr ∧ addr ≤ 0xDFFF by omega)]

theorem hilo_recombine (v : Nat) (hv : v < 65536) :
    ((((v >>> 8) % 256) <<< 8) ||| (v % 256)) = v := by
  apply Nat.eq_of_testBit_eq
  intro i
  have h256 : (256 : Nat) = 2 ^ 8 := by norm_num
  simp only [Nat.testBit_or, Nat.testBit_shiftLeft, h256, Nat.testBit_mod_two_pow,
    Nat.testBit_shiftRight]
  by_cases hi : i < 8
  · simp [hi, Nat.not_le.2 hi]
  · by_cases hi16 : i < 16
    · have h8 : 8 ≤ i := Nat.le_of_not_lt hi
      have : 8 + (i - 8) = i := by omega
      simp [h8, Nat.not_lt.1 hi, show i - 8 < 8 by omega, this]
    · have hv' : v.testBit i = false :=
        Nat.testBit_eq_false_of_lt
          (lt_of_lt_of_le hv
            (Nat.pow_le_pow_right (by norm_num : (0:Nat) < 2) (show 16 ≤ i by omega)))
      by_cases h8 : 8 ≤ i <;> simp [h8, hv', show ¬ i - 8 < 8 by omega, show ¬ i < 8 by omega]

/-- `call_interrupt` never changes the `halted` field (it only touches
IME, SP, PC and the bus). -/
theorem call_interrupt_halted (c : Cpu) (bus : Bus) (f : Nat) (c' : Cpu) (bus' : Bus)
    (h : Cpu.call_interrupt c bus f = some (c', bus')) : c'.halted = c.halted := by
  simp only [Cpu.call_interrupt, Cpu.push_word, Option.map_map, Option.map_eq_some',
    Function.comp] at h
  obtain ⟨b, hb, he⟩ := h
  cases he
  rfl

theorem push_word_parts (c : Cpu) (bus : Bus) (w : Nat) (p : Cpu × Bus)
    (h : Cpu.push_word c bus w = some p) :
    p.1 = {c with sp := (c.sp + 65536 - 2) % 65536} := by
  unfold Cpu.push_word at h
  rcases Option.map_eq_some'.1 h with ⟨b, hw, he⟩
  rw [← he]

/-- The interrupt dispatch if-chain of `handle_interrupt`, compared
against the spec-side priority selection. -/
theorem dispatch_spec (c1 : Cpu) (bus : Bus) :
    (if InterruptFlag.contains bus.interrupt_flag InterruptFlag.VBLANK &&
        InterruptFlag.contains bus.interrupt_enable InterruptFlag.VBLANK then
      c1.call_interrupt bus InterruptFlag.VBLANK
    else if InterruptFlag.contains bus.interrupt_flag InterruptFlag.STAT &&
        InterruptFlag.contains bus.interrupt_enable InterruptFlag.STAT then
      c1.call_interrupt bus InterruptFlag.STAT
    else if InterruptFlag.contains bus.interrupt_flag InterruptFlag.TIMER &&
        InterruptFlag.contains bus.interrupt_enable InterruptFlag.TIMER then
      c1.call_interrupt bus InterruptFlag.TIMER
    else if InterruptFlag.contains bus.interrupt_flag InterruptFlag.SERIAL &&
        InterruptFlag.contains bus.interrupt_enable InterruptFlag.SERIAL then
      c1.call_interrupt bus InterruptFlag.SERIAL
    else if InterruptFlag.contains bus.interrupt_flag InterruptFlag.JOYPAD &&
        InterruptFlag.contains bus.interrupt_enable InterruptFlag.JOYPAD then
      c1.call_interrupt bus InterruptFlag.JOYPAD
    else some (c1, bus))
    = (match spec_priority_interrupt bus.interrupt_enable bus.interrupt_flag with
       | some g => c1.call_interrupt bus g
       | none => some (c1, bus)) := by
  unfold spec_priority_interrupt
  split_ifs <;> rfl

/-- Flag contract of the shared INC/DEC helpers. -/
theorem inc_dec_flag_contract (c : Cpu) (v : Nat) :
    ((c.inc_value_and_set_flags v).2 = (v + 1) % 256 ∧
     (c.inc_value_and_set_flags v).1.regs.flag_is_set Registers.FLAG_C
       = c.regs.flag_is_set Registers.FLAG_C ∧
     (c.inc_value_and_set_flags v).1.regs.flag_is_set Registers.FLAG_Z
       = ((v + 1) % 256 == 0) ∧
     (c.inc_value_and_set_flags v).1.regs.flag_is_set Registers.FLAG_N = false ∧
     (c.inc_value_and_set_flags v).1.regs.flag_is_set Registers.FLAG_H
       = ((((v &&& 0x0f) + 1) &&& 0x10) == 0x10)) ∧
    ((c.dec_value_and_set_flags v).2 = (v + 256 - 1) % 256 ∧
     (c.dec_value_and_set_flags v).1.regs.flag_is_set Registers.FLAG_C
       = c.regs.flag_is_set Registers.FLAG_C ∧
     (c.dec_value_and_set_flags v).1.regs.flag_is_set Registers.FLAG_Z
       = ((v + 256 - 1) % 256 == 0) ∧
     (c.dec_value_and_set_flags v).1.regs.flag_is_set Registers.FLAG_N = true ∧
     (c.dec_value_and_set_flags v).1.regs.flag_is_set Registers.FLAG_H
       = (((((v &&& 0x0f) + 256 - 1) % 256 &&& 0x10)) == 0x10)) := by
  have hC_inc : (c.inc_value_and_set_flags v).1.regs.af &&& Registers.FLAG_C
      = c.regs.af &&& Registers.FLAG_C := by
    unfold Cpu.inc_value_and_set_flags
    rw [flag_set_value_other _ _ _ _ (by decide) (by decide),
        flag_clear_other _ _ _ (by decide),
        flag_set_value_other _ _ _ _ (by decide) (by decide)]
  have hZ_inc : (c.inc_value_and_set_flags v).1.regs.af &&& Registers.FLAG_Z
      = (c.regs.flag_set_value Registers.FLAG_Z ((v + 1) % 256 == 0)).af
          &&& Registers.FLAG_Z := by
    unfold Cpu.inc_value_and_set_flags
    rw [flag_set_value_other _ _ _ _ (by decide) (by decide),
        flag_clear_other _ _ _ (by decide)]
  have hN_inc : (c.inc_value_and_set_flags v).1.regs.af &&& Registers.FLAG_N = 0 := by
    unfold Cpu.inc_value_and_set_flags
    rw [flag_set_value_other _ _ _ _ (by decide) (by decide)]
    exact flag_clear_self _ _ (by decide)
  have hH_inc : (c.inc_value_and_set_flags v).1.regs.flag_is_set Registers.FLAG_H
      = ((((v &&& 0x0f) + 1) &&& 0x10) == 0x10) := by
    unfold Cpu.inc_value_and_set_flags
    exact flag_set_value_self _ _ _ (by decide) (by decide)
  have hC_dec : (c.dec_value_and_set_flags v).1.regs.af &&& Registers.FLAG_C
      = c.regs.af &&& Registers.FLAG_C := by
    unfold Cpu.dec_value_and_set_flags
    rw [flag_set_value_other _ _ _ _ (by decide) (by decide),
        flag_set_other _ _ _ (by decide),
        flag_set_value_other _ _ _ _ (by decide) (by decide)]
  have hZ_dec : (c.dec_value_and_set_flags v).1.regs.af &&& Registers.FLAG_Z
      = (c.regs.flag_set_value Registers.FLAG_Z ((v + 256 - 1) % 256 == 0)).af
          &&& Registers.FLAG_Z := by
    unfold Cpu.dec_value_and_set_flags
    rw [flag_set_value_other _ _ _ _ (by decide) (by decide),
        flag_set_other _ _ _ (by decide)]
  have hN_dec : (c.dec_value_and_set_flags v).1.regs.af &&& Registers.FLAG_N ≠ 0 := by
    unfold Cpu.dec_value_and_set_flags
    rw [flag_set_value_other _ _ _ _ (by decide) (by decide)]
    exact flag_set_self_ne _ _ (by decide)
  refine ⟨⟨rfl, ?_, ?_, ?_, hH_inc⟩, rfl, ?_, ?_, ?_, ?_⟩
  · show ((c.inc_value_and_set_flags v).1.regs.af &&& Registers.FLAG_C != 0)
      = (c.regs.af &&& Registers.FLAG_C != 0)
    rw [hC_inc]
  · show ((c.inc_value_and_set_flags v).1.regs.af &&& Registers.FLAG_Z != 0) = _
    rw [hZ_inc]
    exact flag_set_value_self _ _ _ (by decide) (by decide)
  · show ((c.inc_value_and_set_flags v).1.regs.af &&& Registers.FLAG_N != 0) = false
    rw [hN_inc]
    decide
  · show ((c.dec_value_and_set_flags v).1.regs.af &&& Registers.FLAG_C != 0)
      = (c.regs.af &&& Registers.FLAG_C != 0)
    rw [hC_dec]
  · show ((c.dec_value_and_set_flags v).1.regs.af &&& Registers.FLAG_Z != 0) = _
    rw [hZ_dec]
    exact flag_set_value_self _ _ _ (by decide) (by decide)
  · show ((c.dec_value_and_set_flags v).1.regs.af &&& Registers.FLAG_N != 0) = true
    simpa using hN_dec
  · unfold Cpu.dec_value_and_set_flags
    exact flag_set_value_self _ _ _ (by decide) (by decide)

/-- The flag/value contract of the register chain `daa` builds. -/
theorem daa_flags_core (regs : Registers) (adj a2 : Nat) (h : a2 < 256) :
    ((((regs.flag_set_value Registers.FLAG_C (decide (0x60 ≤ adj))).flag_set_value
        Registers.FLAG_H false).flag_set_value Registers.FLAG_Z (a2 == 0)).set Reg.A a2).get
        Reg.A = a2 ∧
    ((((regs.flag_set_value Registers.FLAG_C (decide (0x60 ≤ adj))).flag_set_value
        Registers.FLAG_H false).flag_set_value Registers.FLAG_Z (a2 == 0)).set Reg.A
        a2).flag_is_set Registers.FLAG_Z = (a2 == 0) ∧
    ((((regs.flag_set_value Registers.FLAG_C (decide (0x60 ≤ adj))).flag_set_value
        Registers.FLAG_H false).flag_set_value Registers.FLAG_Z (a2 == 0)).set Reg.A
        a2).flag_is_set Registers.FLAG_H = false ∧
    ((((regs.flag_set_value Registers.FLAG_C (decide (0x60 ≤ adj))).flag_set_value
        Registers.FLAG_H false).flag_set_value Registers.FLAG_Z (a2 == 0)).set Reg.A
        a2).flag_is_set Registers.FLAG_N = regs.flag_is_set Registers.FLAG_N ∧
    ((((regs.flag_set_value Registers.FLAG_C (decide (0x60 ≤ adj))).flag_set_value
        Registers.FLAG_H false).flag_set_value Registers.FLAG_Z (a2 == 0)).set Reg.A
        a2).flag_is_set Registers.FLAG_C = decide (0x60 ≤ adj) := by
  refine ⟨?_, ?_, ?_, ?_, ?_⟩
  · rw [get_a_set_a]
    exact Nat.mod_eq_of_lt h
  · show (_ &&& Registers.FLAG_Z != 0) = _
    rw [set_a_flag _ _ _ (by decide) (by decide)]
    exact flag_set_value_self _ _ _ (by decide) (by decide)
  · show (_ &&& Registers.FLAG_H != 0) = false
    rw [set_a_flag _ _ _ (by decide) (by decide),
        flag_set_value_other _ _ _ _ (by decide) (by decide)]
    have := flag_set_value_self
      (regs.flag_set_value Registers.FLAG_C (decide (0x60 ≤ adj)))
      Registers.FLAG_H false (by decide) (by decide)
    exact this
  · show (_ &&& Registers.FLAG_N != 0) = (regs.af &&& Registers.FLAG_N != 0)
    rw [set_a_flag _ _ _ (by decide) (by decide),
        flag_set_value_other _ _ _ _ (by decide) (by decide),
        flag_set_value_other _ _ _ _ (by decide) (by decide),
        flag_set_value_other _ _ _ _ (by decide) (by decide)]
  · show (_ &&& Registers.FLAG_C != 0) = _
    rw [set_a_flag _ _ _ (by decide) (by decide),
        flag_set_value_other _ _ _ _ (by decide) (by decide),
        flag_set_value_other _ _ _ _ (by decide) (by decide)]
    exact flag_set_value_self _ _ _ (by decide) (by decide)



/-- C1: the interrupt dispatcher services exactly one interrupt per
call, the highest-priority bit that is both enabled and pending, in the
fixed order VBLANK, STAT, TIMER, SERIAL, JOYPAD: with IME set and an
interrupt pending, `handle_interrupt` calls `call_interrupt` on the
flag `spec_priority_interrupt` selects; `call_interrupt` clears IME,
toggles that IF bit (`ack_interrupt`), pushes the current PC and jumps
to the flag's vector.  Concretely, with IME=1 and `IE=IF=VBLANK|TIMER`,
one call clears IME, clears only the VBLANK bit of IF (TIMER stays
pending), pushes PC onto the stack and sets PC to 0x0040. -/
theorem C1_interrupt_priority (c : Cpu) (bus : Bus) (f : Nat) (c' : Cpu) (bus' : Bus) :
    (c.ime = true → bus.interrupt_pending = true →
      spec_priority_interrupt bus.interrupt_enable bus.interrupt_flag = some f →
      Cpu.handle_interrupt c bus
        = Cpu.call_interrupt (if c.halted then {c with halted := false} else c) bus f) ∧
    ((bus.ack_interrupt f).interrupt_flag = bus.interrupt_flag ^^^ f) ∧
    (Cpu.call_interrupt c bus f = some (c', bus') →
      c'.ime = false ∧
      c'.pc = Cpu.get_itr_vector f ∧
      c'.sp = (c.sp + 65536 - 2) % 65536 ∧
      (Cpu.push_word {c with ime := false} (bus.ack_interrupt f) c.pc).map
          (fun p => p.2) = some bus') ∧
    ((Cpu.handle_interrupt cpuC1 busC1).map
        (fun p => (p.1.ime, p.1.pc, p.1.sp, p.2.interrupt_flag,
                   p.2.read_byte 0xFFFC, p.2.read_byte 0xFFFD))
      = some (false, 0x0040, 0xFFFC, 0b100, 0x34, 0x12)) := by
  refine ⟨?_, rfl, ?_, by decide⟩
  · intro hime hp hf
    unfold Cpu.handle_interrupt
    by_cases hh : c.halted = true
      <;> simp only [hp, hh, hime, Bool.true_and, Bool.and_true, Bool.and_false,
            Bool.not_true, Bool.or_self, Bool.false_eq_true, if_true, if_false,
            ite_true, ite_false]
      <;> rw [dispatch_spec, hf]
  · intro h
    unfold Cpu.call_interrupt at h
    rcases Option.map_eq_some'.1 h with ⟨p, hpush, he⟩
    have h1 := push_word_parts _ _ _ _ hpush
    cases he
    refine ⟨?_, rfl, ?_, ?_⟩
    · show p.1.ime = false
      rw [h1]
    · show p.1.sp = _
      rw [h1]
    · show (Cpu.push_word {c with ime := false} (bus.ack_interrupt f)
          ({c with ime := false} : Cpu).pc).map (fun p => p.2) = some p.2
      rw [hpush]
      rfl

theorem C1_witness :
    (cpuC1.ime = true ∧ busC1.interrupt_pending = true ∧
     spec_priority_interrupt busC1.interrupt_enable busC1.interrupt_flag
       = some InterruptFlag.VBLANK ∧
     Cpu.call_interrupt cpuC1 busC1 InterruptFlag.VBLANK = some (cpuC1w, busC1w)) ∧
    Cpu.handle_interrupt cpuC1 busC1
      = Cpu.call_interrupt (if cpuC1.halted then {cpuC1 with halted := false} else cpuC1)
          busC1 InterruptFlag.VBLANK ∧
    (cpuC1w.ime = false ∧
     cpuC1w.pc = Cpu.get_itr_vector InterruptFlag.VBLANK ∧
     cpuC1w.sp = (cpuC1.sp + 65536 - 2) % 65536 ∧
     (Cpu.push_word {cpuC1 with ime := false}
         (busC1.ack_interrupt InterruptFlag.VBLANK) cpuC1.pc).map (fun p => p.2)
       = some busC1w) := by
  refine ⟨⟨rfl, by decide, by decide, rfl⟩, ?_, ?_⟩
  · exact (C1_interrupt_priority cpuC1 busC1 InterruptFlag.VBLANK cpuC1w busC1w).1
      rfl (by decide) (by decide)
  · exact (C1_interrupt_priority cpuC1 busC1 InterruptFlag.VBLANK cpuC1w busC1w).2.2.1 rfl

/-- C2: executing opcode 0x76 (HALT) sets `halted` when IME=1, and
also when IME=0 with no interrupt pending; when IME=0 and an interrupt
is pending (IE & IF ≠ 0) it does not halt and instead arms the one-shot
halt-bug flag.  Whenever the CPU is halted and an interrupt is both
enabled and pending, `handle_interrupt` clears the halted state (IME=0
included). -/
theorem C2_halt_and_wake (c : Cpu) (bus : Bus) :
    (c.ime = true → Cpu.exec_op c bus 0x76 = some ({c with halted := true}, bus, 4)) ∧
    (c.ime = false → bus.interrupt_pending = false →
      Cpu.exec_op c bus 0x76 = some ({c with halted := true}, bus, 4)) ∧
    (c.ime = false → bus.interrupt_pending = true →
      Cpu.exec_op c bus 0x76 = some ({c with halt_bug := true}, bus, 4)) ∧
    (∀ c' bus', c.halted = true → bus.interrupt_pending = true →
      Cpu.handle_interrupt c bus = some (c', bus') → c'.halted = false) := by
  refine ⟨?_, ?_, ?_, ?_⟩
  · intro h; simp [Cpu.exec_op, Cpu.exec_g7, h]
  · intro h hp; simp [Cpu.exec_op, Cpu.exec_g7, h, hp]
  · intro h hp; simp [Cpu.exec_op, Cpu.exec_g7, h, hp]
  · intro c' bus' hh hp heq
    unfold Cpu.handle_interrupt at heq
    rw [hp, hh] at heq
    simp only [Bool.true_and, if_true] at heq
    split_ifs at heq with h1 h2 h3 h4 h5 h6
    · simp at heq; rw [← heq.1]
    · exact call_interrupt_halted _ _ _ _ _ heq
    · exact call_interrupt_halted _ _ _ _ _ heq
    · exact call_interrupt_halted _ _ _ _ _ heq
    · exact call_interrupt_halted _ _ _ _ _ heq
    · exact call_interrupt_halted _ _ _ _ _ heq
    · simp at heq; rw [← heq.1]

theorem C2_witness :
    ({Cpu.default with ime := true}.ime = true ∧
     Cpu.exec_op {Cpu.default with ime := true} bus0 0x76
       = some ({Cpu.default with ime := true, halted := true}, bus0, 4)) ∧
    ({Cpu.default with ime := false, halted := true}.halted = true ∧
     ({bus0 with interrupt_enable := 1, interrupt_flag := 1} : Bus).interrupt_pending
       = true ∧
     ({Cpu.default with ime := false} : Cpu).halted = false) := by
  refine ⟨⟨rfl, (C2_halt_and_wake {Cpu.default with ime := true} bus0).1 rfl⟩,
          rfl, by decide, ?_⟩
  exact (C2_halt_and_wake {Cpu.default with ime := false, halted := true}
      {bus0 with interrupt_enable := 1, interrupt_flag := 1}).2.2.2
      {Cpu.default with ime := false}
      {bus0 with interrupt_enable := 1, interrupt_flag := 1}
      rfl (by decide) rfl

/-- C3: the halt-bug is a one-shot suppression of the PC increment:
with the flag armed, `fetch` reads the byte at PC without advancing PC
and clears the flag, so the following fetch reads the same byte and
does advance PC by 1; every fetch with the flag clear advances PC
by 1. -/
theorem C3_halt_bug_one_shot (c : Cpu) (bus : Bus) :
    (c.halt_bug = true →
      Cpu.fetch c bus = (bus.read_byte c.pc, {c with halt_bug := false}) ∧
      (Cpu.fetch (Cpu.fetch c bus).2 bus).1 = (Cpu.fetch c bus).1 ∧
      (Cpu.fetch (Cpu.fetch c bus).2 bus).2.pc = (c.pc + 1) % 65536 ∧
      (Cpu.fetch (Cpu.fetch c bus).2 bus).2.halt_bug = false) ∧
    (c.halt_bug = false →
      Cpu.fetch c bus = (bus.read_byte c.pc, {c with pc := (c.pc + 1) % 65536})) := by
  constructor
  · intro h
    refine ⟨by simp [Cpu.fetch, h], ?_, ?_, ?_⟩ <;> simp [Cpu.fetch, h]
  · intro h
    simp [Cpu.fetch, h]

theorem C3_witness :
    ({Cpu.default with pc := 0xC000, halt_bug := true}.halt_bug = true ∧
      Cpu.fetch {Cpu.default with pc := 0xC000, halt_bug := true} bus0
        = (bus0.read_byte 0xC000,
           {{Cpu.default with pc := 0xC000, halt_bug := true} with halt_bug := false})) ∧
    ({Cpu.default with pc := 0xC000}.halt_bug = false ∧
      Cpu.fetch {Cpu.default with pc := 0xC000} bus0
        = (bus0.read_byte 0xC000, {{Cpu.default with pc := 0xC000} with pc := 0xC001})) := by
  refine ⟨⟨rfl, ?_⟩, ⟨rfl, ?_⟩⟩
  · exact ((C3_halt_bug_one_shot {Cpu.default with pc := 0xC000, halt_bug := true} bus0).1
      rfl).1
  · exact (C3_halt_bug_one_shot {Cpu.default with pc := 0xC000} bus0).2 rfl

/-- C4 amended: with the stack inside WRAM (the claim as stated fails
for a stack inside ROM, see the counterexample), pushing any 16-bit
value and popping returns the value and restores the CPU state (SP
included) exactly; and the concrete SP=0xFFFE story of the claim holds
on the HRAM stack. -/
theorem C4_push_pop_roundtrip (c : Cpu) (bus : Bus) (v : Nat) (hv : v < 65536)
    (h1 : 0xC002 ≤ c.sp) (h2 : c.sp ≤ 0xDFFF) :
    (Cpu.push_word c bus v).map (fun p => Cpu.pop_word p.1 p.2) = some (v, c) ∧
    (Cpu.push_word {Cpu.default with sp := 0xFFFE} bus0 0x1234).map
        (fun p => (p.1.sp, p.2.read_byte 0xFFFC, p.2.read_byte 0xFFFD,
                   (Cpu.pop_word p.1 p.2).1, (Cpu.pop_word p.1 p.2).2.sp))
      = some (0xFFFC, 0x34, 0x12, 0x1234, 0xFFFE) := by
  refine ⟨?_, by decide⟩
  have hsp : (c.sp + 65536 - 2) % 65536 = c.sp - 2 := by omega
  have e1 := write_byte_wram bus (c.sp - 2) (v % 256) (by omega) (by omega)
  simp only [Cpu.push_word, Bus.write_word, hsp]
  rw [e1]
  simp only [Option.bind_eq_bind, Option.some_bind]
  have hsp1 : (c.sp - 2 + 1) % 65536 = c.sp - 1 := by omega
  rw [hsp1, write_byte_wram _ (c.sp - 1) ((v >>> 8) % 256) (by omega) (by omega)]
  simp only [Option.map_some']
  unfold Cpu.pop_word Bus.read_word
  have hread1 : ∀ bs : Bus, bs.ram = updateFn (updateFn bus.ram (c.sp - 2 - 0xC000)
      (v % 256 % 256)) (c.sp - 1 - 0xC000) ((v >>> 8) % 256 % 256) →
      bs.read_byte (c.sp - 2) = v % 256 := by
    intro bs hbs
    rw [read_byte_wram bs (c.sp - 2) (by omega) (by omega), hbs]
    unfold updateFn
    rw [if_neg (by omega), if_pos rfl]
    omega
  have hread2 : ∀ bs : Bus, bs.ram = updateFn (updateFn bus.ram (c.sp - 2 - 0xC000)
      (v % 256 % 256)) (c.sp - 1 - 0xC000) ((v >>> 8) % 256 % 256) →
      bs.read_byte (c.sp - 1) = (v >>> 8) % 256 := by
    intro bs hbs
    rw [read_byte_wram bs (c.sp - 1) (by omega) (by omega), hbs]
    unfold updateFn
    rw [if_pos rfl]
    omega
  have hlsb := hread1 {bus with ram := (updateFn (updateFn bus.ram (c.sp - 2 - 0xC000)
    (v % 256 % 256)) (c.sp - 1 - 0xC000) ((v >>> 8) % 256 % 256))} rfl
  have hmsb := hread2 {bus with ram := (updateFn (updateFn bus.ram (c.sp - 2 - 0xC000)
    (v % 256 % 256)) (c.sp - 1 - 0xC000) ((v >>> 8) % 256 % 256))} rfl
  have hsp3 : (c.sp - 2 + 1) % 65536 = c.sp - 1 := by omega
  have hsp4 : (c.sp - 2 + 2) % 65536 = c.sp := by omega
  simp only [hsp3, hsp4, hlsb, hmsb, hilo_recombine v hv]

/-- C4 counterexample: with SP inside ROM the claim fails — the pushed
bytes never land in memory and the pop reads ROM instead. -/
theorem C4_counterexample :
    (Cpu.push_word {Cpu.default with sp := 0x1002} bus0 0x1234).map
        (fun p => (Cpu.pop_word p.1 p.2).1) = some 0x0000 := by decide

theorem C4_witness :
    ((0x1234 : Nat) < 65536 ∧ 0xC002 ≤ (0xD000 : Nat) ∧ (0xD000 : Nat) ≤ 0xDFFF) ∧
    (Cpu.push_word {Cpu.default with sp := 0xD000} bus0 0x1234).map
        (fun p => Cpu.pop_word p.1 p.2)
      = some (0x1234, {Cpu.default with sp := 0xD000}) := by
  refine ⟨⟨by decide, by decide, by decide⟩, ?_⟩
  exact (C4_push_pop_roundtrip {Cpu.default with sp := 0xD000} bus0 0x1234
    (by decide) (by decide) (by decide)).1

/-- C5 counterexample -/
theorem C5_counterexample :
    (Cpu.add cpu45 0x38).1.regs.get Reg.A = 0x7D ∧
    (Cpu.add cpu45 0x38).1.regs.flag_is_set Registers.FLAG_H = false := by decide

/-- C5: the DAA flag contract — DAA sets Z iff the corrected
accumulator is 0, clears H, leaves N unchanged, and sets C iff the
applied correction is at least 0x60; and the concrete story corrected:
from A=0x45 with clear flags, ADD A,0x38 yields A=0x7D with H=0 (the
claim said H=1) and C=0, and DAA then corrects A to 0x83. -/
theorem C5_add_daa_contract (c : Cpu) :
    ((Cpu.daa c).2 = 4 ∧
     (Cpu.daa c).1.regs.flag_is_set Registers.FLAG_Z
       = ((Cpu.daa c).1.regs.get Reg.A == 0) ∧
     (Cpu.daa c).1.regs.flag_is_set Registers.FLAG_H = false ∧
     (Cpu.daa c).1.regs.flag_is_set Registers.FLAG_N
       = c.regs.flag_is_set Registers.FLAG_N ∧
     (Cpu.daa c).1.regs.flag_is_set Registers.FLAG_C
       = decide (0x60 ≤ Cpu.daa_adjust c)) ∧
    ((Cpu.add cpu45 0x38).1.regs.get Reg.A = 0x7D ∧
     (Cpu.add cpu45 0x38).1.regs.flag_is_set Registers.FLAG_H = false ∧
     (Cpu.add cpu45 0x38).1.regs.flag_is_set Registers.FLAG_C = false ∧
     (Cpu.daa (Cpu.add cpu45 0x38).1).1.regs.get Reg.A = 0x83) := by
  refine ⟨?_, by decide, by decide, by decide, by decide⟩
  by_cases h1 : c.regs.flag_is_set Registers.FLAG_N
    <;> by_cases h2 : c.regs.flag_is_set Registers.FLAG_C
    <;> by_cases h3 : c.regs.flag_is_set Registers.FLAG_H
    <;> by_cases h4 : (0x09 < c.regs.get Reg.A &&& 0x0f)
    <;> by_cases h5 : (0x99 < c.regs.get Reg.A)
    <;> (simp only [Cpu.daa, Cpu.daa_adjust, h1, h2, h3, h4, h5, Bool.not_false,
          Bool.not_true, if_true, if_false, ite_true, ite_false, Bool.false_eq_true,
          decide_True, decide_False]
         refine ⟨by trivial, ?_, ?_, ?_, ?_⟩
         · rw [(daa_flags_core c.regs _ _ (Nat.mod_lt _ (by decide))).1]
           exact (daa_flags_core c.regs _ _ (Nat.mod_lt _ (by decide))).2.1
         · exact (daa_flags_core c.regs _ _ (Nat.mod_lt _ (by decide))).2.2.1
         · rw [(daa_flags_core c.regs _ _ (Nat.mod_lt _ (by decide))).2.2.2.1]
           simp [h1]
         · exact (daa_flags_core c.regs _ _ (Nat.mod_lt _ (by decide))).2.2.2.2)

/-- C6: for every operand value, the 8-bit INC and DEC helpers leave
the C flag unchanged while fully determining Z, N and H; in particular
INC of 0x0F yields 0x10 with H=1, Z=0, and DEC of 0x10 yields 0x0F
with H=1, Z=0, N=1. -/
theorem C6_inc_dec_flags (c : Cpu) (v : Nat) :
    ((c.inc_value_and_set_flags v).2 = (v + 1) % 256 ∧
     (c.inc_value_and_set_flags v).1.regs.flag_is_set Registers.FLAG_C
       = c.regs.flag_is_set Registers.FLAG_C ∧
     (c.inc_value_and_set_flags v).1.regs.flag_is_set Registers.FLAG_Z
       = ((v + 1) % 256 == 0) ∧
     (c.inc_value_and_set_flags v).1.regs.flag_is_set Registers.FLAG_N = false ∧
     (c.inc_value_and_set_flags v).1.regs.flag_is_set Registers.FLAG_H
       = ((((v &&& 0x0f) + 1) &&& 0x10) == 0x10)) ∧
    ((c.dec_value_and_set_flags v).2 = (v + 256 - 1) % 256 ∧
     (c.dec_value_and_set_flags v).1.regs.flag_is_set Registers.FLAG_C
       = c.regs.flag_is_set Registers.FLAG_C ∧
     (c.dec_value_and_set_flags v).1.regs.flag_is_set Registers.FLAG_Z
       = ((v + 256 - 1) % 256 == 0) ∧
     (c.dec_value_and_set_flags v).1.regs.flag_is_set Registers.FLAG_N = true ∧
     (c.dec_value_and_set_flags v).1.regs.flag_is_set Registers.FLAG_H
       = (((((v &&& 0x0f) + 256 - 1) % 256 &&& 0x10)) == 0x10)) ∧
    ((c.inc_value_and_set_flags 0x0F).2 = 0x10 ∧
     (c.inc_value_and_set_flags 0x0F).1.regs.flag_is_set Registers.FLAG_H = true ∧
     (c.inc_value_and_set_flags 0x0F).1.regs.flag_is_set Registers.FLAG_Z = false ∧
     (c.dec_value_and_set_flags 0x10).2 = 0x0F ∧
     (c.dec_value_and_set_flags 0x10).1.regs.flag_is_set Registers.FLAG_H = true ∧
     (c.dec_value_and_set_flags 0x10).1.regs.flag_is_set Registers.FLAG_Z = false ∧
     (c.dec_value_and_set_flags 0x10).1.regs.flag_is_set Registers.FLAG_N = true) := by
  refine ⟨(inc_dec_flag_contract c v).1, (inc_dec_flag_contract c v).2,
    rfl, ?_, ?_, rfl, ?_, ?_, ?_⟩
  · rw [(inc_dec_flag_contract c 0x0F).1.2.2.2.2]
    decide
  · rw [(inc_dec_flag_contract c 0x0F).1.2.2.1]
    decide
  · rw [(inc_dec_flag_contract c 0x10).2.2.2.2.2]
    decide
  · rw [(inc_dec_flag_contract c 0x10).2.2.2.1]
    decide
  · rw [(inc_dec_flag_contract c 0x10).2.2.2.2.1]

/-- C7: for every opcode byte of the illegal set (0xD3, 0xDB, 0xDD,
0xE3, 0xE4, 0xEB, 0xEC, 0xED, 0xF4, 0xFC, 0xFD), `step` does not panic
and returns a cycle count of 0 with no register, SP, flag or memory
effect other than the PC increment of the opcode fetch. -/
theorem C7_illegal_opcodes (c : Cpu) (bus : Bus) (op : Nat)
    (hop : op = 0xd3 ∨ op = 0xdb ∨ op = 0xdd ∨ op = 0xe3 ∨ op = 0xe4 ∨
           op = 0xeb ∨ op = 0xec ∨ op = 0xed ∨ op = 0xf4 ∨ op = 0xfc ∨ op = 0xfd)
    (hhalt : c.halted = false) (hbp : c.pc ≠ c.breakpoint) (hbug : c.halt_bug = false)
    (hfetch : bus.read_byte c.pc = op) :
    Cpu.step c bus = some ({c with pc := (c.pc + 1) % 65536}, bus, 0) := by
  have hstep : Cpu.step c bus
      = Cpu.exec_op {c with pc := (c.pc + 1) % 65536} bus op := by
    rw [Cpu.step_eq]
    simp only [Cpu.step_tail, if_neg hbp, hhalt, if_false, Cpu.fetch, hbug, hfetch]
    rfl
  rw [hstep]
  rcases hop with h | h | h | h | h | h | h | h | h | h | h <;> subst h <;> rfl

theorem C7_witness :
    (busD3.read_byte 0xC000 = 0xd3 ∧
     {Cpu.default with pc := 0xC000}.halted = false ∧
     {Cpu.default with pc := 0xC000}.halt_bug = false ∧
     0xC000 ≠ {Cpu.default with pc := 0xC000}.breakpoint) ∧
    Cpu.step {Cpu.default with pc := 0xC000} busD3
      = some ({{Cpu.default with pc := 0xC000} with pc := 0xC001}, busD3, 0) := by
  refine ⟨⟨by decide, rfl, rfl, by decide⟩, ?_⟩
  have := C7_illegal_opcodes {Cpu.default with pc := 0xC000} busD3 0xd3
    (Or.inl rfl) rfl (by decide) rfl (by decide)
  simpa using this

/-- C8 counterexample: acknowledging an interrupt whose IF bit is clear
does not leave it clear — `toggle` sets it. -/
theorem C8_counterexample :
    (bus0.ack_interrupt InterruptFlag.VBLANK).interrupt_flag ≠ 0 := by decide

/-- C8 amended: `ack_interrupt` toggles (exclusive-ors) the given IF
bits rather than unconditionally clearing them; when the bits were set
(the dispatcher's only use), the toggle clears exactly those bits and
leaves every other IF bit unchanged. -/
theorem C8_ack_interrupt_toggle (bus : Bus) (f : Nat) :
    (Bus.ack_interrupt bus f).interrupt_flag = bus.interrupt_flag ^^^ f ∧
    (bus.interrupt_flag &&& f = f →
      ∀ i : Nat,
        (Bus.ack_interrupt bus f).interrupt_flag.testBit i
          = (if f.testBit i then false else bus.interrupt_flag.testBit i)) := by
  refine ⟨rfl, fun h i => ?_⟩
  have hb := congrArg (fun x => Nat.testBit x i) h
  simp only [Nat.testBit_and] at hb
  show (bus.interrupt_flag ^^^ f).testBit i = _
  cases hf : f.testBit i with
  | true =>
    rw [hf, Bool.and_true] at hb
    simp [Nat.testBit_xor, hf, hb]
  | false => simp [Nat.testBit_xor, hf]

theorem C8_witness :
    ({bus0 with interrupt_flag := 0b00101}.interrupt_flag &&& InterruptFlag.VBLANK
        = InterruptFlag.VBLANK) ∧
    (Bus.ack_interrupt {bus0 with interrupt_flag := 0b00101}
        InterruptFlag.VBLANK).interrupt_flag = 0b00100 ∧
    (∀ i : Nat,
      (Bus.ack_interrupt {bus0 with interrupt_flag := 0b00101}
          InterruptFlag.VBLANK).interrupt_flag.testBit i
        = (if (InterruptFlag.VBLANK : Nat).testBit i then false
           else ({bus0 with interrupt_flag := 0b00101} : Bus).interrupt_flag.testBit i)) := by
  refine ⟨by decide, by decide, ?_⟩
  exact (C8_ack_interrupt_toggle {bus0 with interrupt_flag := 0b00101}
    InterruptFlag.VBLANK).2 (by decide)

/-- C9: the low 4 bits of the AF register pair stay zero:
`set_pair AF v` stores `(v % 2^16) & 0xFFF0` for every `v`, and every
other register or flag operation (flag set/clear/set-value, a write to
A, a pop into AF) preserves a zero low nibble of `get_pair AF`. -/
theorem C9_af_low_nibble (regs : Registers) (v f a : Nat) (b : Bool) (r : Reg)
    (c : Cpu) (bus : Bus) :
    ((regs.set_pair RegPair.AF v).af = (v % 65536) &&& 0xFFF0) ∧
    ((regs.set_pair RegPair.AF v).get_pair RegPair.AF &&& 0xF = 0) ∧
    (f &&& 0xF = 0 → regs.get_pair RegPair.AF &&& 0xF = 0 →
      (regs.flag_set f).get_pair RegPair.AF &&& 0xF = 0) ∧
    (regs.get_pair RegPair.AF &&& 0xF = 0 →
      (regs.flag_clear f).get_pair RegPair.AF &&& 0xF = 0) ∧
    (f &&& 0xF = 0 → regs.get_pair RegPair.AF &&& 0xF = 0 →
      (regs.flag_set_value f b).get_pair RegPair.AF &&& 0xF = 0) ∧
    (regs.get_pair RegPair.AF &&& 0xF = 0 →
      (regs.set r a).get_pair RegPair.AF &&& 0xF = 0) ∧
    ((Cpu.pop_rr c bus RegPair.AF).1.regs.get_pair RegPair.AF &&& 0xF = 0) := by
  have hclear : ∀ (rg : Registers) (g : Nat), rg.af &&& 0xF = 0 →
      (rg.flag_clear g).af &&& 0xF = 0 := by
    intro rg g h
    show (rg.af &&& (0xFFFF ^^^ g)) &&& 0xF = 0
    rw [Nat.and_assoc, Nat.and_comm (0xFFFF ^^^ g) 0xF, ← Nat.and_assoc, h, Nat.zero_and]
  have hset : ∀ (rg : Registers) (g : Nat), g &&& 0xF = 0 → rg.af &&& 0xF = 0 →
      (rg.flag_set g).af &&& 0xF = 0 := by
    intro rg g hg h
    show (rg.af ||| g) &&& 0xF = 0
    rw [nat_and_or_right, h, hg]
    rfl
  have hsp : ∀ (rg : Registers) (w : Nat), (rg.set_pair RegPair.AF w).af &&& 0xF = 0 := by
    intro rg w
    show ((w % 65536) &&& 0xFFF0) &&& 0xF = 0
    rw [Nat.and_assoc, (by decide : (0xFFF0 &&& 0xF : Nat) = 0), Nat.and_zero]
  refine ⟨rfl, hsp regs v, hset regs f, hclear regs f, ?_, ?_, ?_⟩
  · intro hf h
    show (regs.flag_set_value f b).af &&& 0xF = 0
    unfold Registers.flag_set_value
    split
    · exact hset regs f hf h
    · exact hclear regs f h
  · intro h
    cases r
    case A =>
      show (((a % 256) <<< 8) ||| (regs.af &&& 0xFF)) &&& 0xF = 0
      rw [nat_and_or_right, shl8_low _ _ (by norm_num), Nat.zero_or,
          Nat.and_assoc, (by decide : (0xFF &&& 0xF : Nat) = 0xF)]
      exact h
    all_goals exact h
  · show (c.regs.set_pair RegPair.AF (Bus.read_word bus c.sp)).af &&& 0xF = 0
    exact hsp c.regs (Bus.read_word bus c.sp)

theorem C9_witness :
    (Registers.FLAG_Z &&& 0xF = 0 ∧
     (⟨0x1230, 0, 0, 0⟩ : Registers).get_pair RegPair.AF &&& 0xF = 0) ∧
    ((⟨0x1230, 0, 0, 0⟩ : Registers).flag_set Registers.FLAG_Z).get_pair RegPair.AF
      &&& 0xF = 0 ∧
    ((⟨0x1230, 0, 0, 0⟩ : Registers).flag_clear Registers.FLAG_C).get_pair RegPair.AF
      &&& 0xF = 0 ∧
    ((⟨0x1230, 0, 0, 0⟩ : Registers).flag_set_value Registers.FLAG_H true).get_pair
      RegPair.AF &&& 0xF = 0 ∧
    ((⟨0x1230, 0, 0, 0⟩ : Registers).set Reg.A 0xAB).get_pair RegPair.AF &&& 0xF = 0 := by
  refine ⟨⟨by decide, by decide⟩, ?_, ?_, ?_, ?_⟩
  · exact (C9_af_low_nibble ⟨0x1230, 0, 0, 0⟩ 0 Registers.FLAG_Z 0 true Reg.A
      Cpu.default bus0).2.2.1 (by decide) (by decide)
  · exact (C9_af_low_nibble ⟨0x1230, 0, 0, 0⟩ 0 Registers.FLAG_C 0 true Reg.A
      Cpu.default bus0).2.2.2.1 (by decide)
  · exact (C9_af_low_nibble ⟨0x1230, 0, 0, 0⟩ 0 Registers.FLAG_H 0 true Reg.A
      Cpu.default bus0).2.2.2.2.1 (by decide) (by decide)
  · exact (C9_af_low_nibble ⟨0x1230, 0, 0, 0⟩ 0 0 0xAB true Reg.A
      Cpu.default bus0).2.2.2.2.2.1 (by decide)

end GbRs
